import Mathlib

/-!
# rewired-server-2024: wire codec, door engine, liveness tracker, dispatcher

A shallow embedding of `internal/utils`, `internal/packet`,
`internal/doorpass/v1`, `internal/population`, `internal/gateconnection`,
`internal/packetpass` and the origin check of `internal/ws`, with the
properties of the specification that concern them.

Conventions of the embedding:

* a Go `byte` / `uint8` / `uint16` / `uint32` is a `Nat`, reduced modulo the
  width wherever the Go operation can overflow;
* a Go `int32` / `int64` is an `Int`; `int32 x` is the wrapping conversion;
* a Go method with a pointer receiver that also returns an `error` becomes a
  function returning the new receiver together with `Option Err`
  (`none` is Go's `nil` error);
* a run-time panic (index out of range, nil dereference) is `Option.none`.
-/

namespace Rewired

/-! ## Errors -/

/-- The error values of `internal/packet` (the `Err...` variables), `io.EOF`, the
anonymous error of `utils.TimeToInt32`, `gorm.ErrRecordNotFound`, and `ErrStore`
for any other error of a Store operation (a violated constraint, a failed
write). -/
inductive Err where
  | ErrRequireVersionAndPacketType
  | ErrVersionMismatch
  | ErrPacketTypeMismatch
  | ErrInvalidPacketType
  | ErrInvalidGateStatus
  | ErrEmptyRawData
  | ErrInvalidBinarySize
  | ErrInvalidTimestamp
  | EOF
  | ErrTimeNotInt32
  | ErrRecordNotFound
  | ErrStore
deriving DecidableEq, Repr

/-! ## internal/utils -/

/-- Go `byte(x)` for an unsigned value: the low eight bits. -/
def byte (x : Nat) : Nat := x % 256

/-- Go `byte(x)` for a signed value: the low eight bits of the two's complement. -/
def byteOfInt (x : Int) : Nat := (x % 256).toNat

/-- Go `int32(x)` for an `int64` (or `uint32`) value: wrap into the signed 32-bit range. -/
def int32 (x : Int) : Int := (x + 2147483648) % 4294967296 - 2147483648

/-- Function `utils.SplitByteInto2FourBits`. -/
def SplitByteInto2FourBits (b : Nat) : Nat × Nat :=
  let b1 := (b >>> 4) &&& 0x0F
  let b2 := b &&& 0x0F
  (b1, b2)

/-- Function `utils.Join2FourBitsIntoByte`; the shift is a `uint8` shift, so it
is reduced modulo 256. -/
def Join2FourBitsIntoByte (i j : Nat) : Nat :=
  ((i <<< 4) % 256) ||| j

/-- A `time.Time`, as far as this program observes it: the Unix seconds and the
nanoseconds within the second (the location plays no part in the codec). -/
structure Time where
  sec : Int
  nsec : Nat
deriving DecidableEq, Repr

/-- Method `t.Unix()`. -/
def Time.Unix (t : Time) : Int := t.sec

/-- Call `time.Unix(sec, 0)`. -/
def unixTime (sec : Int) : Time := { sec := sec, nsec := 0 }

/-- Function `utils.TimeToInt32`: the value and the error. -/
def TimeToInt32 (t : Time) : Int × Option Err :=
  let unixTimestamp := t.Unix
  if unixTimestamp ≤ 2147483647 ∧ unixTimestamp ≥ -2147483648 then
    (int32 unixTimestamp, none)
  else
    (0, some Err.ErrTimeNotInt32)

/-! ## internal/packet -/

/-- Constant `CURRENT_VERSION`. -/
def CURRENT_VERSION : Nat := 1

/-- Constant `PacketTypeHeartbeat`. -/
def PacketTypeHeartbeat : Nat := 1
/-- Constant `PacketTypeGateStatus`. -/
def PacketTypeGateStatus : Nat := 2
/-- Constant `PacketTypeIncrement`. -/
def PacketTypeIncrement : Nat := 3
/-- Constant `PacketTypeDecrement`. -/
def PacketTypeDecrement : Nat := 4

/-- Constant `GateStatusTurnOn`. -/
def GateStatusTurnOn : Nat := 1
/-- Constant `GateStatusUnblocked`. -/
def GateStatusUnblocked : Nat := 2
/-- Constant `GateStatusBlocked`. -/
def GateStatusBlocked : Nat := 3
/-- Constant `GateStatusFaulty`. -/
def GateStatusFaulty : Nat := 4

/-- Struct `RawPacket`. -/
structure RawPacket where
  raw : List Nat
  Version : Nat
  PacketType : Nat
deriving DecidableEq, Repr

/-- Method `RawPacket.MarshalBinary`. -/
def RawPacket.MarshalBinary (p : RawPacket) : Except Err (List Nat) :=
  if p.raw.length = 0 then
    Except.error Err.ErrEmptyRawData
  else
    let versionAndPacketType := Join2FourBitsIntoByte p.Version (byte p.PacketType)
    let data := [versionAndPacketType] ++ p.raw
    Except.ok data

/-- An `io.Reader` over a finite byte sequence (the behaviour of `bytes.Reader`):
`unread` is what has not been read yet. -/
structure Reader where
  unread : List Nat
deriving DecidableEq, Repr

/-- What one `Read` call leaves behind: the buffer, the reader, the count and
the error. -/
structure ReadResult where
  buf : List Nat
  reader : Reader
  n : Nat
  err : Option Err
deriving DecidableEq, Repr

/-- Method `Read(b)` of the byte-sequence reader: `io.EOF` when nothing is left,
otherwise as many bytes as fit and are available are copied to the front of `b`. -/
def Reader.Read (r : Reader) (b : List Nat) : ReadResult :=
  if r.unread.length = 0 then
    { buf := b, reader := r, n := 0, err := some Err.EOF }
  else
    let n := min b.length r.unread.length
    { buf := r.unread.take n ++ b.drop n, reader := { unread := r.unread.drop n }, n := n,
      err := none }

/-- Method `RawPacket.ReadPackets`: the receiver, the reader and the error
after the call. -/
def RawPacket.ReadPackets (p : RawPacket) (connReader : Reader) :
    RawPacket × Reader × Option Err :=
  let firstPacketBuf := List.replicate 1 0
  let r1 := connReader.Read firstPacketBuf
  match r1.err with
  | some err => (p, r1.reader, some err)
  | none =>
    let firstPacket := r1.buf.getD 0 0
    let (version, packetType) := SplitByteInto2FourBits firstPacket
    if version ≠ CURRENT_VERSION then
      (p, r1.reader, some Err.ErrVersionMismatch)
    else
      let p := { p with Version := version }
      if packetType = PacketTypeHeartbeat ∨ packetType = PacketTypeDecrement
          ∨ packetType = PacketTypeIncrement then
        let p := { p with PacketType := packetType }
        let packetData := List.replicate 2 0
        let r2 := r1.reader.Read packetData
        match r2.err with
        | some err => (p, r2.reader, some err)
        | none => ({ p with raw := r2.buf }, r2.reader, none)
      else if packetType = PacketTypeGateStatus then
        let p := { p with PacketType := PacketTypeGateStatus }
        let gateStatusPacketData := List.replicate 7 0
        let r2 := r1.reader.Read gateStatusPacketData
        match r2.err with
        | some err => (p, r2.reader, some err)
        | none => ({ p with raw := r2.buf }, r2.reader, none)
      else
        (p, r1.reader, some Err.ErrInvalidPacketType)

/-- Function `binary.BigEndian.Uint16`; every caller has checked that two bytes
are there. -/
def BigEndianUint16 (b : List Nat) : Nat :=
  b.getD 1 0 ||| (b.getD 0 0 <<< 8)

/-- Function `binary.BigEndian.PutUint16` on a slice of at least two bytes. -/
def BigEndianPutUint16 (b : List Nat) (v : Nat) : List Nat :=
  (b.set 0 (byte (v >>> 8))).set 1 (byte v)

/-- Call `binary.Read(bytes.NewReader(b), binary.BigEndian, &timeData)` for an
`int32`: four bytes, most significant first; `none` when fewer are there. -/
def binaryReadInt32 (b : List Nat) : Option Int :=
  match b with
  | b0 :: b1 :: b2 :: b3 :: _ =>
    some (int32 ((b3 ||| (b2 <<< 8) ||| (b1 <<< 16) ||| (b0 <<< 24) : Nat) : Int))
  | _ => none

/-- An indexed store `s[i] = v`; `none` is the index-out-of-range panic. -/
def setIndex (s : List Nat) (i v : Nat) : Option (List Nat) :=
  if i < s.length then some (s.set i v) else none

/-- Struct `HeartbeatPacket`. -/
structure HeartbeatPacket extends RawPacket where
  GateID : Nat
deriving DecidableEq, Repr

/-- Method `HeartbeatPacket.Parse`. -/
def HeartbeatPacket.Parse (p : HeartbeatPacket) (rawPacket : RawPacket) :
    HeartbeatPacket × Option Err :=
  if rawPacket.raw.length ≠ 2 then
    (p, some Err.ErrInvalidBinarySize)
  else if rawPacket.PacketType ≠ PacketTypeHeartbeat then
    (p, some Err.ErrPacketTypeMismatch)
  else
    ({ p with GateID := BigEndianUint16 rawPacket.raw, Version := rawPacket.Version,
              PacketType := rawPacket.PacketType }, none)

/-- Method `HeartbeatPacket.SetGateID`. -/
def HeartbeatPacket.SetGateID (p : HeartbeatPacket) (gateID : Nat) : HeartbeatPacket :=
  { p with GateID := gateID, raw := BigEndianPutUint16 (List.replicate 2 0) gateID }

/-- Struct `IncrementPacket`. -/
structure IncrementPacket extends RawPacket where
  GateID : Nat
deriving DecidableEq, Repr

/-- Method `IncrementPacket.Parse`. -/
def IncrementPacket.Parse (p : IncrementPacket) (rawPacket : RawPacket) :
    IncrementPacket × Option Err :=
  if rawPacket.raw.length ≠ 2 then
    (p, some Err.ErrInvalidBinarySize)
  else if rawPacket.PacketType ≠ PacketTypeIncrement then
    (p, some Err.ErrPacketTypeMismatch)
  else
    ({ p with GateID := BigEndianUint16 rawPacket.raw, Version := rawPacket.Version,
              PacketType := rawPacket.PacketType }, none)

/-- Method `IncrementPacket.SetGateID`. -/
def IncrementPacket.SetGateID (p : IncrementPacket) (gateID : Nat) : IncrementPacket :=
  { p with GateID := gateID, raw := BigEndianPutUint16 (List.replicate 2 0) gateID }

/-- Struct `DecrementPacket`. -/
structure DecrementPacket extends RawPacket where
  GateID : Nat
deriving DecidableEq, Repr

/-- Method `DecrementPacket.Parse`. -/
def DecrementPacket.Parse (p : DecrementPacket) (rawPacket : RawPacket) :
    DecrementPacket × Option Err :=
  if rawPacket.raw.length ≠ 2 then
    (p, some Err.ErrInvalidBinarySize)
  else if rawPacket.PacketType ≠ PacketTypeDecrement then
    (p, some Err.ErrPacketTypeMismatch)
  else
    ({ p with GateID := BigEndianUint16 rawPacket.raw, Version := rawPacket.Version,
              PacketType := rawPacket.PacketType }, none)

/-- Method `DecrementPacket.SetGateID`. -/
def DecrementPacket.SetGateID (p : DecrementPacket) (gateID : Nat) : DecrementPacket :=
  { p with GateID := gateID, raw := BigEndianPutUint16 (List.replicate 2 0) gateID }

/-- Struct `GateStatusPacket`. -/
structure GateStatusPacket extends RawPacket where
  GateID : Nat
  Status : Nat
  TriggerTime : Time
deriving DecidableEq, Repr

/-- Method `GateStatusPacket.Parse`. The fields are assigned in the order of the
source, so a bad status byte is reported after the other fields were written. -/
def GateStatusPacket.Parse (p : GateStatusPacket) (rawPacket : RawPacket) :
    GateStatusPacket × Option Err :=
  if rawPacket.raw.length ≠ 7 then
    (p, some Err.ErrInvalidBinarySize)
  else if rawPacket.PacketType ≠ PacketTypeGateStatus then
    (p, some Err.ErrPacketTypeMismatch)
  else
    let p := { p with GateID := BigEndianUint16 (rawPacket.raw.take 2),
                      Version := rawPacket.Version, PacketType := rawPacket.PacketType }
    match binaryReadInt32 (rawPacket.raw.drop 3) with
    | none => (p, some Err.ErrInvalidTimestamp)
    | some timeData =>
      let p := { p with TriggerTime := unixTime timeData }
      let status := rawPacket.raw.getD 2 0
      if status = GateStatusTurnOn ∨ status = GateStatusUnblocked
          ∨ status = GateStatusBlocked ∨ status = GateStatusFaulty then
        ({ p with Status := status }, none)
      else
        (p, some Err.ErrInvalidGateStatus)

/-- The step `if len(p.raw) == 0 { p.raw = make([]byte, 7) }` shared by the
three setters of `GateStatusPacket`. -/
def GateStatusPacket.ensureRaw (p : GateStatusPacket) : GateStatusPacket :=
  if p.raw.length = 0 then { p with raw := List.replicate 7 0 } else p

/-- Method `GateStatusPacket.SetGateID`. -/
def GateStatusPacket.SetGateID (p : GateStatusPacket) (gateID : Nat) : Option GateStatusPacket :=
  let p := { p with GateID := gateID }
  let p := p.ensureRaw
  match setIndex p.raw 0 (byte (gateID >>> 8)) with
  | none => none
  | some raw0 =>
    match setIndex raw0 1 (byte gateID) with
    | none => none
    | some raw1 => some { p with raw := raw1 }

/-- Method `GateStatusPacket.SetStatus`. -/
def GateStatusPacket.SetStatus (p : GateStatusPacket) (status : Nat) : Option GateStatusPacket :=
  let p := { p with Status := status }
  let p := p.ensureRaw
  match setIndex p.raw 2 (byte status) with
  | none => none
  | some raw2 => some { p with raw := raw2 }

/-- Method `GateStatusPacket.SetTimestamp`: the packet and the returned error. -/
def GateStatusPacket.SetTimestamp (p : GateStatusPacket) (triggerTime : Time) :
    Option (GateStatusPacket × Option Err) :=
  match TimeToInt32 triggerTime with
  | (_, some err) => some (p, some err)
  | (int32Time, none) =>
    let p := { p with TriggerTime := triggerTime }
    let p := p.ensureRaw
    match setIndex p.raw 3 (byteOfInt (int32Time >>> (24 : Nat))) with
    | none => none
    | some raw3 =>
      match setIndex raw3 4 (byteOfInt (int32Time >>> (16 : Nat))) with
      | none => none
      | some raw4 =>
        match setIndex raw4 5 (byteOfInt (int32Time >>> (8 : Nat))) with
        | none => none
        | some raw5 =>
          match setIndex raw5 6 (byteOfInt int32Time) with
          | none => none
          | some raw6 => some ({ p with raw := raw6 }, none)

/-- One call of a setter of `GateStatusPacket`, with its argument. -/
inductive GateStatusSetter where
  | SetGateID (gateID : Nat)
  | SetStatus (status : Nat)
  | SetTimestamp (triggerTime : Time)
deriving DecidableEq, Repr

/-- Performs one setter call on `p`: the packet and the error the call returned
(`SetGateID` and `SetStatus` return nothing, so no error). -/
def GateStatusPacket.call (p : GateStatusPacket) :
    GateStatusSetter → Option (GateStatusPacket × Option Err)
  | GateStatusSetter.SetGateID gateID => (p.SetGateID gateID).map (fun p1 => (p1, none))
  | GateStatusSetter.SetStatus status => (p.SetStatus status).map (fun p1 => (p1, none))
  | GateStatusSetter.SetTimestamp triggerTime => p.SetTimestamp triggerTime

/-- Performs setter calls one after the other, stopping at the first error. -/
def GateStatusPacket.calls (p : GateStatusPacket) :
    List GateStatusSetter → Option (GateStatusPacket × Option Err)
  | [] => some (p, none)
  | c :: rest =>
    match p.call c with
    | none => none
    | some (p1, some err) => some (p1, some err)
    | some (p1, none) => p1.calls rest

/-! ## internal/doorpass/v1 -/

/-- Constant `time.Millisecond`, in nanoseconds (the unit of `time.Duration`). -/
def Millisecond : Int := 1000000

/-- Constant `ALLOWANCE_FRAME`. -/
def ALLOWANCE_FRAME : Int := 500 * Millisecond

/-- Constant `PASS_FRAME`. -/
def PASS_FRAME : Int := 1000 * Millisecond

/-- Method `t.Sub(u)` on two clock readings given in nanoseconds: the difference,
saturated to the range of `time.Duration` (an `int64`). -/
def Sub (t u : Int) : Int :=
  let d := t - u
  if d > 9223372036854775807 then 9223372036854775807
  else if d < -9223372036854775808 then -9223372036854775808
  else d

/-- Type `LastBlockedGate` with its three constants. -/
inductive LastBlockedGate where
  | LastBlockedGateNone
  | LastBlockedGateInner
  | LastBlockedGateOuter
deriving DecidableEq, Repr

open LastBlockedGate

/-- Struct `LastBlock`; a nil `*time.Time` is `none`. -/
structure LastBlock where
  Gate : LastBlockedGate
  Start : Option Int
  End : Option Int
deriving DecidableEq, Repr

/-- Struct `GateState`. -/
structure GateState where
  GateID : Nat
  LastActive : Option Int
deriving DecidableEq, Repr

/-- Struct `DoorState` (the mutex is not part of the data). -/
structure DoorState where
  DevicePairID : Nat
  InnerGateState : GateState
  OuterGateState : GateState
  InnerRoomID : Nat
  OuterRoomID : Nat
  LastBlocked : LastBlock
deriving DecidableEq, Repr

/-- The `room_populations` table as the door engine sees it: for a room id, the
`Population` (a `uint32`) of the row that `Where(RoomID).First` finds, or `none`
when there is no such row (`gorm.ErrRecordNotFound`). Room ids are primary keys,
so they start at 1. -/
abbrev Store := Nat → Option Nat

/-- Call `tx.Where(&db.RoomPopulation{RoomID: roomID}).First(..)`. -/
def Store.First (tx : Store) (roomID : Nat) : Option Nat := tx roomID

/-- Call `tx.Save(roomPopulation)` for the row of `roomID`. -/
def Store.Save (tx : Store) (roomID population : Nat) : Store :=
  Function.update tx roomID (some population)

/-- Call `db.Get().Transaction(fc)`: the effects of `fc` are kept when it returns
no error and rolled back when it returns one. -/
def Transaction (db : Store) (fc : Store → Store × Option Err) : Store × Option Err :=
  match fc db with
  | (tx, none) => (tx, none)
  | (_, some err) => (db, some err)

/-- The closure of the inner-gate branch: inner room `+= 1`, outer room `-= 1`,
both in `uint32` arithmetic. -/
def innerGateTx (doorState : DoorState) (tx : Store) : Store × Option Err :=
  match tx.First doorState.InnerRoomID with
  | none => (tx, some Err.ErrRecordNotFound)
  | some innerRoomPopulation =>
    let innerRoomPopulation := (innerRoomPopulation + 1) % 4294967296
    let tx := tx.Save doorState.InnerRoomID innerRoomPopulation
    match tx.First doorState.OuterRoomID with
    | none => (tx, some Err.ErrRecordNotFound)
    | some outerRoomPopulation =>
      let outerRoomPopulation := (outerRoomPopulation + 4294967296 - 1) % 4294967296
      let tx := tx.Save doorState.OuterRoomID outerRoomPopulation
      (tx, none)

/-- The closure of the outer-gate branch: outer room `+= 1`, inner room `-= 1`,
both in `uint32` arithmetic. -/
def outerGateTx (doorState : DoorState) (tx : Store) : Store × Option Err :=
  match tx.First doorState.OuterRoomID with
  | none => (tx, some Err.ErrRecordNotFound)
  | some outerRoomPopulation =>
    let outerRoomPopulation := (outerRoomPopulation + 1) % 4294967296
    let tx := tx.Save doorState.OuterRoomID outerRoomPopulation
    match tx.First doorState.InnerRoomID with
    | none => (tx, some Err.ErrRecordNotFound)
    | some innerRoomPopulation =>
      let innerRoomPopulation := (innerRoomPopulation + 4294967296 - 1) % 4294967296
      let tx := tx.Save doorState.InnerRoomID innerRoomPopulation
      (tx, none)

/-- The condition `lastActive.Sub(*LastBlocked.Start) > PASS_FRAME ||
now.Sub(*LastBlocked.End) > PASS_FRAME`, evaluated left to right with the
short circuit of `||`; `none` is the nil-pointer panic of a dereference. -/
def passFrameExceeded (lastActive now : Int) (lastBlocked : LastBlock) : Option Bool :=
  match lastBlocked.Start with
  | none => none
  | some start =>
    if Sub lastActive start > PASS_FRAME then some true
    else
      match lastBlocked.End with
      | none => none
      | some end_ => some (decide (Sub now end_ > PASS_FRAME))

/-- The body of `GateActive` once the door state has been found and locked, with
`now` the value of `time.Now()`: the door state and the store afterwards;
`none` is a nil-pointer panic. -/
def gateActiveOnDoor (gateID : Nat) (now : Int) (doorState : DoorState) (db : Store) :
    Option (DoorState × Store) :=
  -- inner gate logic
  if gateID = doorState.InnerGateState.GateID then
    match doorState.InnerGateState.LastActive with
    | none =>
      some ({ doorState with
        InnerGateState := { doorState.InnerGateState with LastActive := some now } }, db)
    | some lastActive =>
      if Sub now lastActive ≤ ALLOWANCE_FRAME then
        some ({ doorState with
          InnerGateState := { doorState.InnerGateState with LastActive := some now } }, db)
      else if doorState.LastBlocked.Gate = LastBlockedGateNone then
        some ({ doorState with
          LastBlocked := { Gate := LastBlockedGateInner, Start := some lastActive,
                           End := some now },
          InnerGateState := { doorState.InnerGateState with LastActive := some now } }, db)
      else if doorState.LastBlocked.Gate = LastBlockedGateInner then
        some ({ doorState with
          LastBlocked := { doorState.LastBlocked with Start := some lastActive,
                                                      End := some now },
          InnerGateState := { doorState.InnerGateState with LastActive := some now } }, db)
      else
        match passFrameExceeded lastActive now doorState.LastBlocked with
        | none => none
        | some exceeded =>
          let doorState :=
            if exceeded then
              { doorState with
                LastBlocked := { Gate := LastBlockedGateInner, Start := some lastActive,
                                 End := some now },
                InnerGateState := { doorState.InnerGateState with LastActive := some now } }
            else doorState
          let doorState := { doorState with
            LastBlocked := { Gate := LastBlockedGateNone, Start := none, End := none },
            InnerGateState := { doorState.InnerGateState with LastActive := some now } }
          let (db, _) := Transaction db (innerGateTx doorState)
          some (doorState, db)
  -- outer gate logic
  else if gateID = doorState.OuterGateState.GateID then
    match doorState.OuterGateState.LastActive with
    | none =>
      some ({ doorState with
        OuterGateState := { doorState.OuterGateState with LastActive := some now } }, db)
    | some lastActive =>
      if Sub now lastActive ≤ ALLOWANCE_FRAME then
        some ({ doorState with
          OuterGateState := { doorState.OuterGateState with LastActive := some now } }, db)
      else if doorState.LastBlocked.Gate = LastBlockedGateNone then
        some ({ doorState with
          LastBlocked := { Gate := LastBlockedGateOuter, Start := some lastActive,
                           End := some now },
          OuterGateState := { doorState.OuterGateState with LastActive := some now } }, db)
      else if doorState.LastBlocked.Gate = LastBlockedGateOuter then
        some ({ doorState with
          LastBlocked := { doorState.LastBlocked with Start := some lastActive,
                                                      End := some now },
          OuterGateState := { doorState.OuterGateState with LastActive := some now } }, db)
      else
        match passFrameExceeded lastActive now doorState.LastBlocked with
        | none => none
        | some exceeded =>
          let doorState :=
            if exceeded then
              { doorState with
                LastBlocked := { Gate := LastBlockedGateOuter, Start := some lastActive,
                                 End := some now },
                OuterGateState := { doorState.OuterGateState with LastActive := some now } }
            else doorState
          let doorState := { doorState with
            LastBlocked := { Gate := LastBlockedGateNone, Start := none, End := none },
            OuterGateState := { doorState.OuterGateState with LastActive := some now } }
          let (db, _) := Transaction db (outerGateTx doorState)
          some (doorState, db)
  else
    some (doorState, db)

/-- The process state the door engine works on: the package variable
`doorStates` (gate id to the address of a `DoorState`), the `DoorState` objects
by address, and the store. -/
structure World where
  doorStates : Nat → Option Nat
  heap : Nat → DoorState
  db : Store

/-- Function `GateActive`, with the reading of `time.Now()` as a parameter. -/
def GateActive (gateID : Nat) (now : Int) (w : World) : Option World :=
  match w.doorStates gateID with
  | none => some w
  | some ptr =>
    match gateActiveOnDoor gateID now (w.heap ptr) w.db with
    | none => none
    | some (doorState, db) =>
      some { w with heap := Function.update w.heap ptr doorState, db := db }

/-- The columns of a `db.DevicePair` row, with its joined gates, that `Init` reads. -/
structure DevicePair where
  ID : Nat
  InnerGateGateID : Nat
  OuterGateGateID : Nat
  InnerRoomID : Nat
  OuterRoomID : Nat
deriving DecidableEq, Repr

/-- The `DoorState` literal that `Init` builds for one device pair. -/
def newDoorState (devicePair : DevicePair) : DoorState :=
  { DevicePairID := devicePair.ID
    InnerGateState := { GateID := devicePair.InnerGateGateID, LastActive := none }
    OuterGateState := { GateID := devicePair.OuterGateGateID, LastActive := none }
    LastBlocked := { Gate := LastBlockedGateNone, Start := none, End := none }
    InnerRoomID := devicePair.InnerRoomID
    OuterRoomID := devicePair.OuterRoomID }

/-- The loop of `Init`: the door state of the next pair is allocated at address
`ptr` and entered under both of its gate ids. -/
def initLoop : List DevicePair → Nat → (Nat → Option Nat) × (Nat → DoorState) →
    (Nat → Option Nat) × (Nat → DoorState)
  | [], _, acc => acc
  | devicePair :: rest, ptr, (initDoorStates, heap) =>
    let initDoorStates := Function.update initDoorStates devicePair.InnerGateGateID (some ptr)
    let initDoorStates := Function.update initDoorStates devicePair.OuterGateGateID (some ptr)
    initLoop rest (ptr + 1) (initDoorStates, Function.update heap ptr (newDoorState devicePair))

/-- Function `Init` on the device pairs that the query returned, over a store
`db`. Addresses that hold no door state are never in `doorStates`. -/
def Init (devicePairs : List DevicePair) (db : Store) : World :=
  let (initDoorStates, heap) :=
    initLoop devicePairs 0 (fun _ => none, fun _ => newDoorState ⟨0, 0, 0, 0, 0⟩)
  { doorStates := initDoorStates, heap := heap, db := db }

/-- A sequence of `GateActive` calls, each with its gate id and clock reading. -/
def runGateActive : List (Nat × Int) → World → Option World
  | [], w => some w
  | (gateID, now) :: rest, w =>
    match GateActive gateID now w with
    | none => none
    | some w1 => runGateActive rest w1


/-- The body of `GateActive` with the `PASS_FRAME` test and the reassignment
block it guards deleted, everything else as in `gateActiveOnDoor`: the function
that the specification says the code is equal to. -/
def gateActiveOnDoorNoPassFrame (gateID : Nat) (now : Int) (doorState : DoorState)
    (db : Store) : Option (DoorState × Store) :=
  if gateID = doorState.InnerGateState.GateID then
    match doorState.InnerGateState.LastActive with
    | none =>
      some ({ doorState with
        InnerGateState := { doorState.InnerGateState with LastActive := some now } }, db)
    | some lastActive =>
      if Sub now lastActive ≤ ALLOWANCE_FRAME then
        some ({ doorState with
          InnerGateState := { doorState.InnerGateState with LastActive := some now } }, db)
      else if doorState.LastBlocked.Gate = LastBlockedGateNone then
        some ({ doorState with
          LastBlocked := { Gate := LastBlockedGateInner, Start := some lastActive,
                           End := some now },
          InnerGateState := { doorState.InnerGateState with LastActive := some now } }, db)
      else if doorState.LastBlocked.Gate = LastBlockedGateInner then
        some ({ doorState with
          LastBlocked := { doorState.LastBlocked with Start := some lastActive,
                                                      End := some now },
          InnerGateState := { doorState.InnerGateState with LastActive := some now } }, db)
      else
        let doorState := { doorState with
          LastBlocked := { Gate := LastBlockedGateNone, Start := none, End := none },
          InnerGateState := { doorState.InnerGateState with LastActive := some now } }
        let (db, _) := Transaction db (innerGateTx doorState)
        some (doorState, db)
  else if gateID = doorState.OuterGateState.GateID then
    match doorState.OuterGateState.LastActive with
    | none =>
      some ({ doorState with
        OuterGateState := { doorState.OuterGateState with LastActive := some now } }, db)
    | some lastActive =>
      if Sub now lastActive ≤ ALLOWANCE_FRAME then
        some ({ doorState with
          OuterGateState := { doorState.OuterGateState with LastActive := some now } }, db)
      else if doorState.LastBlocked.Gate = LastBlockedGateNone then
        some ({ doorState with
          LastBlocked := { Gate := LastBlockedGateOuter, Start := some lastActive,
                           End := some now },
          OuterGateState := { doorState.OuterGateState with LastActive := some now } }, db)
      else if doorState.LastBlocked.Gate = LastBlockedGateOuter then
        some ({ doorState with
          LastBlocked := { doorState.LastBlocked with Start := some lastActive,
                                                      End := some now },
          OuterGateState := { doorState.OuterGateState with LastActive := some now } }, db)
      else
        let doorState := { doorState with
          LastBlocked := { Gate := LastBlockedGateNone, Start := none, End := none },
          OuterGateState := { doorState.OuterGateState with LastActive := some now } }
        let (db, _) := Transaction db (outerGateTx doorState)
        some (doorState, db)
  else
    some (doorState, db)

/-- Function `GateActive` over `gateActiveOnDoorNoPassFrame`. -/
def GateActiveNoPassFrame (gateID : Nat) (now : Int) (w : World) : Option World :=
  match w.doorStates gateID with
  | none => some w
  | some ptr =>
    match gateActiveOnDoorNoPassFrame gateID now (w.heap ptr) w.db with
    | none => none
    | some (doorState, db) =>
      some { w with heap := Function.update w.heap ptr doorState, db := db }

/-- The device pair of the scenarios of the specification: pair 1, inner gate 100,
outer gate 200, inner room R1 = 1, outer room R2 = 2. -/
def scenarioPair : DevicePair :=
  { ID := 1, InnerGateGateID := 100, OuterGateGateID := 200, InnerRoomID := 1, OuterRoomID := 2 }

/-- A store with room 1 at population `r1`, room 2 at population `r2`, and no
other room. -/
def scenarioStore (r1 r2 : Nat) : Store :=
  fun roomID => if roomID = 1 then some r1 else if roomID = 2 then some r2 else none

/-- The world right after `Init` for the scenario pair. -/
def scenarioWorld (r1 r2 : Nat) : World := Init [scenarioPair] (scenarioStore r1 r2)

/-- The two shapes of a `LastBlock` that the engine builds: nothing recorded
(`None` with both instants nil), or a side with both instants set. -/
def LastBlock.consistent (lb : LastBlock) : Prop :=
  (lb.Gate = LastBlockedGateNone ∧ lb.Start = none ∧ lb.End = none) ∨
    (lb.Gate ≠ LastBlockedGateNone ∧ lb.Start ≠ none ∧ lb.End ≠ none)

instance (lb : LastBlock) : Decidable lb.consistent := by
  unfold LastBlock.consistent
  infer_instance

/-- A world with one door `d`, at address 0 and entered under both of its gate
ids, over the store `db`. -/
def singleDoorWorld (d : DoorState) (db : Store) : World :=
  { doorStates := fun gateID =>
      if gateID = d.InnerGateState.GateID ∨ gateID = d.OuterGateState.GateID then some 0
      else none
    heap := fun _ => d
    db := db }

/-- The scenario door with given `LastActive` readings and `LastBlocked`. -/
def scenarioDoor (innerLastActive outerLastActive : Option Int) (lastBlocked : LastBlock) :
    DoorState :=
  { DevicePairID := 1
    InnerGateState := { GateID := 100, LastActive := innerLastActive }
    OuterGateState := { GateID := 200, LastActive := outerLastActive }
    InnerRoomID := 1
    OuterRoomID := 2
    LastBlocked := lastBlocked }

/-- The zero value `time.Time{}`: 1 January of year 1, 00:00:00 UTC. -/
def zeroTime : Time := { sec := -62135596800, nsec := 0 }

/-- The zero value `HeartbeatPacket{}`. -/
def HeartbeatPacket.zero : HeartbeatPacket :=
  { raw := [], Version := 0, PacketType := 0, GateID := 0 }

/-- The zero value `IncrementPacket{}`. -/
def IncrementPacket.zero : IncrementPacket :=
  { raw := [], Version := 0, PacketType := 0, GateID := 0 }

/-- The zero value `DecrementPacket{}`. -/
def DecrementPacket.zero : DecrementPacket :=
  { raw := [], Version := 0, PacketType := 0, GateID := 0 }

/-- The zero value `GateStatusPacket{}`. -/
def GateStatusPacket.zero : GateStatusPacket :=
  { raw := [], Version := 0, PacketType := 0, GateID := 0, Status := 0, TriggerTime := zeroTime }

/-! ## internal/ws: the origin policy -/

/-- Call `strings.Split(s, sep)` for a one-character separator, on a string given
as its list of characters: the pieces between the separators, in order (one
piece, `s` itself, when the separator does not occur). -/
def stringsSplit (sep : Char) : List Char → List (List Char)
  | [] => [[]]
  | c :: cs =>
    if c = sep then [] :: stringsSplit sep cs
    else
      match stringsSplit sep cs with
      | [] => [[c]]
      | piece :: rest => (c :: piece) :: rest

/-- Call `strings.Join(pieces, sep)` for a one-character separator. -/
def stringsJoin (sep : Char) : List (List Char) → List Char
  | [] => []
  | [piece] => piece
  | piece :: next :: rest => piece ++ sep :: stringsJoin sep (next :: rest)

/-- Function `checkOrigin`, on `origins` = `settings.Get().Origins` and `origin` =
`r.Header.Get("Origin")` (the empty string when the header is absent). -/
def checkOrigin (origins origin : List Char) : Bool :=
  if origins = ['*'] then
    true
  else if ¬ (',' ∈ origins) then
    -- single origin
    decide (origins = origin)
  else
    decide (origin ∈ stringsSplit ',' origins)

/-! ## internal/db, internal/population -/

/-- A row of `devices` as the code uses it: the primary key, the `GateID` column
and `Status`. -/
structure Device where
  ID : Nat
  GateID : Nat
  Status : Nat
deriving DecidableEq, Repr

/-- A row of `device_pairs`: the primary key and the four foreign keys
(`InnerGateID` and `OuterGateID` are primary keys of `devices`). -/
structure DevicePairRow where
  ID : Nat
  InnerGateID : Nat
  OuterGateID : Nat
  InnerRoomID : Nat
  OuterRoomID : Nat
deriving DecidableEq, Repr

/-- A row of `device_logs`. -/
structure DeviceLog where
  DeviceID : Nat
  LogType : Nat
  Status : Option Nat
  TriggerTime : Option Time
deriving DecidableEq, Repr

/-- The Store: `devices` and `devicePairs` are the tables in primary-key order,
`roomPopulations` gives the population row of a room, `deviceLogs` is the table
in insertion order, and `nextDeviceID` is the next primary key of `devices`. -/
structure DB where
  devices : List Device
  nextDeviceID : Nat
  devicePairs : List DevicePairRow
  roomPopulations : Store
  deviceLogs : List DeviceLog

/-- The query `db.Get().Where(&db.Device{GateID: gateID}).First(device)`. gorm
builds the condition of a struct from its non-zero fields only: for a nonzero
gate id the result is the row with that `GateID`; for gate id 0 the condition is
empty and `First` gives the first row of the table in primary-key order,
whatever its gate id. `none` is `ErrRecordNotFound`. -/
def DB.firstDevice (db : DB) (gateID : Nat) : Option Device :=
  if gateID = 0 then db.devices.head?
  else db.devices.find? (fun d => decide (d.GateID = gateID))

/-- Call `db.Get().Save(device)` for a row read from the table whose `Status` was
set to `status`: the update goes by primary key. -/
def DB.updateDeviceStatus (db : DB) (deviceID status : Nat) : DB :=
  { db with devices :=
      db.devices.map (fun d => if d.ID = deviceID then { d with Status := status } else d) }

/-- The query `Where(&db.DevicePair{InnerGateID: id}).Or(&db.DevicePair{OuterGateID: id})
.Joins("InnerRoom.RoomPopulation").First(devicePair)`: the first pair that has
the device on either side. Here `id` is the primary key of a device row that
was found, and primary keys start at 1. -/
def DB.firstDevicePair (db : DB) (deviceID : Nat) : Option DevicePairRow :=
  db.devicePairs.find? (fun p => decide (p.InnerGateID = deviceID ∨ p.OuterGateID = deviceID))

/-- The field `devicePair.InnerRoom.RoomPopulation.Population` after the join: the
population of the inner room's row, and the zero value when no row was joined. -/
def DB.innerRoomPopulation (db : DB) (devicePair : DevicePairRow) : Nat :=
  (db.roomPopulations devicePair.InnerRoomID).getD 0

/-- Call `db.Get().Save(&devicePair.InnerRoom.RoomPopulation)`: the joined row is
updated; when no row was joined the zero-valued struct (primary key 0, room id
0) is inserted, which gives room 0 a population row unless it has one. -/
def DB.saveInnerRoomPopulation (db : DB) (devicePair : DevicePairRow) (population : Nat) : DB :=
  match db.roomPopulations devicePair.InnerRoomID with
  | some _ =>
    { db with roomPopulations :=
        Function.update db.roomPopulations devicePair.InnerRoomID (some population) }
  | none =>
    match db.roomPopulations 0 with
    | some _ => db
    | none => { db with roomPopulations := Function.update db.roomPopulations 0 (some population) }

/-- Function `population.IncrementPopulation`: the Store afterwards and the error
it logged, if any. -/
def IncrementPopulation (gateID : Nat) (db : DB) : DB × Option Err :=
  match db.firstDevice gateID with
  | none => (db, some Err.ErrRecordNotFound)
  | some device =>
    match db.firstDevicePair device.ID with
    | none => (db, some Err.ErrRecordNotFound)
    | some devicePair =>
      let population := (db.innerRoomPopulation devicePair + 1) % 4294967296
      (db.saveInnerRoomPopulation devicePair population, none)

/-- Function `population.DecrementPopulation`: the Store afterwards and the error
it logged, if any. -/
def DecrementPopulation (gateID : Nat) (db : DB) : DB × Option Err :=
  match db.firstDevice gateID with
  | none => (db, some Err.ErrRecordNotFound)
  | some device =>
    match db.firstDevicePair device.ID with
    | none => (db, some Err.ErrRecordNotFound)
    | some devicePair =>
      if db.innerRoomPopulation devicePair = 0 then
        -- if 0, no-op
        (db, none)
      else
        let population := (db.innerRoomPopulation devicePair + 4294967296 - 1) % 4294967296
        (db.saveInnerRoomPopulation devicePair population, none)

/-! ## internal/gateconnection -/

/-- Constant `time.Second`, in nanoseconds. -/
def Second : Int := 1000 * Millisecond

/-- Struct `DeviceState`; `ValidTill` is a clock reading in nanoseconds. -/
structure DeviceState where
  Connected : Nat
  ValidTill : Int
deriving DecidableEq, Repr

/-- The state of the liveness tracker: the map `states.DeviceStates` and the
Store. -/
structure Liveness where
  DeviceStates : Nat → Option DeviceState
  db : DB

/-- The four lines `device := &db.Device{}`, `Where(GateID).First(&device)`,
`device.Status = status`, `Save(device)`: the Store, `result.Error` and
`result.RowsAffected`. The row that `First` gave is updated: for gate id 0 that
is the first row of the table. When none was found `device` is still the zero
value, and `Save` of a row without primary key inserts it, with gate id 0: that
succeeds unless a row with gate id 0 exists (the column is unique). -/
def DB.saveDeviceStatus (db : DB) (gateID status : Nat) : DB × Option Err × Nat :=
  match db.firstDevice gateID with
  | some device => (db.updateDeviceStatus device.ID status, none, 1)
  | none =>
    match db.devices.find? (fun d => decide (d.GateID = 0)) with
    | some _ => (db, some Err.ErrStore, 0)
    | none =>
      ({ db with
          devices := db.devices ++ [{ ID := db.nextDeviceID, GateID := 0, Status := status }],
          nextDeviceID := db.nextDeviceID + 1 }, none, 1)

/-- Function `KeepConnected`, with the reading of `time.Now()` as a parameter;
`none` is the nil-pointer panic of `deviceState.Connected`. -/
def KeepConnected (gateID : Nat) (now : Int) (s : Liveness) : Option Liveness :=
  match s.DeviceStates gateID with
  | none =>
    -- !ok: the device is looked up in the Store
    let deviceID := match s.db.firstDevice gateID with
      | some device => device.ID
      | none => 0
    if deviceID = 0 then
      some s
    else
      -- deviceState is nil here
      none
  | some deviceState =>
    if deviceState.Connected = 1 then
      some { s with
        DeviceStates := Function.update s.DeviceStates gateID
          (some { deviceState with ValidTill := now + 60 * Second }) }
    else
      match s.db.saveDeviceStatus gateID 1 with
      | (db, some _, _) => some { s with db := db }
      | (db, none, rowsAffected) =>
        if rowsAffected = 0 then
          some { s with db := db }
        else
          some { DeviceStates := Function.update s.DeviceStates gateID
                   (some { Connected := 1, ValidTill := now + 60 * Second }),
                 db := db }

/-- One pass of the loop of `invalidateConnection` over the entries of the map,
visited in the order `keys` (Go fixes no order), with `clock gateID` the
reading of `time.Now()` when that entry is tested. The flag is false when the
function returned from inside the loop on a Store error. A key without an
entry, which `range` never yields, is skipped. -/
def invalidateConnectionPass : List Nat → (Nat → Int) → Liveness → Liveness × Bool
  | [], _, s => (s, true)
  | gateID :: rest, clock, s =>
    match s.DeviceStates gateID with
    | none => invalidateConnectionPass rest clock s
    | some deviceState =>
      if deviceState.Connected = 1 ∧ deviceState.ValidTill < clock gateID then
        match s.db.saveDeviceStatus gateID 0 with
        | (db, some _, _) => ({ s with db := db }, false)
        | (db, none, rowsAffected) =>
          if rowsAffected = 0 then
            ({ s with db := db }, false)
          else
            invalidateConnectionPass rest clock
              { DeviceStates := Function.update s.DeviceStates gateID
                  (some { deviceState with Connected := 0 }),
                db := db }
      else
        invalidateConnectionPass rest clock s

/-- Function `gateconnection.Init`, without the sweep goroutine it starts and with
the Store read succeeding: one entry per row of `devices`, in the order of the
rows, keyed by the row's `GateID`, with `clock gateID` the reading of
`time.Now()` when that entry is made. -/
def Liveness.Init (clock : Nat → Int) (db : DB) : Liveness :=
  { DeviceStates := db.devices.foldl
      (fun deviceStates d => Function.update deviceStates d.GateID
        (some { Connected := d.Status, ValidTill := clock d.GateID + 60 * Second }))
      (fun _ => none)
    db := db }

/-- A Store for the scenarios: device 1 with gate id 100 and device 2 with gate
id 200, both with status `status`, paired as inner and outer gate of pair 1
between inner room 1 (population `r1`) and outer room 2 (population `r2`). -/
def scenarioDB (status r1 r2 : Nat) : DB :=
  { devices := [{ ID := 1, GateID := 100, Status := status },
                { ID := 2, GateID := 200, Status := status }]
    nextDeviceID := 3
    devicePairs := [{ ID := 1, InnerGateID := 1, OuterGateID := 2, InnerRoomID := 1,
                      OuterRoomID := 2 }]
    roomPopulations := scenarioStore r1 r2
    deviceLogs := [] }

/-- A Store with a device whose gate id is 0: devices 1 to 4 have gate ids 100,
200, 0 and 400 and are disconnected; pair 1 joins devices 1 and 2 between inner
room 1 and outer room 2, pair 2 joins devices 3 and 4 between inner room 3 and
outer room 4; rooms 1 to 4 hold 5, 7, 9 and 11. -/
def zeroGateDB : DB :=
  { devices := [{ ID := 1, GateID := 100, Status := 0 }, { ID := 2, GateID := 200, Status := 0 },
                { ID := 3, GateID := 0, Status := 0 }, { ID := 4, GateID := 400, Status := 0 }]
    nextDeviceID := 5
    devicePairs := [{ ID := 1, InnerGateID := 1, OuterGateID := 2, InnerRoomID := 1,
                      OuterRoomID := 2 },
                    { ID := 2, InnerGateID := 3, OuterGateID := 4, InnerRoomID := 3,
                      OuterRoomID := 4 }]
    roomPopulations := fun roomID =>
      if roomID = 1 then some 5 else if roomID = 2 then some 7
      else if roomID = 3 then some 9 else if roomID = 4 then some 11 else none
    deviceLogs := [] }

/-- A tracker state for the scenarios: the Store `scenarioDB status 0 5` and one
liveness entry, for gate 100. -/
def scenarioLiveness (status : Nat) (entry : DeviceState) : Liveness :=
  { DeviceStates := fun gateID => if gateID = 100 then some entry else none
    db := scenarioDB status 0 5 }

/-! ## internal/packetpass -/

/-- The JSON object that `json.Marshal` makes of a typed packet and that goes to
the debug channel: its exported fields (`raw` is not exported). -/
structure DebugMessage where
  Version : Nat
  PacketType : Nat
  GateID : Nat
  Status : Option Nat
  TriggerTime : Option Time
deriving DecidableEq, Repr

/-- What the dispatcher works on: the liveness tracker with the Store, the door
engine's index and door states, and the messages sent to `bytesEgress`. -/
structure System where
  live : Liveness
  doorStates : Nat → Option Nat
  heap : Nat → DoorState
  egress : List DebugMessage

/-- Send `bytesEgress <- jsonData`. -/
def System.publish (sys : System) (message : DebugMessage) : System :=
  { sys with egress := sys.egress ++ [message] }

/-- Replace the Store of the system. -/
def System.withDB (sys : System) (db : DB) : System :=
  { sys with live := { sys.live with db := db } }

/-- Call `db.Get().Create(deviceLog)`, with `createErr` the `result.Error` it
reports: the row is inserted when there is no error. -/
def System.Create (sys : System) (createErr : Option Err) (deviceLog : DeviceLog) : System :=
  match createErr with
  | some _ => sys
  | none => sys.withDB { sys.live.db with deviceLogs := sys.live.db.deviceLogs ++ [deviceLog] }

/-- Call `doorpass.GateActive(gateID)` on the system: the door engine shares the
room populations of the Store. -/
def System.GateActive (sys : System) (gateID : Nat) (now : Int) : Option System :=
  match Rewired.GateActive gateID now
      { doorStates := sys.doorStates, heap := sys.heap, db := sys.live.db.roomPopulations } with
  | none => none
  | some w =>
    some { (sys.withDB { sys.live.db with roomPopulations := w.db }) with heap := w.heap }

/-- One iteration of the loop of `PacketPasser` that received `rawPacket`, with
`createErr` the outcome of the `DeviceLog` insert and `now` the reading of
`time.Now()` in the callee; `none` is a panic. -/
def packetPasserStep (rawPacket : RawPacket) (createErr : Option Err) (now : Int)
    (sys : System) : Option System :=
  if rawPacket.PacketType = PacketTypeIncrement then
    match IncrementPacket.zero.Parse rawPacket with
    | (_, some _) => some sys
    | (incrementPacket, none) =>
      let sys := sys.publish
        { Version := incrementPacket.Version, PacketType := incrementPacket.PacketType,
          GateID := incrementPacket.GateID, Status := none, TriggerTime := none }
      match sys.live.db.firstDevice incrementPacket.GateID with
      | none => some sys
      | some device =>
        let sys := sys.Create createErr
          { DeviceID := device.ID, LogType := 3, Status := none, TriggerTime := none }
        match createErr with
        | some _ => some sys
        | none => some (sys.withDB (IncrementPopulation incrementPacket.GateID sys.live.db).1)
  else if rawPacket.PacketType = PacketTypeDecrement then
    match DecrementPacket.zero.Parse rawPacket with
    | (_, some _) => some sys
    | (decrementPacket, none) =>
      let sys := sys.publish
        { Version := decrementPacket.Version, PacketType := decrementPacket.PacketType,
          GateID := decrementPacket.GateID, Status := none, TriggerTime := none }
      match sys.live.db.firstDevice decrementPacket.GateID with
      | none => some sys
      | some device =>
        let sys := sys.Create createErr
          { DeviceID := device.ID, LogType := 4, Status := none, TriggerTime := none }
        some (sys.withDB (DecrementPopulation decrementPacket.GateID sys.live.db).1)
  else if rawPacket.PacketType = PacketTypeHeartbeat then
    match HeartbeatPacket.zero.Parse rawPacket with
    | (_, some _) => some sys
    | (heartbeatPacket, none) =>
      let sys := sys.publish
        { Version := heartbeatPacket.Version, PacketType := heartbeatPacket.PacketType,
          GateID := heartbeatPacket.GateID, Status := none, TriggerTime := none }
      match sys.live.db.firstDevice heartbeatPacket.GateID with
      | none => some sys
      | some device =>
        let sys := sys.Create createErr
          { DeviceID := device.ID, LogType := 1, Status := none, TriggerTime := none }
        match createErr with
        | some _ => some sys
        | none =>
          match KeepConnected heartbeatPacket.GateID now sys.live with
          | none => none
          | some live => some { sys with live := live }
  else if rawPacket.PacketType = PacketTypeGateStatus then
    match GateStatusPacket.zero.Parse rawPacket with
    | (_, some _) => some sys
    | (gateStatusPacket, none) =>
      let sys := sys.publish
        { Version := gateStatusPacket.Version, PacketType := gateStatusPacket.PacketType,
          GateID := gateStatusPacket.GateID, Status := some gateStatusPacket.Status,
          TriggerTime := some gateStatusPacket.TriggerTime }
      match sys.live.db.firstDevice gateStatusPacket.GateID with
      | none => some sys
      | some device =>
        let sys := sys.Create createErr
          { DeviceID := device.ID, LogType := 2, Status := some gateStatusPacket.Status,
            TriggerTime := some gateStatusPacket.TriggerTime }
        if gateStatusPacket.Status = GateStatusUnblocked then
          sys.GateActive gateStatusPacket.GateID now
        else
          some sys
  else
    some sys

/-- A system for the scenarios: the scenario door fresh from `Init`, the Store
`scenarioDB 0 r1 r2` and a liveness entry for gate 100 that is not connected. -/
def scenarioSystem (r1 r2 : Nat) : System :=
  { live := { DeviceStates := fun gateID =>
                if gateID = 100 then some { Connected := 0, ValidTill := 0 } else none
              db := scenarioDB 0 r1 r2 }
    doorStates := (scenarioWorld r1 r2).doorStates
    heap := (scenarioWorld r1 r2).heap
    egress := [] }

/-- What the scenarios observe of a system: the population of room 1, the
liveness entry of gate 100, the inner gate's `LastActive` of the scenario door,
the number of `DeviceLog` rows and the number of messages published. -/
def System.observe (sys : System) :
    Option Nat × Option DeviceState × Option Int × Nat × Nat :=
  (sys.live.db.roomPopulations 1, sys.live.DeviceStates 100,
    (sys.heap 0).InnerGateState.LastActive, sys.live.db.deviceLogs.length, sys.egress.length)

/-! ## Mirroring a door -/

/-- The side recorded in `LastBlocked` with inner and outer exchanged. -/
def LastBlockedGate.mirror : LastBlockedGate → LastBlockedGate
  | LastBlockedGateNone => LastBlockedGateNone
  | LastBlockedGateInner => LastBlockedGateOuter
  | LastBlockedGateOuter => LastBlockedGateInner

/-- A door state mirrored: the inner and outer `GateState` exchanged, the inner
and outer room ids exchanged, and the side recorded in `LastBlocked` exchanged
(its two instants kept). -/
def DoorState.mirror (d : DoorState) : DoorState :=
  { DevicePairID := d.DevicePairID
    InnerGateState := d.OuterGateState
    OuterGateState := d.InnerGateState
    InnerRoomID := d.OuterRoomID
    OuterRoomID := d.InnerRoomID
    LastBlocked := { d.LastBlocked with Gate := d.LastBlocked.Gate.mirror } }

/-- A world with the door state at address `ptr` mirrored. -/
def World.mirrorAt (w : World) (ptr : Nat) : World :=
  { w with heap := Function.update w.heap ptr (w.heap ptr).mirror }

/-- How many of the calls `calls` were made with gate id `gateID`. -/
def callCount (gateID : Nat) (calls : List (Nat × Int)) : Nat :=
  (calls.map Prod.fst).count gateID

/-- What a door state built from `devicePair` records about the calls `calls`
made so far: the gate ids are those of the pair, `LastBlocked` is consistent, a
gate with `LastActive` set has been called, and a side recorded in `LastBlocked`
has been called at least twice; the outer gate is only ever served when its id
differs from the inner gate's. -/
def coldStartInvariant (devicePair : DevicePair) (calls : List (Nat × Int))
    (d : DoorState) : Prop :=
  d.InnerGateState.GateID = devicePair.InnerGateGateID ∧
  d.OuterGateState.GateID = devicePair.OuterGateGateID ∧
  d.LastBlocked.consistent ∧
  (d.InnerGateState.LastActive ≠ none → 1 ≤ callCount devicePair.InnerGateGateID calls) ∧
  (d.OuterGateState.LastActive ≠ none →
    1 ≤ callCount devicePair.OuterGateGateID calls ∧
      devicePair.InnerGateGateID ≠ devicePair.OuterGateGateID) ∧
  (d.LastBlocked.Gate = LastBlockedGateInner →
    2 ≤ callCount devicePair.InnerGateGateID calls) ∧
  (d.LastBlocked.Gate = LastBlockedGateOuter →
    2 ≤ callCount devicePair.OuterGateGateID calls ∧
      devicePair.InnerGateGateID ≠ devicePair.OuterGateGateID)

/-! ## Lemmas on the byte arithmetic -/

theorem or_shiftLeft_eq_add (a b k : Nat) (h : b < 2 ^ k) : b ||| (a <<< k) = a * 2 ^ k + b := by
  rw [Nat.shiftLeft_eq, Nat.lor_comm, Nat.mul_comm, ← Nat.mul_add_lt_is_or h]

theorem and_fifteen (x : Nat) : x &&& 0x0F = x % 16 :=
  Nat.and_pow_two_sub_one_eq_mod x 4

theorem SplitByteInto2FourBits_eq (b : Nat) :
    SplitByteInto2FourBits b = (b / 16 % 16, b % 16) := by
  simp only [SplitByteInto2FourBits, and_fifteen, Nat.shiftRight_eq_div_pow]

theorem Join2FourBitsIntoByte_eq (i j : Nat) (hi : i < 16) (hj : j < 16) :
    Join2FourBitsIntoByte i j = 16 * i + j := by
  unfold Join2FourBitsIntoByte
  have h1 : (i <<< 4) % 256 = (i <<< 4) := by rw [Nat.shiftLeft_eq]; omega
  rw [h1, Nat.lor_comm, or_shiftLeft_eq_add i j 4 (by omega)]
  omega

theorem Read_enough (k : Nat) (payload r : List Nat) (hk : payload.length = k) (hpos : 0 < k) :
    (Reader.mk (payload ++ r)).Read (List.replicate k 0) =
      { buf := payload, reader := ⟨r⟩, n := k, err := none } := by
  subst hk
  have hne : payload ≠ [] := by
    intro h
    simp [h] at hpos
  simp [Reader.Read, hne]

theorem Read_one (h : Nat) (rest : List Nat) :
    (Reader.mk (h :: rest)).Read [0] =
      { buf := [h], reader := ⟨rest⟩, n := 1, err := none } := by
  simp [Reader.Read]

theorem Read_two (payload r : List Nat) (hk : payload.length = 2) :
    (Reader.mk (payload ++ r)).Read [0, 0] =
      { buf := payload, reader := ⟨r⟩, n := 2, err := none } := by
  have h := Read_enough 2 payload r hk (by decide)
  simpa using h

theorem Read_seven (payload r : List Nat) (hk : payload.length = 7) :
    (Reader.mk (payload ++ r)).Read [0, 0, 0, 0, 0, 0, 0] =
      { buf := payload, reader := ⟨r⟩, n := 7, err := none } := by
  have h := Read_enough 7 payload r hk (by decide)
  simpa using h

/-! ## The decoder -/

/-- C8. On a non-empty byte stream with first byte `h`, `ReadPackets` returns
`ErrVersionMismatch` when the high nibble of `h` is not 1, whatever the low
nibble, and `ErrInvalidPacketType` when the high nibble is 1 and the low nibble
is none of 1, 2, 3, 4; in both cases the reader is left just after the header
byte. -/
theorem ReadPackets_header_errors (p : RawPacket) (h : Nat) (rest : List Nat) (hh : h < 256) :
    (h / 16 ≠ 1 →
      p.ReadPackets ⟨h :: rest⟩ = (p, ⟨rest⟩, some Err.ErrVersionMismatch)) ∧
    (h / 16 = 1 → h % 16 ≠ 1 → h % 16 ≠ 2 → h % 16 ≠ 3 → h % 16 ≠ 4 →
      p.ReadPackets ⟨h :: rest⟩ =
        ({ p with Version := 1 }, ⟨rest⟩, some Err.ErrInvalidPacketType)) := by
  have hhi : h / 16 % 16 = h / 16 := by omega
  constructor
  · intro hv
    simp [RawPacket.ReadPackets, Read_one, SplitByteInto2FourBits_eq, CURRENT_VERSION, hhi, hv]
  · intro hv h1 h2 h3 h4
    simp [RawPacket.ReadPackets, Read_one, SplitByteInto2FourBits_eq, CURRENT_VERSION, hhi, hv,
      PacketTypeHeartbeat, PacketTypeDecrement, PacketTypeIncrement, PacketTypeGateStatus,
      h1, h2, h3, h4]

theorem ReadPackets_header_errors_witness :
    (RawPacket.mk [] 0 0).ReadPackets ⟨[0x25, 7, 7]⟩
        = (RawPacket.mk [] 0 0, ⟨[7, 7]⟩, some Err.ErrVersionMismatch) ∧
      (RawPacket.mk [] 0 0).ReadPackets ⟨[0x15, 7, 7]⟩
        = (RawPacket.mk [] 1 0, ⟨[7, 7]⟩, some Err.ErrInvalidPacketType) :=
  ⟨(ReadPackets_header_errors ⟨[], 0, 0⟩ 0x25 [7, 7] (by decide)).1 (by decide),
   (ReadPackets_header_errors ⟨[], 0, 0⟩ 0x15 [7, 7] (by decide)).2 (by decide) (by decide)
     (by decide) (by decide) (by decide)⟩

theorem ReadPackets_wellformed (p : RawPacket) (hdr : Nat) (payload r : List Nat)
    (hf : ((hdr = 0x11 ∨ hdr = 0x13 ∨ hdr = 0x14) ∧ payload.length = 2) ∨
          (hdr = 0x12 ∧ payload.length = 7)) :
    p.ReadPackets ⟨(hdr :: payload) ++ r⟩
        = ({ raw := payload, Version := 1, PacketType := hdr % 16 }, ⟨r⟩, none) := by
  rcases hf with ⟨h | h | h, hl⟩ | ⟨h, hl⟩ <;> subst h <;>
    simp [RawPacket.ReadPackets, Read_one, SplitByteInto2FourBits_eq, CURRENT_VERSION,
      PacketTypeHeartbeat, PacketTypeDecrement, PacketTypeIncrement, PacketTypeGateStatus,
      Read_two payload r, Read_seven payload r, hl]

theorem MarshalBinary_wellformed (hdr : Nat) (payload : List Nat)
    (hf : ((hdr = 0x11 ∨ hdr = 0x13 ∨ hdr = 0x14) ∧ payload.length = 2) ∨
          (hdr = 0x12 ∧ payload.length = 7)) :
    (RawPacket.mk payload 1 (hdr % 16)).MarshalBinary = Except.ok (hdr :: payload) := by
  have hne : payload.length ≠ 0 := by
    rcases hf with ⟨_, hl⟩ | ⟨_, hl⟩ <;> omega
  have hj : Join2FourBitsIntoByte 1 (byte (hdr % 16)) = hdr := by
    rcases hf with ⟨h | h | h, _⟩ | ⟨h, _⟩ <;> subst h <;> decide
  simp [RawPacket.MarshalBinary, hne, hj]

/-- C9. For a well-formed frame `hdr :: payload` (header 0x11, 0x13 or 0x14 with
a 2-byte payload, or header 0x12 with a 7-byte payload) followed by any bytes
`r`, `ReadPackets` succeeds with `Version = 1`, `PacketType` the low nibble of
the header and the payload as `raw`, leaves exactly `r` unread, and
`MarshalBinary` of the packet read gives the frame back. -/
theorem ReadPackets_frame (p : RawPacket) (hdr : Nat) (payload r : List Nat)
    (hf : ((hdr = 0x11 ∨ hdr = 0x13 ∨ hdr = 0x14) ∧ payload.length = 2) ∨
          (hdr = 0x12 ∧ payload.length = 7)) :
    p.ReadPackets ⟨(hdr :: payload) ++ r⟩
        = ({ raw := payload, Version := 1, PacketType := hdr % 16 }, ⟨r⟩, none) ∧
      (p.ReadPackets ⟨(hdr :: payload) ++ r⟩).1.MarshalBinary
        = Except.ok (hdr :: payload) := by
  refine ⟨ReadPackets_wellformed p hdr payload r hf, ?_⟩
  rw [ReadPackets_wellformed p hdr payload r hf]
  exact MarshalBinary_wellformed hdr payload hf

theorem ReadPackets_frame_witness :
    (RawPacket.mk [] 0 0).ReadPackets ⟨[0x12, 1, 2, 3, 4, 5, 6, 7, 0x11, 9]⟩
        = ({ raw := [1, 2, 3, 4, 5, 6, 7], Version := 1, PacketType := 2 }, ⟨[0x11, 9]⟩, none) ∧
      ((RawPacket.mk [] 0 0).ReadPackets ⟨[0x12, 1, 2, 3, 4, 5, 6, 7, 0x11, 9]⟩).1.MarshalBinary
        = Except.ok [0x12, 1, 2, 3, 4, 5, 6, 7] :=
  ReadPackets_frame ⟨[], 0, 0⟩ 0x12 [1, 2, 3, 4, 5, 6, 7] [0x11, 9] (Or.inr ⟨rfl, rfl⟩)

/-- C10, evaluated on the code. A valid header followed by at least one but too
few payload bytes is accepted: `ReadPackets` reports no error and delivers a
payload padded with zeros (a heartbeat header with one payload byte, a
gate-status header with three); only a header with no payload byte at all
gives an error (`io.EOF`). -/
theorem ReadPackets_short_read_accepted :
    (RawPacket.mk [] 0 0).ReadPackets ⟨[0x11, 5]⟩
        = ({ raw := [5, 0], Version := 1, PacketType := 1 }, ⟨[]⟩, none) ∧
      (RawPacket.mk [] 0 0).ReadPackets ⟨[0x12, 5, 6, 7]⟩
        = ({ raw := [5, 6, 7, 0, 0, 0, 0], Version := 1, PacketType := 2 }, ⟨[]⟩, none) ∧
      (RawPacket.mk [] 0 0).ReadPackets ⟨[0x11]⟩
        = ({ raw := [], Version := 1, PacketType := 1 }, ⟨[]⟩, some Err.EOF) := by
  decide

/-! ## The codec round trip -/

theorem int32_of_range (x : Int) (h1 : -2147483648 ≤ x) (h2 : x ≤ 2147483647) : int32 x = x := by
  unfold int32
  omega

theorem BigEndianUint16_bytes (g : Nat) (hg : g < 65536) :
    BigEndianUint16 [byte (g >>> 8), byte g] = g := by
  have h := or_shiftLeft_eq_add (byte (g >>> 8)) (byte g) 8 (by unfold byte; omega)
  simp only [BigEndianUint16, List.getD_cons_zero, List.getD_cons_succ, h]
  simp only [byte, Nat.shiftRight_eq_div_pow]
  omega

theorem binaryReadInt32_bytes (x : Int) (h1 : -2147483648 ≤ x) (h2 : x ≤ 2147483647) :
    binaryReadInt32 [byteOfInt (x >>> (24 : Nat)), byteOfInt (x >>> (16 : Nat)), byteOfInt (x >>> (8 : Nat)),
      byteOfInt x] = some x := by
  have key : ∀ y : Int, ((byteOfInt y : Nat) : Int) = y % 256 := fun y =>
    Int.toNat_of_nonneg (Int.emod_nonneg y (by decide))
  have e0 : ((byteOfInt (x >>> (24 : Nat)) : Nat) : Int) = x / 16777216 % 256 := by
    rw [key, Int.shiftRight_eq_div_pow]; rfl
  have e1 : ((byteOfInt (x >>> (16 : Nat)) : Nat) : Int) = x / 65536 % 256 := by
    rw [key, Int.shiftRight_eq_div_pow]; rfl
  have e2 : ((byteOfInt (x >>> (8 : Nat)) : Nat) : Int) = x / 256 % 256 := by
    rw [key, Int.shiftRight_eq_div_pow]; rfl
  have e3 : ((byteOfInt x : Nat) : Int) = x % 256 := key x
  generalize byteOfInt (x >>> (24 : Nat)) = b0 at *
  generalize byteOfInt (x >>> (16 : Nat)) = b1 at *
  generalize byteOfInt (x >>> (8 : Nat)) = b2 at *
  generalize byteOfInt x = b3 at *
  have k1 := or_shiftLeft_eq_add b2 b3 8 (by omega)
  have k2 := or_shiftLeft_eq_add b1 (b2 * 2 ^ 8 + b3) 16 (by omega)
  have k3 := or_shiftLeft_eq_add b0 (b1 * 2 ^ 16 + (b2 * 2 ^ 8 + b3)) 24 (by omega)
  simp only [binaryReadInt32, k1, k2, k3, int32, Option.some.injEq]
  push_cast
  omega

/-- The six orders in which the three setters of a gate-status packet can be
called once each. -/
theorem setters_any_order (p : GateStatusPacket) (gateID status : Nat) (triggerTime : Time)
    (calls : List GateStatusSetter)
    (hraw : p.raw.length = 0 ∨ p.raw.length = 7)
    (h1 : -2147483648 ≤ triggerTime.sec) (h2 : triggerTime.sec ≤ 2147483647)
    (horder : calls ∈
      [[GateStatusSetter.SetGateID gateID, GateStatusSetter.SetStatus status,
          GateStatusSetter.SetTimestamp triggerTime],
       [GateStatusSetter.SetGateID gateID, GateStatusSetter.SetTimestamp triggerTime,
          GateStatusSetter.SetStatus status],
       [GateStatusSetter.SetStatus status, GateStatusSetter.SetGateID gateID,
          GateStatusSetter.SetTimestamp triggerTime],
       [GateStatusSetter.SetStatus status, GateStatusSetter.SetTimestamp triggerTime,
          GateStatusSetter.SetGateID gateID],
       [GateStatusSetter.SetTimestamp triggerTime, GateStatusSetter.SetGateID gateID,
          GateStatusSetter.SetStatus status],
       [GateStatusSetter.SetTimestamp triggerTime, GateStatusSetter.SetStatus status,
          GateStatusSetter.SetGateID gateID]]) :
    p.calls calls = some
      ({ raw := [byte (gateID >>> 8), byte gateID, byte status,
                 byteOfInt (triggerTime.sec >>> (24 : Nat)),
                 byteOfInt (triggerTime.sec >>> (16 : Nat)),
                 byteOfInt (triggerTime.sec >>> (8 : Nat)), byteOfInt triggerTime.sec],
         Version := p.Version, PacketType := p.PacketType,
         GateID := gateID, Status := status, TriggerTime := triggerTime }, none) := by
  have hi : int32 triggerTime.sec = triggerTime.sec := int32_of_range _ h1 h2
  obtain ⟨⟨raw, v, t⟩, g, st, tt⟩ := p
  simp only at hraw
  have hcases : raw = [] ∨ ∃ a b c d e f g, raw = [a, b, c, d, e, f, g] := by
    rcases hraw with h | h
    · left
      exact List.length_eq_zero.mp h
    · right
      match raw, h with
      | [a, b, c, d, e, f, g], _ => exact ⟨a, b, c, d, e, f, g, rfl⟩
  simp only [List.mem_cons, List.mem_singleton, List.not_mem_nil, or_false] at horder
  rcases hcases with hr | ⟨a, b, c, d, e, f, g', hr⟩ <;> subst hr <;>
    rcases horder with h | h | h | h | h | h <;> subst h <;>
    simp [GateStatusPacket.calls, GateStatusPacket.call, GateStatusPacket.SetGateID,
      GateStatusPacket.SetStatus, GateStatusPacket.SetTimestamp, GateStatusPacket.ensureRaw,
      setIndex, TimeToInt32, Time.Unix, h1, h2, hi]

theorem two_byte_round_trip (ptype gateID : Nat) (r : RawPacket)
    (hp : ptype = 1 ∨ ptype = 3 ∨ ptype = 4) (hg : gateID < 65536) :
    ∃ data,
      (RawPacket.mk (BigEndianPutUint16 (List.replicate 2 0) gateID) 1 ptype).MarshalBinary
          = Except.ok data ∧
        r.ReadPackets ⟨data⟩
          = ({ raw := [byte (gateID >>> 8), byte gateID], Version := 1, PacketType := ptype },
             ⟨[]⟩, none) ∧
        BigEndianUint16 [byte (gateID >>> 8), byte gateID] = gateID := by
  have hraw : BigEndianPutUint16 (List.replicate 2 0) gateID = [byte (gateID >>> 8), byte gateID] := by
    simp [BigEndianPutUint16]
  have hf : ((16 + ptype = 0x11 ∨ 16 + ptype = 0x13 ∨ 16 + ptype = 0x14) ∧
        [byte (gateID >>> 8), byte gateID].length = 2) ∨
      (16 + ptype = 0x12 ∧ [byte (gateID >>> 8), byte gateID].length = 7) := by
    left
    refine ⟨?_, rfl⟩
    omega
  have hm : (16 + ptype) % 16 = ptype := by omega
  have h1 := MarshalBinary_wellformed (16 + ptype) _ hf
  have h2 := ReadPackets_wellformed r (16 + ptype) [byte (gateID >>> 8), byte gateID] [] hf
  rw [hm] at h1 h2
  refine ⟨[16 + ptype, byte (gateID >>> 8), byte gateID], ?_, ?_,
    BigEndianUint16_bytes gateID hg⟩
  · rw [hraw]
    exact h1
  · simpa using h2

/-- C1. Codec round trip. For every 16-bit gate id, every status in 1..4 and every
whole-second trigger time whose Unix seconds fit in a signed 32-bit integer: a
heartbeat, increment or decrement packet carrying `Version = 1` and its own
`PacketType`, after `SetGateID`, and a gate-status packet carrying `Version = 1`
and `PacketType = 2` (payload not yet allocated, or already 7 bytes), after
`SetGateID`, `SetStatus` and `SetTimestamp` called once each in any order, is
encoded by `MarshalBinary` without error, the bytes are read back by
`ReadPackets` without error (and completely), and the matching `Parse` returns
no error and the same `Version`, `PacketType`, `GateID`, `Status` and
`TriggerTime`. -/
theorem codec_round_trip (gateID status : Nat) (triggerTime : Time)
    (hg : gateID < 65536)
    (hs : status = 1 ∨ status = 2 ∨ status = 3 ∨ status = 4)
    (h1 : -2147483648 ≤ triggerTime.sec) (h2 : triggerTime.sec ≤ 2147483647)
    (hw : triggerTime.nsec = 0) :
    (∀ (p q : HeartbeatPacket) (r : RawPacket),
      p.Version = 1 → p.PacketType = PacketTypeHeartbeat →
      ∃ data raw q1,
        (p.SetGateID gateID).toRawPacket.MarshalBinary = Except.ok data ∧
        r.ReadPackets ⟨data⟩ = (raw, ⟨[]⟩, none) ∧
        q.Parse raw = (q1, none) ∧
        q1.Version = (p.SetGateID gateID).Version ∧
        q1.PacketType = (p.SetGateID gateID).PacketType ∧
        q1.GateID = (p.SetGateID gateID).GateID ∧ q1.GateID = gateID) ∧
    (∀ (p q : IncrementPacket) (r : RawPacket),
      p.Version = 1 → p.PacketType = PacketTypeIncrement →
      ∃ data raw q1,
        (p.SetGateID gateID).toRawPacket.MarshalBinary = Except.ok data ∧
        r.ReadPackets ⟨data⟩ = (raw, ⟨[]⟩, none) ∧
        q.Parse raw = (q1, none) ∧
        q1.Version = (p.SetGateID gateID).Version ∧
        q1.PacketType = (p.SetGateID gateID).PacketType ∧
        q1.GateID = (p.SetGateID gateID).GateID ∧ q1.GateID = gateID) ∧
    (∀ (p q : DecrementPacket) (r : RawPacket),
      p.Version = 1 → p.PacketType = PacketTypeDecrement →
      ∃ data raw q1,
        (p.SetGateID gateID).toRawPacket.MarshalBinary = Except.ok data ∧
        r.ReadPackets ⟨data⟩ = (raw, ⟨[]⟩, none) ∧
        q.Parse raw = (q1, none) ∧
        q1.Version = (p.SetGateID gateID).Version ∧
        q1.PacketType = (p.SetGateID gateID).PacketType ∧
        q1.GateID = (p.SetGateID gateID).GateID ∧ q1.GateID = gateID) ∧
    (∀ (p q : GateStatusPacket) (r : RawPacket) (calls : List GateStatusSetter),
      p.Version = 1 → p.PacketType = PacketTypeGateStatus →
      (p.raw.length = 0 ∨ p.raw.length = 7) →
      calls ∈
        [[GateStatusSetter.SetGateID gateID, GateStatusSetter.SetStatus status,
            GateStatusSetter.SetTimestamp triggerTime],
         [GateStatusSetter.SetGateID gateID, GateStatusSetter.SetTimestamp triggerTime,
            GateStatusSetter.SetStatus status],
         [GateStatusSetter.SetStatus status, GateStatusSetter.SetGateID gateID,
            GateStatusSetter.SetTimestamp triggerTime],
         [GateStatusSetter.SetStatus status, GateStatusSetter.SetTimestamp triggerTime,
            GateStatusSetter.SetGateID gateID],
         [GateStatusSetter.SetTimestamp triggerTime, GateStatusSetter.SetGateID gateID,
            GateStatusSetter.SetStatus status],
         [GateStatusSetter.SetTimestamp triggerTime, GateStatusSetter.SetStatus status,
            GateStatusSetter.SetGateID gateID]] →
      ∃ p1 data raw q1,
        p.calls calls = some (p1, none) ∧
        p1.toRawPacket.MarshalBinary = Except.ok data ∧
        r.ReadPackets ⟨data⟩ = (raw, ⟨[]⟩, none) ∧
        q.Parse raw = (q1, none) ∧
        q1.Version = p1.Version ∧ q1.PacketType = p1.PacketType ∧
        q1.GateID = p1.GateID ∧ q1.Status = p1.Status ∧ q1.TriggerTime = p1.TriggerTime ∧
        q1.Version = 1 ∧ q1.PacketType = PacketTypeGateStatus ∧
        q1.GateID = gateID ∧ q1.Status = status ∧ q1.TriggerTime = triggerTime) := by
  refine ⟨?_, ?_, ?_, ?_⟩
  · intro p q r hv ht
    obtain ⟨data, hm, hr, hu⟩ := two_byte_round_trip 1 gateID r (by decide) hg
    refine ⟨data, _, { q with GateID := gateID, Version := 1, PacketType := 1 }, ?_, hr, ?_, ?_⟩
    · simpa [HeartbeatPacket.SetGateID, hv, ht, PacketTypeHeartbeat] using hm
    · simp [HeartbeatPacket.Parse, PacketTypeHeartbeat, hu]
    · simp [HeartbeatPacket.SetGateID, hv, ht, PacketTypeHeartbeat]
  · intro p q r hv ht
    obtain ⟨data, hm, hr, hu⟩ := two_byte_round_trip 3 gateID r (by decide) hg
    refine ⟨data, _, { q with GateID := gateID, Version := 1, PacketType := 3 }, ?_, hr, ?_, ?_⟩
    · simpa [IncrementPacket.SetGateID, hv, ht, PacketTypeIncrement] using hm
    · simp [IncrementPacket.Parse, PacketTypeIncrement, hu]
    · simp [IncrementPacket.SetGateID, hv, ht, PacketTypeIncrement]
  · intro p q r hv ht
    obtain ⟨data, hm, hr, hu⟩ := two_byte_round_trip 4 gateID r (by decide) hg
    refine ⟨data, _, { q with GateID := gateID, Version := 1, PacketType := 4 }, ?_, hr, ?_, ?_⟩
    · simpa [DecrementPacket.SetGateID, hv, ht, PacketTypeDecrement] using hm
    · simp [DecrementPacket.Parse, PacketTypeDecrement, hu]
    · simp [DecrementPacket.SetGateID, hv, ht, PacketTypeDecrement]
  · intro p q r calls hv ht hraw horder
    have hc := setters_any_order p gateID status triggerTime calls hraw h1 h2 horder
    have hf : ((0x12 = 0x11 ∨ 0x12 = 0x13 ∨ 0x12 = 0x14) ∧
          [byte (gateID >>> 8), byte gateID, byte status,
            byteOfInt (triggerTime.sec >>> (24 : Nat)),
            byteOfInt (triggerTime.sec >>> (16 : Nat)),
            byteOfInt (triggerTime.sec >>> (8 : Nat)), byteOfInt triggerTime.sec].length = 2) ∨
        (0x12 = 0x12 ∧
          [byte (gateID >>> 8), byte gateID, byte status,
            byteOfInt (triggerTime.sec >>> (24 : Nat)),
            byteOfInt (triggerTime.sec >>> (16 : Nat)),
            byteOfInt (triggerTime.sec >>> (8 : Nat)), byteOfInt triggerTime.sec].length = 7) :=
      Or.inr ⟨rfl, rfl⟩
    have hm := MarshalBinary_wellformed 0x12 _ hf
    have hr := ReadPackets_wellformed r 0x12 _ [] hf
    have hst : byte status = status := by
      unfold byte
      omega
    have htt : unixTime triggerTime.sec = triggerTime := by
      obtain ⟨s, n⟩ := triggerTime
      simp only at hw
      simp [unixTime, hw]
    refine ⟨_, 0x12 :: [byte (gateID >>> 8), byte gateID, byte status,
            byteOfInt (triggerTime.sec >>> (24 : Nat)),
            byteOfInt (triggerTime.sec >>> (16 : Nat)),
            byteOfInt (triggerTime.sec >>> (8 : Nat)), byteOfInt triggerTime.sec],
      { raw := [byte (gateID >>> 8), byte gateID, byte status,
            byteOfInt (triggerTime.sec >>> (24 : Nat)),
            byteOfInt (triggerTime.sec >>> (16 : Nat)),
            byteOfInt (triggerTime.sec >>> (8 : Nat)), byteOfInt triggerTime.sec],
        Version := 1, PacketType := 2 },
      { q with GateID := gateID, Version := 1, PacketType := 2, Status := status,
               TriggerTime := triggerTime }, hc, ?_, ?_, ?_, ?_⟩
    · simpa [hv, ht, PacketTypeGateStatus] using hm
    · simpa using hr
    · simp only [GateStatusPacket.Parse, List.length_cons, List.length_nil, PacketTypeGateStatus,
        List.take, List.drop, BigEndianUint16_bytes gateID hg,
        binaryReadInt32_bytes triggerTime.sec h1 h2, List.getD_cons_zero, List.getD_cons_succ,
        hst, GateStatusTurnOn, GateStatusUnblocked, GateStatusBlocked, GateStatusFaulty, hs, htt]
      simp
    · simp [hv, ht, PacketTypeGateStatus]

theorem codec_round_trip_witness :
    ∃ p1 data raw q1,
      (GateStatusPacket.mk ⟨[], 1, 2⟩ 0 0 ⟨0, 0⟩).calls
          [GateStatusSetter.SetTimestamp ⟨-2, 0⟩, GateStatusSetter.SetGateID 515,
            GateStatusSetter.SetStatus 3] = some (p1, none) ∧
        p1.toRawPacket.MarshalBinary = Except.ok data ∧
        (RawPacket.mk [] 0 0).ReadPackets ⟨data⟩ = (raw, ⟨[]⟩, none) ∧
        (GateStatusPacket.mk ⟨[], 0, 0⟩ 0 0 ⟨0, 0⟩).Parse raw = (q1, none) ∧
        q1.Version = p1.Version ∧ q1.PacketType = p1.PacketType ∧
        q1.GateID = p1.GateID ∧ q1.Status = p1.Status ∧ q1.TriggerTime = p1.TriggerTime ∧
        q1.Version = 1 ∧ q1.PacketType = PacketTypeGateStatus ∧
        q1.GateID = 515 ∧ q1.Status = 3 ∧ q1.TriggerTime = ⟨-2, 0⟩ :=
  (codec_round_trip 515 3 ⟨-2, 0⟩ (by decide) (by decide) (by decide) (by decide) rfl).2.2.2
    (GateStatusPacket.mk ⟨[], 1, 2⟩ 0 0 ⟨0, 0⟩) (GateStatusPacket.mk ⟨[], 0, 0⟩ 0 0 ⟨0, 0⟩)
    (RawPacket.mk [] 0 0) _ rfl rfl (Or.inl rfl) (by simp)

/-! ## The door engine -/

theorem Sub_le_allowance (t u : Int) : Sub t u ≤ ALLOWANCE_FRAME ↔ t - u ≤ 500 * Millisecond := by
  unfold Sub ALLOWANCE_FRAME Millisecond
  simp only
  split_ifs <;> omega

theorem Sub_gt_pass (t u : Int) : Sub t u > PASS_FRAME ↔ t - u > 1000 * Millisecond := by
  unfold Sub PASS_FRAME Millisecond
  simp only
  split_ifs <;> omega

theorem GateActive_of_door (w : World) (gateID ptr : Nat) (now : Int) (d : DoorState)
    (db : Store) (hdoor : w.doorStates gateID = some ptr)
    (h : gateActiveOnDoor gateID now (w.heap ptr) w.db = some (d, db)) :
    GateActive gateID now w = some { w with heap := Function.update w.heap ptr d, db := db } := by
  simp [GateActive, hdoor, h]

/-- C5. Cold start and noise suppression. When `GateActive` is called at `now` for
a known gate whose `LastActive` is unset, or set to `t` with
`now - t ≤ 500 ms` (inclusive), the call does not panic and the only change is
that gate's `LastActive := now`: `LastBlocked`, the other gate's state, the
pair and room ids, the `doorStates` index, every other door and the whole store
are as before. The gate is the inner gate when its id is the door's inner gate
id, and the outer gate when its id is the outer gate id and not the inner one. -/
theorem GateActive_cold_start_or_noise (w : World) (gateID ptr : Nat) (now : Int)
    (hdoor : w.doorStates gateID = some ptr) :
    (gateID = (w.heap ptr).InnerGateState.GateID →
      ((w.heap ptr).InnerGateState.LastActive = none ∨
        ∃ t, (w.heap ptr).InnerGateState.LastActive = some t ∧ now - t ≤ 500 * Millisecond) →
      GateActive gateID now w = some { w with
        heap := Function.update w.heap ptr { w.heap ptr with
          InnerGateState := { (w.heap ptr).InnerGateState with LastActive := some now } } }) ∧
    (gateID ≠ (w.heap ptr).InnerGateState.GateID →
      gateID = (w.heap ptr).OuterGateState.GateID →
      ((w.heap ptr).OuterGateState.LastActive = none ∨
        ∃ t, (w.heap ptr).OuterGateState.LastActive = some t ∧ now - t ≤ 500 * Millisecond) →
      GateActive gateID now w = some { w with
        heap := Function.update w.heap ptr { w.heap ptr with
          OuterGateState := { (w.heap ptr).OuterGateState with LastActive := some now } } }) := by
  constructor
  · intro hi hl
    apply GateActive_of_door w gateID ptr now _ _ hdoor
    rcases hl with hl | ⟨t, hl, ht⟩
    · simp [gateActiveOnDoor, hi.symm, hl]
    · simp [gateActiveOnDoor, hi.symm, hl, Sub_le_allowance, ht]
  · intro hi ho hl
    apply GateActive_of_door w gateID ptr now _ _ hdoor
    rcases hl with hl | ⟨t, hl, ht⟩
    · simp [gateActiveOnDoor, hi, ho.symm, hl]
    · simp [gateActiveOnDoor, hi, ho.symm, hl, Sub_le_allowance, ht]

theorem GateActive_cold_start_or_noise_witness :
    (GateActive 100 (900 * Millisecond)
        (singleDoorWorld
          (scenarioDoor none (some (700 * Millisecond))
            { Gate := LastBlockedGateOuter, Start := some 0, End := some (700 * Millisecond) })
          (scenarioStore 0 5))).map (fun w => (w.heap 0, w.db 1, w.db 2))
      = some (scenarioDoor (some (900 * Millisecond)) (some (700 * Millisecond))
            { Gate := LastBlockedGateOuter, Start := some 0, End := some (700 * Millisecond) },
          some 0, some 5) ∧
    (GateActive 200 (400 * Millisecond)
        (singleDoorWorld
          (scenarioDoor none (some 0)
            { Gate := LastBlockedGateNone, Start := none, End := none })
          (scenarioStore 0 5))).map (fun w => (w.heap 0, w.db 1, w.db 2))
      = some (scenarioDoor none (some (400 * Millisecond))
            { Gate := LastBlockedGateNone, Start := none, End := none },
          some 0, some 5) := by
  constructor
  · rw [(GateActive_cold_start_or_noise _ 100 0 (900 * Millisecond) (by decide)).1 rfl
      (Or.inl rfl)]
    decide
  · rw [(GateActive_cold_start_or_noise _ 200 0 (400 * Millisecond) (by decide)).2 (by decide)
      rfl (Or.inr ⟨0, rfl, by decide⟩)]
    decide

/-- C6. Open or extend a block. When `GateActive` is called at `now` for a gate
whose `LastActive` is `t` with `now - t > 500 ms`, and `LastBlocked.Gate` is
`None` or that gate's own side, then afterwards
`LastBlocked = {own side, Start = t, End = now}`, the gate's `LastActive` is
`now`, and nothing else changes; in particular the store, hence every room
population, is untouched, whatever the previous `Start` and `End` were. -/
theorem GateActive_open_or_extend (w : World) (gateID ptr : Nat) (now t : Int)
    (hdoor : w.doorStates gateID = some ptr) (hgap : now - t > 500 * Millisecond) :
    (gateID = (w.heap ptr).InnerGateState.GateID →
      (w.heap ptr).InnerGateState.LastActive = some t →
      ((w.heap ptr).LastBlocked.Gate = LastBlockedGateNone ∨
        (w.heap ptr).LastBlocked.Gate = LastBlockedGateInner) →
      GateActive gateID now w = some { w with
        heap := Function.update w.heap ptr { w.heap ptr with
          LastBlocked := { Gate := LastBlockedGateInner, Start := some t, End := some now },
          InnerGateState := { (w.heap ptr).InnerGateState with LastActive := some now } } }) ∧
    (gateID ≠ (w.heap ptr).InnerGateState.GateID →
      gateID = (w.heap ptr).OuterGateState.GateID →
      (w.heap ptr).OuterGateState.LastActive = some t →
      ((w.heap ptr).LastBlocked.Gate = LastBlockedGateNone ∨
        (w.heap ptr).LastBlocked.Gate = LastBlockedGateOuter) →
      GateActive gateID now w = some { w with
        heap := Function.update w.heap ptr { w.heap ptr with
          LastBlocked := { Gate := LastBlockedGateOuter, Start := some t, End := some now },
          OuterGateState := { (w.heap ptr).OuterGateState with LastActive := some now } } }) := by
  have hna : ¬ (now - t ≤ 500 * Millisecond) := by omega
  constructor
  · intro hi hl hb
    apply GateActive_of_door w gateID ptr now _ _ hdoor
    rcases hb with hb | hb <;>
      simp [gateActiveOnDoor, hi.symm, hl, Sub_le_allowance, hna, hb]
  · intro hi ho hl hb
    apply GateActive_of_door w gateID ptr now _ _ hdoor
    rcases hb with hb | hb <;>
      simp [gateActiveOnDoor, hi, ho.symm, hl, Sub_le_allowance, hna, hb]

theorem GateActive_open_or_extend_witness :
    (GateActive 100 (1500 * Millisecond)
        (singleDoorWorld
          (scenarioDoor (some (900 * Millisecond)) none
            { Gate := LastBlockedGateNone, Start := none, End := none })
          (scenarioStore 0 5))).map (fun w => (w.heap 0, w.db 1, w.db 2))
      = some (scenarioDoor (some (1500 * Millisecond)) none
            { Gate := LastBlockedGateInner, Start := some (900 * Millisecond),
              End := some (1500 * Millisecond) },
          some 0, some 5) ∧
    (GateActive 200 (3000 * Millisecond)
        (singleDoorWorld
          (scenarioDoor none (some (700 * Millisecond))
            { Gate := LastBlockedGateOuter, Start := some 0, End := some (700 * Millisecond) })
          (scenarioStore 0 5))).map (fun w => (w.heap 0, w.db 1, w.db 2))
      = some (scenarioDoor none (some (3000 * Millisecond))
            { Gate := LastBlockedGateOuter, Start := some (700 * Millisecond),
              End := some (3000 * Millisecond) },
          some 0, some 5) := by
  constructor
  · rw [(GateActive_open_or_extend _ 100 0 (1500 * Millisecond) (900 * Millisecond) (by decide)
      (by decide)).1 rfl rfl (Or.inl rfl)]
    decide
  · rw [(GateActive_open_or_extend _ 200 0 (3000 * Millisecond) (700 * Millisecond) (by decide)
      (by decide)).2 (by decide) rfl rfl (Or.inr rfl)]
    decide

theorem innerGateTx_ok (d : DoorState) (db : Store) (pi po : Nat)
    (hne : d.InnerRoomID ≠ d.OuterRoomID)
    (hi : db d.InnerRoomID = some pi) (ho : db d.OuterRoomID = some po) :
    Transaction db (innerGateTx d) =
      (Function.update (Function.update db d.InnerRoomID (some ((pi + 1) % 4294967296)))
        d.OuterRoomID (some ((po + 4294967296 - 1) % 4294967296)), none) := by
  simp [Transaction, innerGateTx, Store.First, Store.Save, hi, ho, Function.update_noteq hne.symm]

theorem outerGateTx_ok (d : DoorState) (db : Store) (pi po : Nat)
    (hne : d.InnerRoomID ≠ d.OuterRoomID)
    (hi : db d.InnerRoomID = some pi) (ho : db d.OuterRoomID = some po) :
    Transaction db (outerGateTx d) =
      (Function.update (Function.update db d.OuterRoomID (some ((po + 1) % 4294967296)))
        d.InnerRoomID (some ((pi + 4294967296 - 1) % 4294967296)), none) := by
  simp [Transaction, outerGateTx, Store.First, Store.Save, hi, ho, Function.update_noteq hne]

theorem gateActiveOnDoor_inner_commit (gateID : Nat) (now t s e : Int) (d : DoorState)
    (db : Store) (hi : gateID = d.InnerGateState.GateID)
    (hl : d.InnerGateState.LastActive = some t) (hgap : now - t > 500 * Millisecond)
    (hb : d.LastBlocked.Gate = LastBlockedGateOuter)
    (hs : d.LastBlocked.Start = some s) (he : d.LastBlocked.End = some e) :
    gateActiveOnDoor gateID now d db =
      some ({ d with
          LastBlocked := { Gate := LastBlockedGateNone, Start := none, End := none },
          InnerGateState := { d.InnerGateState with LastActive := some now } },
        (Transaction db (innerGateTx d)).1) := by
  have hna : ¬ (now - t ≤ 500 * Millisecond) := by omega
  obtain ⟨pid, ⟨gi, lai⟩, ⟨go, lao⟩, ri, ro, ⟨lbg, lbs, lbe⟩⟩ := d
  simp only at hi hl hb hs he
  subst hi hl hb hs he
  by_cases h1 : Sub t s > PASS_FRAME
  · simp [gateActiveOnDoor, Sub_le_allowance, hna, passFrameExceeded, h1]
    rfl
  · by_cases h2 : Sub now e > PASS_FRAME
    · simp [gateActiveOnDoor, Sub_le_allowance, hna, passFrameExceeded, h1, h2]
      rfl
    · simp [gateActiveOnDoor, Sub_le_allowance, hna, passFrameExceeded, h1, h2]
      rfl

theorem gateActiveOnDoor_outer_commit (gateID : Nat) (now t s e : Int) (d : DoorState)
    (db : Store) (hi : gateID ≠ d.InnerGateState.GateID)
    (ho : gateID = d.OuterGateState.GateID)
    (hl : d.OuterGateState.LastActive = some t) (hgap : now - t > 500 * Millisecond)
    (hb : d.LastBlocked.Gate = LastBlockedGateInner)
    (hs : d.LastBlocked.Start = some s) (he : d.LastBlocked.End = some e) :
    gateActiveOnDoor gateID now d db =
      some ({ d with
          LastBlocked := { Gate := LastBlockedGateNone, Start := none, End := none },
          OuterGateState := { d.OuterGateState with LastActive := some now } },
        (Transaction db (outerGateTx d)).1) := by
  have hna : ¬ (now - t ≤ 500 * Millisecond) := by omega
  obtain ⟨pid, ⟨gi, lai⟩, ⟨go, lao⟩, ri, ro, ⟨lbg, lbs, lbe⟩⟩ := d
  simp only at hi ho hl hb hs he
  subst ho hl hb hs he
  by_cases h1 : Sub t s > PASS_FRAME
  · simp [gateActiveOnDoor, Sub_le_allowance, hna, passFrameExceeded, h1, hi]
    rfl
  · by_cases h2 : Sub now e > PASS_FRAME
    · simp [gateActiveOnDoor, Sub_le_allowance, hna, passFrameExceeded, h1, h2, hi]
      rfl
    · simp [gateActiveOnDoor, Sub_le_allowance, hna, passFrameExceeded, h1, h2, hi]
      rfl

theorem GateActive_inner_commit (w : World) (gateID ptr : Nat) (now t s e : Int) (pi po : Nat)
    (hdoor : w.doorStates gateID = some ptr)
    (hrooms : (w.heap ptr).InnerRoomID ≠ (w.heap ptr).OuterRoomID)
    (hi : gateID = (w.heap ptr).InnerGateState.GateID)
    (hl : (w.heap ptr).InnerGateState.LastActive = some t) (hgap : now - t > 500 * Millisecond)
    (hb : (w.heap ptr).LastBlocked.Gate = LastBlockedGateOuter)
    (hs : (w.heap ptr).LastBlocked.Start = some s) (he : (w.heap ptr).LastBlocked.End = some e)
    (hpi : w.db (w.heap ptr).InnerRoomID = some pi)
    (hpo : w.db (w.heap ptr).OuterRoomID = some po) :
    GateActive gateID now w = some { w with
      heap := Function.update w.heap ptr { w.heap ptr with
        LastBlocked := { Gate := LastBlockedGateNone, Start := none, End := none },
        InnerGateState := { (w.heap ptr).InnerGateState with LastActive := some now } },
      db := Function.update
        (Function.update w.db (w.heap ptr).InnerRoomID (some ((pi + 1) % 4294967296)))
        (w.heap ptr).OuterRoomID (some ((po + 4294967296 - 1) % 4294967296)) } := by
  apply GateActive_of_door w gateID ptr now _ _ hdoor
  rw [gateActiveOnDoor_inner_commit gateID now t s e (w.heap ptr) w.db hi hl hgap hb hs he,
    innerGateTx_ok (w.heap ptr) w.db pi po hrooms hpi hpo]

theorem GateActive_outer_commit (w : World) (gateID ptr : Nat) (now t s e : Int) (pi po : Nat)
    (hdoor : w.doorStates gateID = some ptr)
    (hrooms : (w.heap ptr).InnerRoomID ≠ (w.heap ptr).OuterRoomID)
    (hi : gateID ≠ (w.heap ptr).InnerGateState.GateID)
    (ho : gateID = (w.heap ptr).OuterGateState.GateID)
    (hl : (w.heap ptr).OuterGateState.LastActive = some t) (hgap : now - t > 500 * Millisecond)
    (hb : (w.heap ptr).LastBlocked.Gate = LastBlockedGateInner)
    (hs : (w.heap ptr).LastBlocked.Start = some s) (he : (w.heap ptr).LastBlocked.End = some e)
    (hpi : w.db (w.heap ptr).InnerRoomID = some pi)
    (hpo : w.db (w.heap ptr).OuterRoomID = some po) :
    GateActive gateID now w = some { w with
      heap := Function.update w.heap ptr { w.heap ptr with
        LastBlocked := { Gate := LastBlockedGateNone, Start := none, End := none },
        OuterGateState := { (w.heap ptr).OuterGateState with LastActive := some now } },
      db := Function.update
        (Function.update w.db (w.heap ptr).OuterRoomID (some ((po + 1) % 4294967296)))
        (w.heap ptr).InnerRoomID (some ((pi + 4294967296 - 1) % 4294967296)) } := by
  apply GateActive_of_door w gateID ptr now _ _ hdoor
  rw [gateActiveOnDoor_outer_commit gateID now t s e (w.heap ptr) w.db hi ho hl hgap hb hs he,
    outerGateTx_ok (w.heap ptr) w.db pi po hrooms hpi hpo]

theorem runGateActive_append (cs ds : List (Nat × Int)) (w : World) :
    runGateActive (cs ++ ds) w = (runGateActive cs w).bind (runGateActive ds) := by
  induction cs generalizing w with
  | nil => rfl
  | cons c cs ih =>
    obtain ⟨g, now⟩ := c
    simp only [List.cons_append, runGateActive]
    cases GateActive g now w with
    | none => rfl
    | some w1 => exact ih w1

/-- C2, as stated, fails where the room entered is at the top of its 32-bit
counter. From `Init` with room 1 at 4294967295 and room 2 at 5, the calls
`GateActive(200)` at 0 ms and 700 ms and `GateActive(100)` at 900 ms lead to a
state that meets every condition of the claim for a call of the inner gate
(`LastActive` = 900 ms, `LastBlocked` = {Outer, 0 ms, 700 ms}, departure room at
5); the call `GateActive(100)` at 1401 ms then commits the crossing and leaves
room 1 at 0, not at 4294967296. -/
theorem crossing_wraps_arrival_room :
    (runGateActive [(200, 0), (200, 700 * Millisecond), (100, 900 * Millisecond)]
        (scenarioWorld 4294967295 5)).map
        (fun w => (w.doorStates 100, w.heap 0, w.db 1, w.db 2))
      = some (some 0,
          { DevicePairID := 1,
            InnerGateState := { GateID := 100, LastActive := some (900 * Millisecond) },
            OuterGateState := { GateID := 200, LastActive := some (700 * Millisecond) },
            InnerRoomID := 1, OuterRoomID := 2,
            LastBlocked := { Gate := LastBlockedGateOuter, Start := some 0,
                             End := some (700 * Millisecond) } },
          some 4294967295, some 5) ∧
    (runGateActive [(200, 0), (200, 700 * Millisecond), (100, 900 * Millisecond),
        (100, 1401 * Millisecond)] (scenarioWorld 4294967295 5)).map
        (fun w => ((w.heap 0).LastBlocked, w.db 1, w.db 2))
      = some ({ Gate := LastBlockedGateNone, Start := none, End := none }, some 0, some 4) := by
  decide

/-- C2, amended. For a door whose two rooms are distinct and both have a
population row, when `GateActive` is called at `now` for a gate whose
`LastActive` is `t` with `now - t > 500 ms`, `LastBlocked` is on the opposite
gate with `Start = s`, `End = e`, and both gaps `t - s` and `now - e` are at
most 1000 ms, then `LastBlocked` becomes `{None, nil, nil}`, the gate's
`LastActive` becomes `now`, and, the room left holding at least 1 and the room
entered less than 2^32 - 1, the populations change by exactly: inner gate,
inner room + 1 and outer room - 1; outer gate, outer room + 1 and inner room - 1;
every other room, every other door and the index are unchanged. -/
theorem GateActive_crossing (w : World) (gateID ptr : Nat) (now t s e : Int) (pi po : Nat)
    (hdoor : w.doorStates gateID = some ptr)
    (hrooms : (w.heap ptr).InnerRoomID ≠ (w.heap ptr).OuterRoomID)
    (hgap : now - t > 500 * Millisecond)
    (hs : (w.heap ptr).LastBlocked.Start = some s) (he : (w.heap ptr).LastBlocked.End = some e)
    (hgs : t - s ≤ 1000 * Millisecond) (hge : now - e ≤ 1000 * Millisecond)
    (hpi : w.db (w.heap ptr).InnerRoomID = some pi)
    (hpo : w.db (w.heap ptr).OuterRoomID = some po) :
    (gateID = (w.heap ptr).InnerGateState.GateID →
      (w.heap ptr).InnerGateState.LastActive = some t →
      (w.heap ptr).LastBlocked.Gate = LastBlockedGateOuter →
      1 ≤ po → po < 4294967296 → pi < 4294967295 →
      GateActive gateID now w = some { w with
        heap := Function.update w.heap ptr { w.heap ptr with
          LastBlocked := { Gate := LastBlockedGateNone, Start := none, End := none },
          InnerGateState := { (w.heap ptr).InnerGateState with LastActive := some now } },
        db := Function.update (Function.update w.db (w.heap ptr).InnerRoomID (some (pi + 1)))
          (w.heap ptr).OuterRoomID (some (po - 1)) }) ∧
    (gateID ≠ (w.heap ptr).InnerGateState.GateID →
      gateID = (w.heap ptr).OuterGateState.GateID →
      (w.heap ptr).OuterGateState.LastActive = some t →
      (w.heap ptr).LastBlocked.Gate = LastBlockedGateInner →
      1 ≤ pi → pi < 4294967296 → po < 4294967295 →
      GateActive gateID now w = some { w with
        heap := Function.update w.heap ptr { w.heap ptr with
          LastBlocked := { Gate := LastBlockedGateNone, Start := none, End := none },
          OuterGateState := { (w.heap ptr).OuterGateState with LastActive := some now } },
        db := Function.update (Function.update w.db (w.heap ptr).OuterRoomID (some (po + 1)))
          (w.heap ptr).InnerRoomID (some (pi - 1)) }) := by
  have _hgaps := And.intro hgs hge
  constructor
  · intro hi hl hb h1 h2 h3
    rw [GateActive_inner_commit w gateID ptr now t s e pi po hdoor hrooms hi hl hgap hb hs he
      hpi hpo]
    have e1 : (pi + 1) % 4294967296 = pi + 1 := by omega
    have e2 : (po + 4294967296 - 1) % 4294967296 = po - 1 := by omega
    rw [e1, e2]
  · intro hi ho hl hb h1 h2 h3
    rw [GateActive_outer_commit w gateID ptr now t s e pi po hdoor hrooms hi ho hl hgap hb hs he
      hpi hpo]
    have e1 : (po + 1) % 4294967296 = po + 1 := by omega
    have e2 : (pi + 4294967296 - 1) % 4294967296 = pi - 1 := by omega
    rw [e1, e2]

theorem GateActive_crossing_witness :
    (GateActive 100 (1401 * Millisecond)
        (singleDoorWorld
          (scenarioDoor (some (900 * Millisecond)) (some (700 * Millisecond))
            { Gate := LastBlockedGateOuter, Start := some 0, End := some (700 * Millisecond) })
          (scenarioStore 0 5))).map
        (fun w => ((w.heap 0).LastBlocked, (w.heap 0).InnerGateState.LastActive, w.db 1, w.db 2))
      = some ({ Gate := LastBlockedGateNone, Start := none, End := none },
          some (1401 * Millisecond), some 1, some 4) ∧
    (GateActive 200 (1401 * Millisecond)
        (singleDoorWorld
          (scenarioDoor (some (700 * Millisecond)) (some (900 * Millisecond))
            { Gate := LastBlockedGateInner, Start := some 0, End := some (700 * Millisecond) })
          (scenarioStore 5 0))).map
        (fun w => ((w.heap 0).LastBlocked, (w.heap 0).OuterGateState.LastActive, w.db 1, w.db 2))
      = some ({ Gate := LastBlockedGateNone, Start := none, End := none },
          some (1401 * Millisecond), some 4, some 1) := by
  constructor
  · rw [(GateActive_crossing _ 100 0 (1401 * Millisecond) (900 * Millisecond) 0
      (700 * Millisecond) 0 5 (by decide) (by decide) (by decide) rfl rfl (by decide) (by decide)
      rfl rfl).1 rfl rfl rfl (by decide) (by decide) (by decide)]
    decide
  · rw [(GateActive_crossing _ 200 0 (1401 * Millisecond) (900 * Millisecond) 0
      (700 * Millisecond) 5 0 (by decide) (by decide) (by decide) rfl rfl (by decide) (by decide)
      rfl rfl).2 (by decide) rfl rfl rfl (by decide) (by decide) (by decide)]
    decide

/-- C3, evaluated on the code. From `Init` with both rooms at population 0, the
calls `GateActive(200)` at 0 ms and 700 ms and `GateActive(100)` at 900 ms and
1401 ms commit an outer-to-inner crossing; the room left, room 2, goes from 0 to
4294967295: the `uint32` subtraction wraps, there is no guard. -/
theorem crossing_underflows_departure_room :
    (runGateActive [(200, 0), (200, 700 * Millisecond), (100, 900 * Millisecond)]
        (scenarioWorld 0 0)).map (fun w => (w.db 1, w.db 2))
      = some (some 0, some 0) ∧
    (runGateActive [(200, 0), (200, 700 * Millisecond), (100, 900 * Millisecond),
        (100, 1401 * Millisecond)] (scenarioWorld 0 0)).map
        (fun w => ((w.heap 0).LastBlocked, w.db 1, w.db 2))
      = some ({ Gate := LastBlockedGateNone, Start := none, End := none }, some 1,
          some 4294967295) := by
  decide

theorem gateActiveOnDoor_eq_NoPassFrame (gateID : Nat) (now : Int) (d : DoorState) (db : Store)
    (hinv : d.LastBlocked.Gate ≠ LastBlockedGateNone →
      (∃ s, d.LastBlocked.Start = some s) ∧ ∃ e, d.LastBlocked.End = some e) :
    gateActiveOnDoor gateID now d db = gateActiveOnDoorNoPassFrame gateID now d db := by
  by_cases hi : gateID = d.InnerGateState.GateID
  · cases hl : d.InnerGateState.LastActive with
    | none => simp [gateActiveOnDoor, gateActiveOnDoorNoPassFrame, hi.symm, hl]
    | some t =>
      by_cases ha : Sub now t ≤ ALLOWANCE_FRAME
      · simp [gateActiveOnDoor, gateActiveOnDoorNoPassFrame, hi.symm, hl, ha]
      · cases hb : d.LastBlocked.Gate with
        | LastBlockedGateNone =>
          simp [gateActiveOnDoor, gateActiveOnDoorNoPassFrame, hi.symm, hl, ha, hb]
        | LastBlockedGateInner =>
          simp [gateActiveOnDoor, gateActiveOnDoorNoPassFrame, hi.symm, hl, ha, hb]
        | LastBlockedGateOuter =>
          obtain ⟨⟨s, hs⟩, ⟨e, he⟩⟩ := hinv (by simp [hb])
          have hg : now - t > 500 * Millisecond := by
            rw [Sub_le_allowance] at ha
            omega
          rw [gateActiveOnDoor_inner_commit gateID now t s e d db hi hl hg hb hs he]
          simp [gateActiveOnDoorNoPassFrame, hi.symm, hl, ha, hb]
          rfl
  · by_cases ho : gateID = d.OuterGateState.GateID
    · cases hl : d.OuterGateState.LastActive with
      | none => simp [gateActiveOnDoor, gateActiveOnDoorNoPassFrame, hi, ho.symm, hl]
      | some t =>
        by_cases ha : Sub now t ≤ ALLOWANCE_FRAME
        · simp [gateActiveOnDoor, gateActiveOnDoorNoPassFrame, hi, ho.symm, hl, ha]
        · cases hb : d.LastBlocked.Gate with
          | LastBlockedGateNone =>
            simp [gateActiveOnDoor, gateActiveOnDoorNoPassFrame, hi, ho.symm, hl, ha, hb]
          | LastBlockedGateOuter =>
            simp [gateActiveOnDoor, gateActiveOnDoorNoPassFrame, hi, ho.symm, hl, ha, hb]
          | LastBlockedGateInner =>
            obtain ⟨⟨s, hs⟩, ⟨e, he⟩⟩ := hinv (by simp [hb])
            have hg : now - t > 500 * Millisecond := by
              rw [Sub_le_allowance] at ha
              omega
            rw [gateActiveOnDoor_outer_commit gateID now t s e d db hi ho hl hg hb hs he]
            simp [gateActiveOnDoorNoPassFrame, hi, ho.symm, hl, ha, hb]
            rfl
    · simp [gateActiveOnDoor, gateActiveOnDoorNoPassFrame, hi, ho]

theorem consistent_set (lb : LastBlock) (h : lb.consistent)
    (hg : lb.Gate ≠ LastBlockedGateNone) :
    (∃ s, lb.Start = some s) ∧ ∃ e, lb.End = some e := by
  rcases h with ⟨h0, _, _⟩ | ⟨_, hs, he⟩
  · exact absurd h0 hg
  · exact ⟨Option.ne_none_iff_exists'.mp hs, Option.ne_none_iff_exists'.mp he⟩

theorem gateActiveOnDoor_consistent (gateID : Nat) (now : Int) (d d1 : DoorState)
    (db db1 : Store) (hd : d.LastBlocked.consistent)
    (h : gateActiveOnDoor gateID now d db = some (d1, db1)) : d1.LastBlocked.consistent := by
  have hinv := consistent_set d.LastBlocked hd
  by_cases hi : gateID = d.InnerGateState.GateID
  · cases hl : d.InnerGateState.LastActive with
    | none =>
      simp [gateActiveOnDoor, hi.symm, hl] at h
      rw [← h.1]
      exact hd
    | some t =>
      by_cases ha : Sub now t ≤ ALLOWANCE_FRAME
      · simp [gateActiveOnDoor, hi.symm, hl, ha] at h
        rw [← h.1]
        exact hd
      · cases hb : d.LastBlocked.Gate with
        | LastBlockedGateNone =>
          simp [gateActiveOnDoor, hi.symm, hl, ha, hb] at h
          rw [← h.1]
          simp [LastBlock.consistent]
        | LastBlockedGateInner =>
          simp [gateActiveOnDoor, hi.symm, hl, ha, hb] at h
          rw [← h.1]
          simp [LastBlock.consistent, hb]
        | LastBlockedGateOuter =>
          obtain ⟨⟨s, hs⟩, ⟨e, he⟩⟩ := hinv (by simp [hb])
          have hg : now - t > 500 * Millisecond := by
            rw [Sub_le_allowance] at ha
            omega
          rw [gateActiveOnDoor_inner_commit gateID now t s e d db hi hl hg hb hs he] at h
          simp only [Option.some.injEq, Prod.mk.injEq] at h
          rw [← h.1]
          simp [LastBlock.consistent]
  · by_cases ho : gateID = d.OuterGateState.GateID
    · cases hl : d.OuterGateState.LastActive with
      | none =>
        simp [gateActiveOnDoor, hi, ho.symm, hl] at h
        rw [← h.1]
        exact hd
      | some t =>
        by_cases ha : Sub now t ≤ ALLOWANCE_FRAME
        · simp [gateActiveOnDoor, hi, ho.symm, hl, ha] at h
          rw [← h.1]
          exact hd
        · cases hb : d.LastBlocked.Gate with
          | LastBlockedGateNone =>
            simp [gateActiveOnDoor, hi, ho.symm, hl, ha, hb] at h
            rw [← h.1]
            simp [LastBlock.consistent]
          | LastBlockedGateOuter =>
            simp [gateActiveOnDoor, hi, ho.symm, hl, ha, hb] at h
            rw [← h.1]
            simp [LastBlock.consistent, hb]
          | LastBlockedGateInner =>
            obtain ⟨⟨s, hs⟩, ⟨e, he⟩⟩ := hinv (by simp [hb])
            have hg : now - t > 500 * Millisecond := by
              rw [Sub_le_allowance] at ha
              omega
            rw [gateActiveOnDoor_outer_commit gateID now t s e d db hi ho hl hg hb hs he] at h
            simp only [Option.some.injEq, Prod.mk.injEq] at h
            rw [← h.1]
            simp [LastBlock.consistent]
    · simp [gateActiveOnDoor, hi, ho] at h
      rw [← h.1]
      exact hd

theorem GateActive_consistent (gateID : Nat) (now : Int) (w w1 : World)
    (hw : ∀ ptr, (w.heap ptr).LastBlocked.consistent)
    (h : GateActive gateID now w = some w1) : ∀ ptr, (w1.heap ptr).LastBlocked.consistent := by
  unfold GateActive at h
  cases hdoor : w.doorStates gateID with
  | none =>
    simp only [hdoor, Option.some.injEq] at h
    rw [← h]
    exact hw
  | some p =>
    simp only [hdoor] at h
    cases hstep : gateActiveOnDoor gateID now (w.heap p) w.db with
    | none => simp [hstep] at h
    | some r =>
      obtain ⟨d1, db1⟩ := r
      simp only [hstep, Option.some.injEq] at h
      intro ptr
      rw [← h]
      by_cases hp : ptr = p
      · subst hp
        simp only [Function.update_same]
        exact gateActiveOnDoor_consistent gateID now _ d1 _ db1 (hw ptr) hstep
      · simp only [Function.update_noteq hp]
        exact hw ptr

theorem runGateActive_consistent (calls : List (Nat × Int)) (w w1 : World)
    (hw : ∀ ptr, (w.heap ptr).LastBlocked.consistent)
    (h : runGateActive calls w = some w1) : ∀ ptr, (w1.heap ptr).LastBlocked.consistent := by
  induction calls generalizing w with
  | nil =>
    simp only [runGateActive, Option.some.injEq] at h
    rw [← h]
    exact hw
  | cons c cs ih =>
    obtain ⟨g, now⟩ := c
    simp only [runGateActive] at h
    cases hstep : GateActive g now w with
    | none => simp [hstep] at h
    | some w2 =>
      simp only [hstep] at h
      exact ih w2 (GateActive_consistent g now w w2 hw hstep) h

theorem initLoop_consistent (devicePairs : List DevicePair) (ptr : Nat)
    (acc : (Nat → Option Nat) × (Nat → DoorState))
    (hacc : ∀ a, (acc.2 a).LastBlocked.consistent) :
    ∀ a, ((initLoop devicePairs ptr acc).2 a).LastBlocked.consistent := by
  induction devicePairs generalizing ptr acc with
  | nil => exact hacc
  | cons dp rest ih =>
    obtain ⟨m, hp⟩ := acc
    simp only [initLoop]
    apply ih
    intro a
    by_cases ha : a = ptr
    · subst ha
      simp [LastBlock.consistent, newDoorState]
    · simp only [Function.update_noteq ha]
      exact hacc a

theorem Init_consistent (devicePairs : List DevicePair) (db : Store) :
    ∀ ptr, ((Init devicePairs db).heap ptr).LastBlocked.consistent := by
  intro ptr
  have h := initLoop_consistent devicePairs 0
    (fun _ => none, fun _ => newDoorState ⟨0, 0, 0, 0, 0⟩)
    (by intro a; simp [LastBlock.consistent, newDoorState]) ptr
  exact h

/-- C4. Stale peer still commits. `GateActive` equals `GateActiveNoPassFrame`,
the same function with the `PASS_FRAME` test and its reassignment block deleted:
on every world reached from `Init` by `GateActive` calls, and more generally on
every world where the door of `gateID` has `LastBlocked.Start` and
`LastBlocked.End` set whenever `LastBlocked.Gate` is not `None`. On such a
world, a genuine interval (`LastActive` = `t`, `now - t > 500 ms`) with
`LastBlocked` on the opposite gate always gives the committed crossing,
`LastBlocked = {None, nil, nil}`, `LastActive = now` and the population
transaction of that side, by an expression in which `Start` and `End` do not
occur: the result is the same whether or not a gap exceeds `PASS_FRAME`. -/
theorem GateActive_stale_peer_commits (w : World) (gateID : Nat) (now : Int) :
    (∀ devicePairs db calls, runGateActive calls (Init devicePairs db) = some w →
      GateActive gateID now w = GateActiveNoPassFrame gateID now w) ∧
    ((∀ ptr, w.doorStates gateID = some ptr →
        (w.heap ptr).LastBlocked.Gate ≠ LastBlockedGateNone →
        (∃ s, (w.heap ptr).LastBlocked.Start = some s) ∧
          ∃ e, (w.heap ptr).LastBlocked.End = some e) →
      GateActive gateID now w = GateActiveNoPassFrame gateID now w ∧
      (∀ ptr t, w.doorStates gateID = some ptr → now - t > 500 * Millisecond →
        gateID = (w.heap ptr).InnerGateState.GateID →
        (w.heap ptr).InnerGateState.LastActive = some t →
        (w.heap ptr).LastBlocked.Gate = LastBlockedGateOuter →
        GateActive gateID now w = some { w with
          heap := Function.update w.heap ptr { w.heap ptr with
            LastBlocked := { Gate := LastBlockedGateNone, Start := none, End := none },
            InnerGateState := { (w.heap ptr).InnerGateState with LastActive := some now } },
          db := (Transaction w.db (innerGateTx (w.heap ptr))).1 }) ∧
      (∀ ptr t, w.doorStates gateID = some ptr → now - t > 500 * Millisecond →
        gateID ≠ (w.heap ptr).InnerGateState.GateID →
        gateID = (w.heap ptr).OuterGateState.GateID →
        (w.heap ptr).OuterGateState.LastActive = some t →
        (w.heap ptr).LastBlocked.Gate = LastBlockedGateInner →
        GateActive gateID now w = some { w with
          heap := Function.update w.heap ptr { w.heap ptr with
            LastBlocked := { Gate := LastBlockedGateNone, Start := none, End := none },
            OuterGateState := { (w.heap ptr).OuterGateState with LastActive := some now } },
          db := (Transaction w.db (outerGateTx (w.heap ptr))).1 })) := by
  have heq : (∀ ptr, w.doorStates gateID = some ptr →
        (w.heap ptr).LastBlocked.Gate ≠ LastBlockedGateNone →
        (∃ s, (w.heap ptr).LastBlocked.Start = some s) ∧
          ∃ e, (w.heap ptr).LastBlocked.End = some e) →
      GateActive gateID now w = GateActiveNoPassFrame gateID now w := by
    intro hinv
    cases hdoor : w.doorStates gateID with
    | none => simp [GateActive, GateActiveNoPassFrame, hdoor]
    | some ptr =>
      simp only [GateActive, GateActiveNoPassFrame, hdoor]
      rw [gateActiveOnDoor_eq_NoPassFrame gateID now (w.heap ptr) w.db (hinv ptr hdoor)]
  refine ⟨?_, ?_⟩
  · intro devicePairs db calls hrun
    have hc := runGateActive_consistent calls _ w (Init_consistent devicePairs db) hrun
    exact heq (fun ptr _ hg => consistent_set _ (hc ptr) hg)
  · intro hinv
    refine ⟨heq hinv, ?_, ?_⟩
    · intro ptr t hdoor hgap hi hl hb
      obtain ⟨⟨s, hs⟩, ⟨e, he⟩⟩ := hinv ptr hdoor (by simp [hb])
      exact GateActive_of_door w gateID ptr now _ _ hdoor
        (gateActiveOnDoor_inner_commit gateID now t s e (w.heap ptr) w.db hi hl hgap hb hs he)
    · intro ptr t hdoor hgap hi ho hl hb
      obtain ⟨⟨s, hs⟩, ⟨e, he⟩⟩ := hinv ptr hdoor (by simp [hb])
      exact GateActive_of_door w gateID ptr now _ _ hdoor
        (gateActiveOnDoor_outer_commit gateID now t s e (w.heap ptr) w.db hi ho hl hgap hb hs
          he)

theorem GateActive_stale_peer_commits_witness :
    GateActive 200 0 (Init [scenarioPair] (scenarioStore 0 5))
        = GateActiveNoPassFrame 200 0 (Init [scenarioPair] (scenarioStore 0 5)) ∧
    (GateActiveNoPassFrame 100 (2300 * Millisecond)
        (singleDoorWorld
          (scenarioDoor (some (1500 * Millisecond)) (some (800 * Millisecond))
            { Gate := LastBlockedGateOuter, Start := some 0, End := some (800 * Millisecond) })
          (scenarioStore 0 5))).map
        (fun w => ((w.heap 0).LastBlocked, (w.heap 0).InnerGateState.LastActive, w.db 1, w.db 2))
      = some ({ Gate := LastBlockedGateNone, Start := none, End := none },
          some (2300 * Millisecond), some 1, some 4) ∧
    (GateActive 100 (2300 * Millisecond)
        (singleDoorWorld
          (scenarioDoor (some (1500 * Millisecond)) (some (800 * Millisecond))
            { Gate := LastBlockedGateOuter, Start := some 0, End := some (800 * Millisecond) })
          (scenarioStore 0 5))).map
        (fun w => ((w.heap 0).LastBlocked, (w.heap 0).InnerGateState.LastActive, w.db 1, w.db 2))
      = some ({ Gate := LastBlockedGateNone, Start := none, End := none },
          some (2300 * Millisecond), some 1, some 4) := by
  refine ⟨(GateActive_stale_peer_commits _ 200 0).1 [scenarioPair] (scenarioStore 0 5) [] rfl,
    by decide, ?_⟩
  rw [((GateActive_stale_peer_commits
    (singleDoorWorld
      (scenarioDoor (some (1500 * Millisecond)) (some (800 * Millisecond))
        { Gate := LastBlockedGateOuter, Start := some 0, End := some (800 * Millisecond) })
      (scenarioStore 0 5)) 100 (2300 * Millisecond)).2
    (fun _ _ _ => ⟨⟨0, rfl⟩, ⟨800 * Millisecond, rfl⟩⟩)).1]
  decide

/-- C7, as stated, fails. From `Init` with room 1 at 0 and room 2 at 5, the
calls `GateActive(200)` at 0 ms and 700 ms and `GateActive(100)` at 900 ms and
1400 ms commit no crossing: the last interval, 900 to 1400 ms, is exactly
`ALLOWANCE_FRAME` and `<=` treats it as noise, so `LastBlocked` stays
`{Outer, 0 ms, 700 ms}` and the rooms stay at 0 and 5. -/
theorem scenario_1400_commits_nothing :
    (runGateActive [(200, 0), (200, 700 * Millisecond), (100, 900 * Millisecond),
        (100, 1400 * Millisecond)] (scenarioWorld 0 5)).map
        (fun w => ((w.heap 0).LastBlocked, (w.heap 0).InnerGateState.LastActive, w.db 1, w.db 2))
      = some ({ Gate := LastBlockedGateOuter, Start := some 0,
                End := some (700 * Millisecond) },
          some (1400 * Millisecond), some 0, some 5) := by
  decide

/-- C7, amended. From `Init` for the door with inner gate 100, outer gate 200,
inner room 1 at 0 and outer room 2 at 5, the calls `GateActive(200)` at 0 ms and
700 ms, `GateActive(100)` at 900 ms and a last `GateActive(100)` at a time later
than 1400 ms and at most 1700 ms commit one outer-to-inner crossing and end
with room 1 at 1 and room 2 at 4. -/
theorem scenario_clean_crossing (last : Int)
    (hlo : 1400 * Millisecond < last) (hhi : last ≤ 1700 * Millisecond) :
    (runGateActive [(200, 0), (200, 700 * Millisecond), (100, 900 * Millisecond), (100, last)]
        (scenarioWorld 0 5)).map
        (fun w => ((w.heap 0).LastBlocked, (w.heap 0).InnerGateState.LastActive, w.db 1, w.db 2))
      = some ({ Gate := LastBlockedGateNone, Start := none, End := none }, some last, some 1,
          some 4) := by
  have _hclean : last - 700 * Millisecond ≤ 1000 * Millisecond := by omega
  have h3 : (runGateActive [(200, 0), (200, 700 * Millisecond), (100, 900 * Millisecond)]
        (scenarioWorld 0 5)).map (fun w => (w.doorStates 100, w.heap 0, w.db 1, w.db 2))
      = some (some 0,
          scenarioDoor (some (900 * Millisecond)) (some (700 * Millisecond))
            { Gate := LastBlockedGateOuter, Start := some 0, End := some (700 * Millisecond) },
          some 0, some 5) := by
    decide
  have happ := runGateActive_append
    [(200, 0), (200, 700 * Millisecond), (100, 900 * Millisecond)] [(100, last)]
    (scenarioWorld 0 5)
  simp only [List.cons_append, List.nil_append] at happ
  rw [happ]
  cases hw : runGateActive [(200, 0), (200, 700 * Millisecond), (100, 900 * Millisecond)]
      (scenarioWorld 0 5) with
  | none => simp [hw] at h3
  | some w3 =>
    simp only [hw, Option.map_some', Option.some.injEq, Prod.mk.injEq] at h3
    obtain ⟨hdoor, hd, h1, h2⟩ := h3
    have hgap : last - 900 * Millisecond > 500 * Millisecond := by omega
    have hc := GateActive_inner_commit w3 100 0 last (900 * Millisecond) 0 (700 * Millisecond)
      0 5 hdoor (by rw [hd]; decide) (by rw [hd]; rfl) (by rw [hd]; rfl) hgap
      (by rw [hd]; rfl) (by rw [hd]; rfl) (by rw [hd]; rfl) (by rw [hd]; exact h1)
      (by rw [hd]; exact h2)
    simp only [Option.some_bind, runGateActive]
    rw [hc]
    simp [hd, scenarioDoor]

theorem scenario_clean_crossing_witness :
    (runGateActive [(200, 0), (200, 700 * Millisecond), (100, 900 * Millisecond),
        (100, 1401 * Millisecond)] (scenarioWorld 0 5)).map
        (fun w => ((w.heap 0).LastBlocked, (w.heap 0).InnerGateState.LastActive, w.db 1, w.db 2))
      = some ({ Gate := LastBlockedGateNone, Start := none, End := none },
          some (1401 * Millisecond), some 1, some 4) :=
  scenario_clean_crossing (1401 * Millisecond) (by decide) (by decide)

/-! ## The typed parsers -/

theorem BigEndianUint16_pair (a b : Nat) (hb : b < 256) : BigEndianUint16 [a, b] = 256 * a + b := by
  have h := or_shiftLeft_eq_add a b 8 (by omega)
  simp only [BigEndianUint16, List.getD_cons_zero, List.getD_cons_succ, h]
  omega

theorem length_two (l : List Nat) (h : l.length = 2) : ∃ a b, l = [a, b] := by
  match l, h with
  | [a, b], _ => exact ⟨a, b, rfl⟩

theorem length_seven (l : List Nat) (h : l.length = 7) :
    ∃ a b c d e f g, l = [a, b, c, d, e, f, g] := by
  match l, h with
  | [a, b, c, d, e, f, g], _ => exact ⟨a, b, c, d, e, f, g, rfl⟩

/-- C11. Typed parser validation. For `HeartbeatPacket.Parse`,
`IncrementPacket.Parse`, `DecrementPacket.Parse` (payload length 2) and
`GateStatusPacket.Parse` (payload length 7) and every `RawPacket`: a payload of
any other length gives `ErrInvalidBinarySize`, whatever the packet type; a
payload of the right length with a `PacketType` other than the parser's own
gives `ErrPacketTypeMismatch`; in both cases the receiving typed packet is
unchanged; and a 2-byte payload of the parser's own type is parsed without
error by the three 2-byte parsers, with `GateID = 256 * payload[0] + payload[1]`
and the raw packet's `Version` and `PacketType` copied. -/
theorem Parse_validation (rawPacket : RawPacket)
    (hbytes : ∀ x ∈ rawPacket.raw, x < 256) :
    (∀ p : HeartbeatPacket,
      (rawPacket.raw.length ≠ 2 → p.Parse rawPacket = (p, some Err.ErrInvalidBinarySize)) ∧
      (rawPacket.raw.length = 2 → rawPacket.PacketType ≠ PacketTypeHeartbeat →
        p.Parse rawPacket = (p, some Err.ErrPacketTypeMismatch)) ∧
      (rawPacket.raw.length = 2 → rawPacket.PacketType = PacketTypeHeartbeat →
        p.Parse rawPacket =
          ({ p with GateID := 256 * rawPacket.raw.getD 0 0 + rawPacket.raw.getD 1 0,
                    Version := rawPacket.Version, PacketType := rawPacket.PacketType },
            none))) ∧
    (∀ p : IncrementPacket,
      (rawPacket.raw.length ≠ 2 → p.Parse rawPacket = (p, some Err.ErrInvalidBinarySize)) ∧
      (rawPacket.raw.length = 2 → rawPacket.PacketType ≠ PacketTypeIncrement →
        p.Parse rawPacket = (p, some Err.ErrPacketTypeMismatch)) ∧
      (rawPacket.raw.length = 2 → rawPacket.PacketType = PacketTypeIncrement →
        p.Parse rawPacket =
          ({ p with GateID := 256 * rawPacket.raw.getD 0 0 + rawPacket.raw.getD 1 0,
                    Version := rawPacket.Version, PacketType := rawPacket.PacketType },
            none))) ∧
    (∀ p : DecrementPacket,
      (rawPacket.raw.length ≠ 2 → p.Parse rawPacket = (p, some Err.ErrInvalidBinarySize)) ∧
      (rawPacket.raw.length = 2 → rawPacket.PacketType ≠ PacketTypeDecrement →
        p.Parse rawPacket = (p, some Err.ErrPacketTypeMismatch)) ∧
      (rawPacket.raw.length = 2 → rawPacket.PacketType = PacketTypeDecrement →
        p.Parse rawPacket =
          ({ p with GateID := 256 * rawPacket.raw.getD 0 0 + rawPacket.raw.getD 1 0,
                    Version := rawPacket.Version, PacketType := rawPacket.PacketType },
            none))) ∧
    (∀ p : GateStatusPacket,
      (rawPacket.raw.length ≠ 7 → p.Parse rawPacket = (p, some Err.ErrInvalidBinarySize)) ∧
      (rawPacket.raw.length = 7 → rawPacket.PacketType ≠ PacketTypeGateStatus →
        p.Parse rawPacket = (p, some Err.ErrPacketTypeMismatch))) := by
  have hgate : rawPacket.raw.length = 2 →
      BigEndianUint16 rawPacket.raw = 256 * rawPacket.raw.getD 0 0 + rawPacket.raw.getD 1 0 := by
    intro hl
    obtain ⟨a, b, hab⟩ := length_two _ hl
    have hb : b < 256 := hbytes b (by simp [hab])
    rw [hab, BigEndianUint16_pair a b hb]
    simp
  refine ⟨?_, ?_, ?_, ?_⟩
  · intro p
    refine ⟨?_, ?_, ?_⟩
    · intro hl
      simp [HeartbeatPacket.Parse, hl]
    · intro hl ht
      simp [HeartbeatPacket.Parse, hl, ht]
    · intro hl ht
      simp [HeartbeatPacket.Parse, hl, ht, hgate hl]
  · intro p
    refine ⟨?_, ?_, ?_⟩
    · intro hl
      simp [IncrementPacket.Parse, hl]
    · intro hl ht
      simp [IncrementPacket.Parse, hl, ht]
    · intro hl ht
      simp [IncrementPacket.Parse, hl, ht, hgate hl]
  · intro p
    refine ⟨?_, ?_, ?_⟩
    · intro hl
      simp [DecrementPacket.Parse, hl]
    · intro hl ht
      simp [DecrementPacket.Parse, hl, ht]
    · intro hl ht
      simp [DecrementPacket.Parse, hl, ht, hgate hl]
  · intro p
    refine ⟨?_, ?_⟩
    · intro hl
      simp [GateStatusPacket.Parse, hl]
    · intro hl ht
      simp [GateStatusPacket.Parse, hl, ht]

theorem Parse_validation_witness :
    (HeartbeatPacket.mk ⟨[], 0, 0⟩ 9).Parse ⟨[2, 3], 1, 1⟩
        = ({ raw := [], Version := 1, PacketType := 1, GateID := 515 }, none) ∧
      (HeartbeatPacket.mk ⟨[], 0, 0⟩ 9).Parse ⟨[2, 3], 1, 3⟩
        = (HeartbeatPacket.mk ⟨[], 0, 0⟩ 9, some Err.ErrPacketTypeMismatch) ∧
      (GateStatusPacket.mk ⟨[], 0, 0⟩ 9 0 ⟨0, 0⟩).Parse ⟨[2, 3], 1, 1⟩
        = (GateStatusPacket.mk ⟨[], 0, 0⟩ 9 0 ⟨0, 0⟩, some Err.ErrInvalidBinarySize) :=
  ⟨((Parse_validation ⟨[2, 3], 1, 1⟩ (by decide)).1 _).2.2 rfl rfl,
   ((Parse_validation ⟨[2, 3], 1, 3⟩ (by decide)).1 _).2.1 rfl (by decide),
   ((Parse_validation ⟨[2, 3], 1, 1⟩ (by decide)).2.2.2 _).1 (by decide)⟩

theorem binaryReadInt32_value (b3 b4 b5 b6 : Nat)
    (h3 : b3 < 256) (h4 : b4 < 256) (h5 : b5 < 256) (h6 : b6 < 256) :
    binaryReadInt32 [b3, b4, b5, b6] =
      some (if (2147483648 : Int) ≤ b3 * 16777216 + b4 * 65536 + b5 * 256 + b6
        then (b3 * 16777216 + b4 * 65536 + b5 * 256 + b6 : Int) - 4294967296
        else b3 * 16777216 + b4 * 65536 + b5 * 256 + b6) := by
  have k1 := or_shiftLeft_eq_add b5 b6 8 (by omega)
  have k2 := or_shiftLeft_eq_add b4 (b5 * 2 ^ 8 + b6) 16 (by omega)
  have k3 := or_shiftLeft_eq_add b3 (b4 * 2 ^ 16 + (b5 * 2 ^ 8 + b6)) 24 (by omega)
  simp only [binaryReadInt32, k1, k2, k3, int32, Option.some.injEq]
  push_cast
  split_ifs <;> omega

/-- C12. Gate-status parsing. For every 7-byte payload `b0 .. b6` in a `RawPacket`
of type gate-status, `GateStatusPacket.Parse` returns no error if and only if
`b2` is 1, 2, 3 or 4, and returns `ErrInvalidGateStatus` otherwise; on success
`GateID` is the big-endian 16-bit value `256 * b0 + b1`, `Status` is `b2`, and
`TriggerTime` is `time.Unix(sec, 0)` with `sec` the signed big-endian
two's-complement 32-bit value of `b3 .. b6`, which is negative (before 1970)
exactly when `b3` is 0x80 or more. -/
theorem GateStatusPacket_Parse_spec (p : GateStatusPacket) (v b0 b1 b2 b3 b4 b5 b6 : Nat)
    (h0 : b0 < 256) (h1 : b1 < 256) (h2 : b2 < 256) (h3 : b3 < 256) (h4 : b4 < 256)
    (h5 : b5 < 256) (h6 : b6 < 256) :
    ((p.Parse ⟨[b0, b1, b2, b3, b4, b5, b6], v, PacketTypeGateStatus⟩).2 = none ↔
      (b2 = 1 ∨ b2 = 2 ∨ b2 = 3 ∨ b2 = 4)) ∧
    (¬ (b2 = 1 ∨ b2 = 2 ∨ b2 = 3 ∨ b2 = 4) →
      (p.Parse ⟨[b0, b1, b2, b3, b4, b5, b6], v, PacketTypeGateStatus⟩).2
        = some Err.ErrInvalidGateStatus) ∧
    ((b2 = 1 ∨ b2 = 2 ∨ b2 = 3 ∨ b2 = 4) →
      p.Parse ⟨[b0, b1, b2, b3, b4, b5, b6], v, PacketTypeGateStatus⟩ =
        ({ p with
            GateID := 256 * b0 + b1, Version := v, PacketType := PacketTypeGateStatus,
            Status := b2,
            TriggerTime := unixTime
              (if (2147483648 : Int) ≤ b3 * 16777216 + b4 * 65536 + b5 * 256 + b6
                then (b3 * 16777216 + b4 * 65536 + b5 * 256 + b6 : Int) - 4294967296
                else b3 * 16777216 + b4 * 65536 + b5 * 256 + b6) }, none)) ∧
    ((if (2147483648 : Int) ≤ b3 * 16777216 + b4 * 65536 + b5 * 256 + b6
        then (b3 * 16777216 + b4 * 65536 + b5 * 256 + b6 : Int) - 4294967296
        else b3 * 16777216 + b4 * 65536 + b5 * 256 + b6) < 0 ↔ 128 ≤ b3) := by
  have hg : BigEndianUint16 [b0, b1] = 256 * b0 + b1 := BigEndianUint16_pair b0 b1 h1
  have ht := binaryReadInt32_value b3 b4 b5 b6 h3 h4 h5 h6
  have _hb := And.intro h0 h2
  by_cases hs : b2 = 1 ∨ b2 = 2 ∨ b2 = 3 ∨ b2 = 4
  · have hp : p.Parse ⟨[b0, b1, b2, b3, b4, b5, b6], v, PacketTypeGateStatus⟩ =
        ({ p with
            GateID := 256 * b0 + b1, Version := v, PacketType := PacketTypeGateStatus,
            Status := b2,
            TriggerTime := unixTime
              (if (2147483648 : Int) ≤ b3 * 16777216 + b4 * 65536 + b5 * 256 + b6
                then (b3 * 16777216 + b4 * 65536 + b5 * 256 + b6 : Int) - 4294967296
                else b3 * 16777216 + b4 * 65536 + b5 * 256 + b6) }, none) := by
      simp only [GateStatusPacket.Parse, List.length_cons, List.length_nil, List.take, List.drop,
        hg, ht, List.getD_cons_zero, List.getD_cons_succ, GateStatusTurnOn,
        GateStatusUnblocked, GateStatusBlocked, GateStatusFaulty, hs]
      simp
    refine ⟨?_, ?_, ?_, ?_⟩
    · rw [hp]
      simp [hs]
    · intro hn
      exact absurd hs hn
    · intro _
      exact hp
    · split_ifs <;> omega
  · have hp : (p.Parse ⟨[b0, b1, b2, b3, b4, b5, b6], v, PacketTypeGateStatus⟩).2
        = some Err.ErrInvalidGateStatus := by
      simp only [GateStatusPacket.Parse, List.length_cons, List.length_nil, List.take, List.drop,
        hg, ht, List.getD_cons_zero, List.getD_cons_succ, GateStatusTurnOn,
        GateStatusUnblocked, GateStatusBlocked, GateStatusFaulty, hs]
      simp
    refine ⟨?_, ?_, ?_, ?_⟩
    · rw [hp]
      simp [hs]
    · intro _
      exact hp
    · intro h
      exact absurd h hs
    · split_ifs <;> omega

theorem GateStatusPacket_Parse_spec_witness :
    (GateStatusPacket.mk ⟨[], 0, 0⟩ 0 0 ⟨0, 0⟩).Parse
        ⟨[2, 3, 3, 255, 255, 255, 254], 1, PacketTypeGateStatus⟩
      = ({ raw := [], Version := 1, PacketType := PacketTypeGateStatus, GateID := 515,
           Status := 3, TriggerTime := ⟨-2, 0⟩ }, none) ∧
    ((GateStatusPacket.mk ⟨[], 0, 0⟩ 0 0 ⟨0, 0⟩).Parse
        ⟨[2, 3, 7, 0, 0, 0, 1], 1, PacketTypeGateStatus⟩).2
      = some Err.ErrInvalidGateStatus :=
  ⟨(GateStatusPacket_Parse_spec ⟨⟨[], 0, 0⟩, 0, 0, ⟨0, 0⟩⟩ 1 2 3 3 255 255 255 254 (by decide)
      (by decide) (by decide) (by decide) (by decide) (by decide) (by decide)).2.2.1
      (by decide),
   (GateStatusPacket_Parse_spec ⟨⟨[], 0, 0⟩, 0, 0, ⟨0, 0⟩⟩ 1 2 3 7 0 0 0 1 (by decide)
      (by decide) (by decide) (by decide) (by decide) (by decide) (by decide)).2.1
      (by decide)⟩

/-! ## Encoding from the zero value -/

/-- C13, as stated, fails. A heartbeat packet built from its zero value by
`SetGateID(515)` alone still has `Version = 0` and `PacketType = 0`:
`MarshalBinary` gives the frame `00 02 03`, and `ReadPackets` rejects it with
`ErrVersionMismatch`. The same holds for a gate-status packet after its three
setters: the frame starts with `00`. -/
theorem zero_value_frame_rejected :
    (HeartbeatPacket.zero.SetGateID 515).toRawPacket.MarshalBinary = Except.ok [0, 2, 3] ∧
    ((RawPacket.mk [] 0 0).ReadPackets ⟨[0, 2, 3]⟩).2.2 = some Err.ErrVersionMismatch ∧
    (GateStatusPacket.zero.calls
        [GateStatusSetter.SetGateID 515, GateStatusSetter.SetStatus 3,
          GateStatusSetter.SetTimestamp ⟨-2, 0⟩]).map
        (fun r => (r.1.toRawPacket.MarshalBinary, r.2))
      = some (Except.ok [0, 2, 3, 3, 255, 255, 255, 254], none) ∧
    ((RawPacket.mk [] 0 0).ReadPackets ⟨[0, 2, 3, 3, 255, 255, 255, 254]⟩).2.2
      = some Err.ErrVersionMismatch :=
  ⟨rfl, by decide, rfl, by decide⟩

/-- C13, amended. For each packet kind, a typed packet built from its zero value
by assigning `Version = 1` and `PacketType` = the kind's own type (the setters
do not write them) and calling its typed-field setters (`SetGateID`, and for
gate-status also `SetStatus` with a status in 1..4 and `SetTimestamp` with a
whole-second time in the 32-bit range, in any order) is encoded by
`MarshalBinary` into a frame whose header byte splits into version nibble 1 and
the kind's type nibble, which `ReadPackets` accepts and reads completely, and
whose `Parse` into a zero-value packet returns the same typed fields. -/
theorem zero_value_round_trip (gateID status : Nat) (triggerTime : Time)
    (hg : gateID < 65536)
    (hs : status = 1 ∨ status = 2 ∨ status = 3 ∨ status = 4)
    (h1 : -2147483648 ≤ triggerTime.sec) (h2 : triggerTime.sec ≤ 2147483647)
    (hw : triggerTime.nsec = 0) :
    (∀ r : RawPacket, ∃ payload,
      ({ HeartbeatPacket.zero with Version := 1, PacketType := PacketTypeHeartbeat }.SetGateID
          gateID).toRawPacket.MarshalBinary = Except.ok (0x11 :: payload) ∧
      SplitByteInto2FourBits 0x11 = (1, PacketTypeHeartbeat) ∧
      r.ReadPackets ⟨0x11 :: payload⟩ = (⟨payload, 1, PacketTypeHeartbeat⟩, ⟨[]⟩, none) ∧
      HeartbeatPacket.zero.Parse ⟨payload, 1, PacketTypeHeartbeat⟩
        = ({ HeartbeatPacket.zero with
              Version := 1, PacketType := PacketTypeHeartbeat, GateID := gateID }, none)) ∧
    (∀ r : RawPacket, ∃ payload,
      ({ IncrementPacket.zero with Version := 1, PacketType := PacketTypeIncrement }.SetGateID
          gateID).toRawPacket.MarshalBinary = Except.ok (0x13 :: payload) ∧
      SplitByteInto2FourBits 0x13 = (1, PacketTypeIncrement) ∧
      r.ReadPackets ⟨0x13 :: payload⟩ = (⟨payload, 1, PacketTypeIncrement⟩, ⟨[]⟩, none) ∧
      IncrementPacket.zero.Parse ⟨payload, 1, PacketTypeIncrement⟩
        = ({ IncrementPacket.zero with
              Version := 1, PacketType := PacketTypeIncrement, GateID := gateID }, none)) ∧
    (∀ r : RawPacket, ∃ payload,
      ({ DecrementPacket.zero with Version := 1, PacketType := PacketTypeDecrement }.SetGateID
          gateID).toRawPacket.MarshalBinary = Except.ok (0x14 :: payload) ∧
      SplitByteInto2FourBits 0x14 = (1, PacketTypeDecrement) ∧
      r.ReadPackets ⟨0x14 :: payload⟩ = (⟨payload, 1, PacketTypeDecrement⟩, ⟨[]⟩, none) ∧
      DecrementPacket.zero.Parse ⟨payload, 1, PacketTypeDecrement⟩
        = ({ DecrementPacket.zero with
              Version := 1, PacketType := PacketTypeDecrement, GateID := gateID }, none)) ∧
    (∀ (r : RawPacket) (calls : List GateStatusSetter),
      calls ∈
        [[GateStatusSetter.SetGateID gateID, GateStatusSetter.SetStatus status,
            GateStatusSetter.SetTimestamp triggerTime],
         [GateStatusSetter.SetGateID gateID, GateStatusSetter.SetTimestamp triggerTime,
            GateStatusSetter.SetStatus status],
         [GateStatusSetter.SetStatus status, GateStatusSetter.SetGateID gateID,
            GateStatusSetter.SetTimestamp triggerTime],
         [GateStatusSetter.SetStatus status, GateStatusSetter.SetTimestamp triggerTime,
            GateStatusSetter.SetGateID gateID],
         [GateStatusSetter.SetTimestamp triggerTime, GateStatusSetter.SetGateID gateID,
            GateStatusSetter.SetStatus status],
         [GateStatusSetter.SetTimestamp triggerTime, GateStatusSetter.SetStatus status,
            GateStatusSetter.SetGateID gateID]] →
      ∃ p1 payload,
        { GateStatusPacket.zero with Version := 1, PacketType := PacketTypeGateStatus }.calls
            calls = some (p1, none) ∧
        p1.toRawPacket.MarshalBinary = Except.ok (0x12 :: payload) ∧
        SplitByteInto2FourBits 0x12 = (1, PacketTypeGateStatus) ∧
        r.ReadPackets ⟨0x12 :: payload⟩ = (⟨payload, 1, PacketTypeGateStatus⟩, ⟨[]⟩, none) ∧
        GateStatusPacket.zero.Parse ⟨payload, 1, PacketTypeGateStatus⟩
          = ({ GateStatusPacket.zero with
                Version := 1, PacketType := PacketTypeGateStatus, GateID := gateID,
                Status := status, TriggerTime := triggerTime }, none)) := by
  have hraw : BigEndianPutUint16 (List.replicate 2 0) gateID
      = [byte (gateID >>> 8), byte gateID] := by
    simp [BigEndianPutUint16]
  have hu := BigEndianUint16_bytes gateID hg
  have hf2 : ∀ hdr, (hdr = 0x11 ∨ hdr = 0x13 ∨ hdr = 0x14) →
      ((hdr = 0x11 ∨ hdr = 0x13 ∨ hdr = 0x14) ∧ [byte (gateID >>> 8), byte gateID].length = 2) ∨
        (hdr = 0x12 ∧ [byte (gateID >>> 8), byte gateID].length = 7) :=
    fun hdr h => Or.inl ⟨h, rfl⟩
  refine ⟨?_, ?_, ?_, ?_⟩
  · intro r
    have hm := MarshalBinary_wellformed 0x11 _ (hf2 0x11 (by decide))
    have hr := ReadPackets_wellformed r 0x11 _ [] (hf2 0x11 (by decide))
    refine ⟨[byte (gateID >>> 8), byte gateID], ?_, by decide, ?_, ?_⟩
    · simpa [HeartbeatPacket.SetGateID, HeartbeatPacket.zero, PacketTypeHeartbeat, hraw] using hm
    · simpa [PacketTypeHeartbeat] using hr
    · simp [HeartbeatPacket.Parse, HeartbeatPacket.zero, PacketTypeHeartbeat, hu]
  · intro r
    have hm := MarshalBinary_wellformed 0x13 _ (hf2 0x13 (by decide))
    have hr := ReadPackets_wellformed r 0x13 _ [] (hf2 0x13 (by decide))
    refine ⟨[byte (gateID >>> 8), byte gateID], ?_, by decide, ?_, ?_⟩
    · simpa [IncrementPacket.SetGateID, IncrementPacket.zero, PacketTypeIncrement, hraw] using hm
    · simpa [PacketTypeIncrement] using hr
    · simp [IncrementPacket.Parse, IncrementPacket.zero, PacketTypeIncrement, hu]
  · intro r
    have hm := MarshalBinary_wellformed 0x14 _ (hf2 0x14 (by decide))
    have hr := ReadPackets_wellformed r 0x14 _ [] (hf2 0x14 (by decide))
    refine ⟨[byte (gateID >>> 8), byte gateID], ?_, by decide, ?_, ?_⟩
    · simpa [DecrementPacket.SetGateID, DecrementPacket.zero, PacketTypeDecrement, hraw] using hm
    · simpa [PacketTypeDecrement] using hr
    · simp [DecrementPacket.Parse, DecrementPacket.zero, PacketTypeDecrement, hu]
  · intro r calls horder
    have hc := setters_any_order
      { GateStatusPacket.zero with Version := 1, PacketType := PacketTypeGateStatus }
      gateID status triggerTime calls (Or.inl rfl) h1 h2 horder
    have hf : ((0x12 = 0x11 ∨ 0x12 = 0x13 ∨ 0x12 = 0x14) ∧
          [byte (gateID >>> 8), byte gateID, byte status,
            byteOfInt (triggerTime.sec >>> (24 : Nat)),
            byteOfInt (triggerTime.sec >>> (16 : Nat)),
            byteOfInt (triggerTime.sec >>> (8 : Nat)), byteOfInt triggerTime.sec].length = 2) ∨
        (0x12 = 0x12 ∧
          [byte (gateID >>> 8), byte gateID, byte status,
            byteOfInt (triggerTime.sec >>> (24 : Nat)),
            byteOfInt (triggerTime.sec >>> (16 : Nat)),
            byteOfInt (triggerTime.sec >>> (8 : Nat)), byteOfInt triggerTime.sec].length = 7) :=
      Or.inr ⟨rfl, rfl⟩
    have hm := MarshalBinary_wellformed 0x12 _ hf
    have hr := ReadPackets_wellformed r 0x12 _ [] hf
    have hst : byte status = status := by
      unfold byte
      omega
    have htt : unixTime triggerTime.sec = triggerTime := by
      obtain ⟨s, n⟩ := triggerTime
      simp only at hw
      simp [unixTime, hw]
    refine ⟨_, [byte (gateID >>> 8), byte gateID, byte status,
            byteOfInt (triggerTime.sec >>> (24 : Nat)),
            byteOfInt (triggerTime.sec >>> (16 : Nat)),
            byteOfInt (triggerTime.sec >>> (8 : Nat)), byteOfInt triggerTime.sec],
      hc, ?_, by decide, ?_, ?_⟩
    · simpa [PacketTypeGateStatus] using hm
    · simpa [PacketTypeGateStatus] using hr
    · simp only [GateStatusPacket.Parse, List.length_cons, List.length_nil, PacketTypeGateStatus,
        List.take, List.drop, hu, binaryReadInt32_bytes triggerTime.sec h1 h2,
        List.getD_cons_zero, List.getD_cons_succ,
        hst, GateStatusTurnOn, GateStatusUnblocked, GateStatusBlocked, GateStatusFaulty, hs, htt]
      simp

theorem zero_value_round_trip_witness :
    ∃ payload,
      ({ HeartbeatPacket.zero with Version := 1, PacketType := PacketTypeHeartbeat }.SetGateID
          515).toRawPacket.MarshalBinary = Except.ok (0x11 :: payload) ∧
      SplitByteInto2FourBits 0x11 = (1, PacketTypeHeartbeat) ∧
      (RawPacket.mk [] 0 0).ReadPackets ⟨0x11 :: payload⟩
        = (⟨payload, 1, PacketTypeHeartbeat⟩, ⟨[]⟩, none) ∧
      HeartbeatPacket.zero.Parse ⟨payload, 1, PacketTypeHeartbeat⟩
        = ({ HeartbeatPacket.zero with
              Version := 1, PacketType := PacketTypeHeartbeat, GateID := 515 }, none) :=
  (zero_value_round_trip 515 3 ⟨-2, 0⟩ (by decide) (by decide) (by decide) (by decide) rfl).1
    (RawPacket.mk [] 0 0)

/-! ## Nibbles and timestamps -/

/-- C14. Nibble round trip. For every byte `b`, `SplitByteInto2FourBits b` is
`((b >> 4) & 0x0F, b & 0x0F)`, that is `(b / 16, b % 16)`, both parts are below
16, and `Join2FourBitsIntoByte` of the two parts is `b`. -/
theorem nibble_round_trip (b : Nat) (hb : b < 256) :
    SplitByteInto2FourBits b = ((b >>> 4) &&& 0x0F, b &&& 0x0F) ∧
    SplitByteInto2FourBits b = (b / 16, b % 16) ∧
    (SplitByteInto2FourBits b).1 < 16 ∧ (SplitByteInto2FourBits b).2 < 16 ∧
    Join2FourBitsIntoByte (SplitByteInto2FourBits b).1 (SplitByteInto2FourBits b).2 = b := by
  have hs : SplitByteInto2FourBits b = (b / 16, b % 16) := by
    rw [SplitByteInto2FourBits_eq]
    have : b / 16 % 16 = b / 16 := by omega
    rw [this]
  refine ⟨rfl, hs, ?_, ?_, ?_⟩
  · rw [hs]
    simp only
    omega
  · rw [hs]
    simp only
    omega
  · rw [hs]
    simp only
    rw [Join2FourBitsIntoByte_eq (b / 16) (b % 16) (by omega) (by omega)]
    omega

theorem nibble_round_trip_witness :
    SplitByteInto2FourBits 0xAB = ((0xAB >>> 4) &&& 0x0F, 0xAB &&& 0x0F) ∧
    SplitByteInto2FourBits 0xAB = (0xAB / 16, 0xAB % 16) ∧
    (SplitByteInto2FourBits 0xAB).1 < 16 ∧ (SplitByteInto2FourBits 0xAB).2 < 16 ∧
    Join2FourBitsIntoByte (SplitByteInto2FourBits 0xAB).1 (SplitByteInto2FourBits 0xAB).2
      = 0xAB :=
  nibble_round_trip 0xAB (by decide)

theorem setIndex_some (s : List Nat) (i v : Nat) (h : i < s.length) :
    setIndex s i v = some (s.set i v) := by
  simp [setIndex, h]

/-- C15. Timestamp range. For every time `t`, `TimeToInt32` returns no error if
and only if `-2147483648 <= t.Unix() <= 2147483647`; then its value is exactly
`t.Unix()`, so `time.Unix` of it has the same Unix seconds; otherwise its value
is 0 with an error. `GateStatusPacket.SetTimestamp` returns exactly the error
of `TimeToInt32`: on an out-of-range time it returns it and leaves the packet
unchanged, and on an in-range time (payload not yet allocated, or at least 7
bytes) it returns no error and stores `t` as `TriggerTime`. -/
theorem TimeToInt32_range (t : Time) :
    ((TimeToInt32 t).2 = none ↔ (-2147483648 ≤ t.Unix ∧ t.Unix ≤ 2147483647)) ∧
    ((-2147483648 ≤ t.Unix ∧ t.Unix ≤ 2147483647) →
      TimeToInt32 t = (t.Unix, none) ∧ (unixTime (TimeToInt32 t).1).Unix = t.Unix) ∧
    (¬ (-2147483648 ≤ t.Unix ∧ t.Unix ≤ 2147483647) →
      TimeToInt32 t = (0, some Err.ErrTimeNotInt32)) ∧
    (∀ p : GateStatusPacket, ¬ (-2147483648 ≤ t.Unix ∧ t.Unix ≤ 2147483647) →
      p.SetTimestamp t = some (p, some Err.ErrTimeNotInt32)) ∧
    (∀ p : GateStatusPacket, (p.raw.length = 0 ∨ 7 ≤ p.raw.length) →
      (-2147483648 ≤ t.Unix ∧ t.Unix ≤ 2147483647) →
      ∃ p1, p.SetTimestamp t = some (p1, none) ∧ p1.TriggerTime = t ∧
        p1.GateID = p.GateID ∧ p1.Status = p.Status) := by
  have hin : (-2147483648 ≤ t.Unix ∧ t.Unix ≤ 2147483647) → TimeToInt32 t = (t.Unix, none) := by
    intro h
    have hc : t.Unix ≤ 2147483647 ∧ t.Unix ≥ -2147483648 := ⟨h.2, h.1⟩
    simp only [TimeToInt32, hc, and_self, if_true, int32_of_range t.Unix h.1 h.2]
  have hout : ¬ (-2147483648 ≤ t.Unix ∧ t.Unix ≤ 2147483647) →
      TimeToInt32 t = (0, some Err.ErrTimeNotInt32) := by
    intro h
    have hc : ¬ (t.Unix ≤ 2147483647 ∧ t.Unix ≥ -2147483648) := fun hc => h ⟨hc.2, hc.1⟩
    simp only [TimeToInt32, hc, if_false]
  refine ⟨?_, ?_, hout, ?_, ?_⟩
  · by_cases h : -2147483648 ≤ t.Unix ∧ t.Unix ≤ 2147483647
    · simp [hin h, h]
    · simp [hout h, h]
  · intro h
    refine ⟨hin h, ?_⟩
    rw [hin h]
    rfl
  · intro p h
    simp [GateStatusPacket.SetTimestamp, hout h]
  · intro p hraw h
    have hlen : 7 ≤ p.ensureRaw.raw.length := by
      unfold GateStatusPacket.ensureRaw
      rcases hraw with h0 | h7
      · simp [h0]
      · have : p.raw.length ≠ 0 := by omega
        simp [this, h7]
    have hlen2 : 7 ≤ ({ p with TriggerTime := t } : GateStatusPacket).ensureRaw.raw.length := by
      unfold GateStatusPacket.ensureRaw
      rcases hraw with h0 | h7
      · simp [h0]
      · have : p.raw.length ≠ 0 := by omega
        simp [this, h7]
    simp only [GateStatusPacket.SetTimestamp, hin h]
    rw [setIndex_some _ 3 _ (by omega)]
    simp only
    rw [setIndex_some _ 4 _ (by rw [List.length_set]; omega)]
    simp only
    rw [setIndex_some _ 5 _ (by rw [List.length_set, List.length_set]; omega)]
    simp only
    rw [setIndex_some _ 6 _ (by rw [List.length_set, List.length_set, List.length_set]; omega)]
    refine ⟨_, rfl, ?_, ?_, ?_⟩
    · unfold GateStatusPacket.ensureRaw
      split_ifs <;> rfl
    · unfold GateStatusPacket.ensureRaw
      split_ifs <;> rfl
    · unfold GateStatusPacket.ensureRaw
      split_ifs <;> rfl

theorem TimeToInt32_range_witness :
    (TimeToInt32 ⟨-2147483648, 0⟩ = (-2147483648, none) ∧
      (unixTime (TimeToInt32 ⟨-2147483648, 0⟩).1).Unix = -2147483648) ∧
    TimeToInt32 ⟨2147483648, 0⟩ = (0, some Err.ErrTimeNotInt32) ∧
    GateStatusPacket.zero.SetTimestamp ⟨-2147483649, 0⟩
      = some (GateStatusPacket.zero, some Err.ErrTimeNotInt32) ∧
    (∃ p1, GateStatusPacket.zero.SetTimestamp ⟨2147483647, 0⟩ = some (p1, none) ∧
      p1.TriggerTime = ⟨2147483647, 0⟩ ∧ p1.GateID = GateStatusPacket.zero.GateID ∧
      p1.Status = GateStatusPacket.zero.Status) :=
  ⟨(TimeToInt32_range ⟨-2147483648, 0⟩).2.1 (by decide),
   (TimeToInt32_range ⟨2147483648, 0⟩).2.2.1 (by decide),
   (TimeToInt32_range ⟨-2147483649, 0⟩).2.2.2.1 _ (by decide),
   (TimeToInt32_range ⟨2147483647, 0⟩).2.2.2.2 _ (Or.inl rfl) (by decide)⟩

/-! ## The origin policy -/

theorem stringsSplit_ne_nil (sep : Char) (s : List Char) : stringsSplit sep s ≠ [] := by
  cases s with
  | nil => simp [stringsSplit]
  | cons c cs =>
    simp only [stringsSplit]
    split_ifs
    · simp
    · split <;> simp

theorem stringsJoin_cons_nil (sep : Char) (l : List (List Char)) (h : l ≠ []) :
    stringsJoin sep ([] :: l) = sep :: stringsJoin sep l := by
  cases l with
  | nil => exact absurd rfl h
  | cons a t => simp [stringsJoin]

theorem stringsJoin_cons_head (sep c : Char) (piece : List Char) (rest : List (List Char)) :
    stringsJoin sep ((c :: piece) :: rest) = c :: stringsJoin sep (piece :: rest) := by
  cases rest with
  | nil => simp [stringsJoin]
  | cons a t => simp [stringsJoin]

theorem stringsJoin_split (sep : Char) (s : List Char) :
    stringsJoin sep (stringsSplit sep s) = s := by
  induction s with
  | nil => simp [stringsSplit, stringsJoin]
  | cons c cs ih =>
    simp only [stringsSplit]
    split_ifs with hc
    · rw [stringsJoin_cons_nil sep _ (stringsSplit_ne_nil sep cs), ih, hc]
    · cases hsp : stringsSplit sep cs with
      | nil => exact absurd hsp (stringsSplit_ne_nil sep cs)
      | cons piece rest =>
        simp only
        rw [stringsJoin_cons_head, ← hsp, ih]

theorem stringsSplit_no_sep (sep : Char) (s : List Char) :
    ∀ piece ∈ stringsSplit sep s, sep ∉ piece := by
  induction s with
  | nil => simp [stringsSplit]
  | cons c cs ih =>
    simp only [stringsSplit]
    split_ifs with hc
    · intro piece hp
      rcases List.mem_cons.mp hp with h | h
      · simp [h]
      · exact ih piece h
    · cases hsp : stringsSplit sep cs with
      | nil => exact absurd hsp (stringsSplit_ne_nil sep cs)
      | cons p rest =>
        rw [hsp] at ih
        intro piece hp
        simp only at hp
        rcases List.mem_cons.mp hp with h | h
        · rw [h]
          intro hmem
          rcases List.mem_cons.mp hmem with h1 | h1
          · exact hc h1.symm
          · exact ih p (List.mem_cons_self p rest) h1
        · exact ih piece (List.mem_cons_of_mem p h)

/-- C19. Origin policy. For every configured `origins` and every request
`origin`, `checkOrigin` returns true if and only if `origins` is `*`, or
`origins` has no comma and equals `origin` exactly, or `origins` has a comma and
`origin` is one of the pieces of `strings.Split(origins, ",")`; the pieces are
the comma-free strings whose join with commas is `origins` (nothing is
trimmed). So `a.example` admits only `a.example`, and `a.example,b.example`
admits exactly its two members and rejects `c.example`. -/
theorem checkOrigin_policy (origins origin : List Char) :
    (checkOrigin origins origin = true ↔
      (origins = ['*'] ∨ (',' ∉ origins ∧ origins = origin) ∨
        (',' ∈ origins ∧ origin ∈ stringsSplit ',' origins))) ∧
    stringsJoin ',' (stringsSplit ',' origins) = origins ∧
    (∀ piece ∈ stringsSplit ',' origins, ',' ∉ piece) ∧
    (checkOrigin "a.example".toList origin = true ↔ origin = "a.example".toList) ∧
    (checkOrigin "a.example,b.example".toList origin = true ↔
      (origin = "a.example".toList ∨ origin = "b.example".toList)) ∧
    checkOrigin "a.example,b.example".toList "c.example".toList = false := by
  refine ⟨?_, stringsJoin_split ',' origins, stringsSplit_no_sep ',' origins, ?_, ?_, by decide⟩
  · unfold checkOrigin
    by_cases h1 : origins = ['*']
    · simp [h1]
    · by_cases h2 : ',' ∈ origins
      · simp [h1, h2]
      · simp [h1, h2]
  · have hs : ("a.example".toList = ['*']) = False := by decide
    have hc : (',' ∈ "a.example".toList) = False := by decide
    unfold checkOrigin
    simp only [hs, hc, if_false, not_false_eq_true, if_true, decide_eq_true_eq]
    exact eq_comm
  · have hs : ("a.example,b.example".toList = ['*']) = False := by decide
    have hc : (',' ∈ "a.example,b.example".toList) = True := by decide
    have hp : stringsSplit ',' "a.example,b.example".toList
        = ["a.example".toList, "b.example".toList] := by decide
    unfold checkOrigin
    simp only [hs, hc, hp, if_false, not_true_eq_false, decide_eq_true_eq, List.mem_cons,
      List.mem_singleton, List.not_mem_nil, or_false]

theorem checkOrigin_policy_witness :
    checkOrigin "*".toList "anything".toList = true ∧
    checkOrigin "a.example,b.example".toList "b.example".toList = true ∧
    checkOrigin "a.example".toList "a.example".toList = true :=
  ⟨(checkOrigin_policy "*".toList "anything".toList).1.mpr (Or.inl (by decide)),
   (checkOrigin_policy [] "b.example".toList).2.2.2.2.1.mpr (Or.inr rfl),
   (checkOrigin_policy [] "a.example".toList).2.2.2.1.mpr rfl⟩

/-! ## The population side channel -/

theorem find?_of_unique {α : Type} (l : List α) (p : α → Bool) (x : α) (hx : x ∈ l)
    (hp : p x = true) (hu : ∀ y ∈ l, p y = true → y = x) : l.find? p = some x := by
  induction l with
  | nil => simp at hx
  | cons a t ih =>
    by_cases ha : p a = true
    · have := hu a (List.mem_cons_self a t) ha
      subst this
      simp [List.find?, ha]
    · have hax : x ≠ a := by
        intro h
        rw [h] at hp
        exact ha hp
      have hxt : x ∈ t := by
        rcases List.mem_cons.mp hx with h | h
        · exact absurd h hax
        · exact h
      have := ih hxt (fun y hy => hu y (List.mem_cons_of_mem a hy))
      simp [List.find?, ha, this]

theorem firstDevicePair_of_only (db : DB) (deviceID : Nat) (devicePair : DevicePairRow)
    (hpair : devicePair ∈ db.devicePairs)
    (hside : devicePair.InnerGateID = deviceID ∨ devicePair.OuterGateID = deviceID)
    (honly : ∀ p ∈ db.devicePairs,
      (p.InnerGateID = deviceID ∨ p.OuterGateID = deviceID) → p = devicePair) :
    db.firstDevicePair deviceID = some devicePair := by
  unfold DB.firstDevicePair
  apply find?_of_unique _ _ _ hpair
  · simpa using hside
  · intro y hy hpy
    exact honly y hy (by simpa using hpy)

theorem firstDevice_mem (db : DB) (gateID : Nat) (device : Device)
    (h : db.firstDevice gateID = some device) : device ∈ db.devices := by
  unfold DB.firstDevice at h
  split_ifs at h
  · exact List.mem_of_mem_head? h
  · exact List.mem_of_find?_eq_some h

theorem firstDevice_gateID (db : DB) (gateID : Nat) (device : Device) (hne : gateID ≠ 0)
    (h : db.firstDevice gateID = some device) : device.GateID = gateID := by
  unfold DB.firstDevice at h
  rw [if_neg hne] at h
  simpa using List.find?_some h

/-- The decrement side channel wherever the device lookup gives the gate's own
device. When the lookup for `gateID` gives `device` (for a nonzero gate id that
is the row with this gate id, see `firstDevice_gateID`), and `device` is the
inner or outer gate of `devicePair` and of no other pair, `DecrementPopulation`
subtracts 1 from the population of the pair's inner room when it is positive,
leaves the Store as it is when that population is 0 (or the room has no
population row), logs no error, and changes no other room's population. -/
theorem DecrementPopulation_of_firstDevice (db : DB) (gateID : Nat) (device : Device)
    (devicePair : DevicePairRow)
    (hdev : db.firstDevice gateID = some device)
    (hpair : devicePair ∈ db.devicePairs)
    (hside : devicePair.InnerGateID = device.ID ∨ devicePair.OuterGateID = device.ID)
    (honly : ∀ p ∈ db.devicePairs,
      (p.InnerGateID = device.ID ∨ p.OuterGateID = device.ID) → p = devicePair) :
    (∀ n, db.roomPopulations devicePair.InnerRoomID = some n → 0 < n → n < 4294967296 →
      DecrementPopulation gateID db =
        ({ db with roomPopulations :=
            Function.update db.roomPopulations devicePair.InnerRoomID (some (n - 1)) }, none)) ∧
    (db.roomPopulations devicePair.InnerRoomID = some 0 →
      DecrementPopulation gateID db = (db, none)) ∧
    (db.roomPopulations devicePair.InnerRoomID = none →
      DecrementPopulation gateID db = (db, none)) := by
  have hfirst := firstDevicePair_of_only db device.ID devicePair hpair hside honly
  refine ⟨?_, ?_, ?_⟩
  · intro n hn hpos hlt
    have hne : ¬ (n = 0) := by omega
    have hsub : (n + 4294967295) % 4294967296 = n - 1 := by omega
    simp [DecrementPopulation, hdev, hfirst, DB.innerRoomPopulation, hn, hne, hsub,
      DB.saveInnerRoomPopulation]
  · intro hn
    simp [DecrementPopulation, hdev, hfirst, DB.innerRoomPopulation, hn]
  · intro hn
    simp [DecrementPopulation, hdev, hfirst, DB.innerRoomPopulation, hn]

/-- C16, evaluated on the code. In a Store where device 3, the inner gate of pair
2 (inner room 3, population 9), has gate id 0 and is not the first row of
`devices`: the lookup for gate id 0 gives device 1 (gate id 100), the inner gate
of pair 1, so `DecrementPopulation(0)` takes room 1 from 5 to 4 and leaves room
3, the inner room of the pair of gate 0, at 9, logging no error. For the other
gate of pair 2, gate id 400, it takes room 3 from 9 to 8 and leaves room 1
at 5. -/
theorem DecrementPopulation_zero_gate_id :
    (zeroGateDB.firstDevice 0).map (fun device => (device.ID, device.GateID)) = some (1, 100) ∧
    ((DecrementPopulation 0 zeroGateDB).1.roomPopulations 1,
        (DecrementPopulation 0 zeroGateDB).1.roomPopulations 3,
        (DecrementPopulation 0 zeroGateDB).2) = (some 4, some 9, none) ∧
    ((DecrementPopulation 400 zeroGateDB).1.roomPopulations 1,
        (DecrementPopulation 400 zeroGateDB).1.roomPopulations 3,
        (DecrementPopulation 400 zeroGateDB).2) = (some 5, some 8, none) :=
  ⟨by decide, by decide, by decide⟩

/-! ## The liveness tracker -/

theorem firstDevice_updateDeviceStatus (db : DB) (gateID deviceID status : Nat) :
    (db.updateDeviceStatus deviceID status).firstDevice gateID =
      (db.firstDevice gateID).map
        (fun d => if d.ID = deviceID then { d with Status := status } else d) := by
  unfold DB.firstDevice DB.updateDeviceStatus
  by_cases h : gateID = 0
  · simp only [h, if_true]
    cases db.devices <;> rfl
  · simp only [h, if_false]
    have hp : ((fun d : Device => decide (d.GateID = gateID)) ∘
        (fun d : Device => if d.ID = deviceID then { d with Status := status } else d)) =
        (fun d : Device => decide (d.GateID = gateID)) := by
      funext d
      simp only [Function.comp]
      split_ifs <;> rfl
    rw [List.find?_map, hp]

theorem firstDevice_updateDeviceStatus_self (db : DB) (gateID status : Nat) (device : Device)
    (h : db.firstDevice gateID = some device) :
    (db.updateDeviceStatus device.ID status).firstDevice gateID =
      some { device with Status := status } := by
  rw [firstDevice_updateDeviceStatus, h]
  simp

theorem firstDevice_updateDeviceStatus_other (db : DB) (g k status : Nat) (device : Device)
    (hids : (db.devices.map Device.ID).Nodup) (hg : g ≠ 0) (hk : k ≠ 0) (hgk : g ≠ k)
    (h : db.firstDevice k = some device) :
    (db.updateDeviceStatus device.ID status).firstDevice g = db.firstDevice g := by
  rw [firstDevice_updateDeviceStatus]
  cases hd : db.firstDevice g with
  | none => rfl
  | some dg =>
    have hne : dg.ID ≠ device.ID := by
      intro hid
      have heq := List.inj_on_of_nodup_map hids (firstDevice_mem db g dg hd)
        (firstDevice_mem db k device h) hid
      have h1 := firstDevice_gateID db g dg hg hd
      have h2 := firstDevice_gateID db k device hk h
      rw [heq] at h1
      exact hgk (h1.symm.trans h2)
    simp [hne]

theorem updateDeviceStatus_ids (db : DB) (deviceID status : Nat) :
    (db.updateDeviceStatus deviceID status).devices.map Device.ID = db.devices.map Device.ID := by
  unfold DB.updateDeviceStatus
  simp only [List.map_map]
  apply List.map_congr_left
  intro d _
  simp only [Function.comp]
  split_ifs <;> rfl

theorem invalidateConnectionPass_spec (keys : List Nat) (clock : Nat → Int) (s : Liveness)
    (hids : (s.db.devices.map Device.ID).Nodup)
    (H : ∀ k ∈ keys, k ≠ 0 ∧ (s.DeviceStates k ≠ none → s.db.firstDevice k ≠ none)) :
    (invalidateConnectionPass keys clock s).2 = true ∧
    (∀ g, (invalidateConnectionPass keys clock s).1.DeviceStates g =
      (s.DeviceStates g).map (fun st =>
        if g ∈ keys ∧ st.Connected = 1 ∧ st.ValidTill < clock g
        then { st with Connected := 0 } else st)) ∧
    (∀ g, g ≠ 0 → (invalidateConnectionPass keys clock s).1.db.firstDevice g =
      match s.DeviceStates g with
      | some st =>
        if g ∈ keys ∧ st.Connected = 1 ∧ st.ValidTill < clock g
        then (s.db.firstDevice g).map (fun d => { d with Status := 0 }) else s.db.firstDevice g
      | none => s.db.firstDevice g) := by
  induction keys generalizing s with
  | nil =>
    refine ⟨rfl, ?_, ?_⟩
    · intro g
      cases h : s.DeviceStates g <;> simp [invalidateConnectionPass, h]
    · intro g _
      cases h : s.DeviceStates g <;> simp [invalidateConnectionPass, h]
  | cons k rest ih =>
    have Hrest : ∀ k1 ∈ rest,
        k1 ≠ 0 ∧ (s.DeviceStates k1 ≠ none → s.db.firstDevice k1 ≠ none) :=
      fun k1 hk1 => H k1 (List.mem_cons_of_mem k hk1)
    have hk0 : k ≠ 0 := (H k (List.mem_cons_self k rest)).1
    cases hk : s.DeviceStates k with
    | none =>
      simp only [invalidateConnectionPass, hk]
      obtain ⟨h1, h2, h3⟩ := ih s hids Hrest
      refine ⟨h1, ?_, ?_⟩
      · intro g
        rw [h2 g]
        by_cases hg : g = k
        · subst hg
          simp [hk]
        · simp [hg]
      · intro g hg0
        rw [h3 g hg0]
        by_cases hg : g = k
        · subst hg
          simp [hk]
        · simp [hg]
    | some st =>
      by_cases hc : st.Connected = 1 ∧ st.ValidTill < clock k
      · obtain ⟨d, hd⟩ := Option.ne_none_iff_exists'.mp
          ((H k (List.mem_cons_self k rest)).2 (by simp [hk]))
        have hstep : invalidateConnectionPass (k :: rest) clock s =
            invalidateConnectionPass rest clock
              { DeviceStates := Function.update s.DeviceStates k (some { st with Connected := 0 }),
                db := s.db.updateDeviceStatus d.ID 0 } := by
          simp [invalidateConnectionPass, hk, hc, DB.saveDeviceStatus, hd]
        rw [hstep]
        have H2 : ∀ k1 ∈ rest, k1 ≠ 0 ∧
            ((Function.update s.DeviceStates k (some { st with Connected := 0 })) k1 ≠ none →
            (s.db.updateDeviceStatus d.ID 0).firstDevice k1 ≠ none) := by
          intro k1 hk1
          refine ⟨(Hrest k1 hk1).1, ?_⟩
          intro hne
          by_cases hkk : k1 = k
          · subst hkk
            simp [firstDevice_updateDeviceStatus, hd]
          · simp only [Function.update_noteq hkk] at hne
            have := (Hrest k1 hk1).2 hne
            rw [firstDevice_updateDeviceStatus]
            simpa using this
        have hids2 : ((s.db.updateDeviceStatus d.ID 0).devices.map Device.ID).Nodup := by
          rw [updateDeviceStatus_ids]
          exact hids
        obtain ⟨h1, h2, h3⟩ := ih
          { DeviceStates := Function.update s.DeviceStates k (some { st with Connected := 0 }),
            db := s.db.updateDeviceStatus d.ID 0 } hids2 H2
        refine ⟨h1, ?_, ?_⟩
        · intro g
          rw [h2 g]
          by_cases hg : g = k
          · subst hg
            simp [hk, hc]
          · simp [hg, Function.update_noteq hg]
        · intro g hg0
          rw [h3 g hg0]
          by_cases hg : g = k
          · subst hg
            simp [hk, hc, hd, firstDevice_updateDeviceStatus_self s.db g 0 d hd]
          · simp [hg, Function.update_noteq hg,
              firstDevice_updateDeviceStatus_other s.db g k 0 d hids hg0 hk0 hg hd]
      · have hstep : invalidateConnectionPass (k :: rest) clock s =
            invalidateConnectionPass rest clock s := by
          simp [invalidateConnectionPass, hk, hc]
        rw [hstep]
        obtain ⟨h1, h2, h3⟩ := ih s hids Hrest
        refine ⟨h1, ?_, ?_⟩
        · intro g
          rw [h2 g]
          by_cases hg : g = k
          · subst hg
            simp [hk, hc]
          · simp [hg]
        · intro g hg0
          rw [h3 g hg0]
          by_cases hg : g = k
          · subst hg
            simp [hk, hc]
          · simp [hg]

theorem KeepConnected_connected (s : Liveness) (gateID : Nat) (t0 : Int) (st : DeviceState)
    (hst : s.DeviceStates gateID = some st) (hc : st.Connected = 1) :
    KeepConnected gateID t0 s = some { s with
      DeviceStates := Function.update s.DeviceStates gateID
        (some { Connected := 1, ValidTill := t0 + 60 * Second }) } := by
  simp [KeepConnected, hst, hc]

theorem KeepConnected_disconnected (s : Liveness) (gateID : Nat) (t0 : Int) (st : DeviceState)
    (device : Device) (hst : s.DeviceStates gateID = some st) (hc : st.Connected ≠ 1)
    (hdev : s.db.firstDevice gateID = some device) :
    KeepConnected gateID t0 s = some
      { DeviceStates := Function.update s.DeviceStates gateID
          (some { Connected := 1, ValidTill := t0 + 60 * Second }),
        db := s.db.updateDeviceStatus device.ID 1 } := by
  simp [KeepConnected, hst, hc, DB.saveDeviceStatus, hdev]

/-- The heartbeat transition wherever the device lookup gives the gate's own
device. For a nonzero gate id with an entry `st` in the liveness table and a
row `device` in the Store (primary keys distinct, an entry marked connected
mirroring a row with status 1), `KeepConnected` at `t0` returns normally with
the entry `{Connected = 1, ValidTill = t0 + 60 s}`, the Store row at status 1,
the Store written only when the entry was not connected, and every other entry
and the row of every other nonzero gate id untouched. A sweep pass right after
it, over nonzero keys that include the gate id and all have Store rows, in any
order, runs to its end, never changes a `ValidTill`, and leaves the entry and
the Store row disconnected if and only if `t0 + 60 s` is strictly before the
clock reading `clock gateID` of its test. -/
theorem KeepConnected_then_sweep_of_firstDevice (s : Liveness) (gateID : Nat) (t0 : Int)
    (st : DeviceState) (device : Device) (hne : gateID ≠ 0)
    (hids : (s.db.devices.map Device.ID).Nodup)
    (hst : s.DeviceStates gateID = some st) (hdev : s.db.firstDevice gateID = some device)
    (hmirror : st.Connected = 1 → device.Status = 1) :
    ∃ s1, KeepConnected gateID t0 s = some s1 ∧
      s1.DeviceStates gateID = some { Connected := 1, ValidTill := t0 + 60 * Second } ∧
      s1.db.firstDevice gateID = some { device with Status := 1 } ∧
      (st.Connected = 1 → s1.db = s.db) ∧
      (∀ g, g ≠ gateID → s1.DeviceStates g = s.DeviceStates g ∧
        (g ≠ 0 → s1.db.firstDevice g = s.db.firstDevice g)) ∧
      s1.db.roomPopulations = s.db.roomPopulations ∧
      (∀ (keys : List Nat) (clock : Nat → Int), gateID ∈ keys →
        (∀ k ∈ keys, k ≠ 0 ∧ (s1.DeviceStates k ≠ none → s1.db.firstDevice k ≠ none)) →
        (invalidateConnectionPass keys clock s1).2 = true ∧
        (invalidateConnectionPass keys clock s1).1.DeviceStates gateID = some
          { Connected := if t0 + 60 * Second < clock gateID then 0 else 1,
            ValidTill := t0 + 60 * Second } ∧
        (invalidateConnectionPass keys clock s1).1.db.firstDevice gateID = some
          { device with Status := if t0 + 60 * Second < clock gateID then 0 else 1 } ∧
        (∀ g e, s1.DeviceStates g = some e →
          ∃ e1, (invalidateConnectionPass keys clock s1).1.DeviceStates g = some e1 ∧
            e1.ValidTill = e.ValidTill)) := by
  have hsweep : ∀ s1 : Liveness,
      (s1.db.devices.map Device.ID).Nodup →
      s1.DeviceStates gateID = some { Connected := 1, ValidTill := t0 + 60 * Second } →
      s1.db.firstDevice gateID = some { device with Status := 1 } →
      ∀ (keys : List Nat) (clock : Nat → Int), gateID ∈ keys →
        (∀ k ∈ keys, k ≠ 0 ∧ (s1.DeviceStates k ≠ none → s1.db.firstDevice k ≠ none)) →
        (invalidateConnectionPass keys clock s1).2 = true ∧
        (invalidateConnectionPass keys clock s1).1.DeviceStates gateID = some
          { Connected := if t0 + 60 * Second < clock gateID then 0 else 1,
            ValidTill := t0 + 60 * Second } ∧
        (invalidateConnectionPass keys clock s1).1.db.firstDevice gateID = some
          { device with Status := if t0 + 60 * Second < clock gateID then 0 else 1 } ∧
        (∀ g e, s1.DeviceStates g = some e →
          ∃ e1, (invalidateConnectionPass keys clock s1).1.DeviceStates g = some e1 ∧
            e1.ValidTill = e.ValidTill) := by
    intro s1 hn he hd keys clock hmem H
    obtain ⟨h1, h2, h3⟩ := invalidateConnectionPass_spec keys clock s1 hn H
    refine ⟨h1, ?_, ?_, ?_⟩
    · rw [h2 gateID, he]
      by_cases hlt : t0 + 60 * Second < clock gateID
      · simp [hmem, hlt]
      · simp [hlt]
    · rw [h3 gateID hne, he]
      by_cases hlt : t0 + 60 * Second < clock gateID
      · simp [hmem, hlt, hd]
      · simp [hlt, hd]
    · intro g e hge
      rw [h2 g, hge]
      simp only [Option.map_some']
      split_ifs
      · exact ⟨_, rfl, rfl⟩
      · exact ⟨_, rfl, rfl⟩
  by_cases hc : st.Connected = 1
  · have hrow : s.db.firstDevice gateID = some { device with Status := 1 } := by
      have hs1 := hmirror hc
      obtain ⟨id, gate, status⟩ := device
      simp only at hs1
      simp [hdev, hs1]
    refine ⟨_, KeepConnected_connected s gateID t0 st hst hc, ?_, hrow, ?_, ?_, rfl, ?_⟩
    · simp
    · intro _
      rfl
    · intro g hg
      simp [Function.update_noteq hg]
    · apply hsweep
      · exact hids
      · simp
      · exact hrow
  · refine ⟨_, KeepConnected_disconnected s gateID t0 st device hst hc hdev, ?_, ?_, ?_, ?_, rfl,
      ?_⟩
    · simp
    · exact firstDevice_updateDeviceStatus_self s.db gateID 1 device hdev
    · intro h
      exact absurd h hc
    · intro g hg
      refine ⟨by simp [Function.update_noteq hg], ?_⟩
      intro hg0
      exact firstDevice_updateDeviceStatus_other s.db g gateID 1 device hids hg0 hne hg hdev
    · apply hsweep
      · show ((s.db.updateDeviceStatus device.ID 1).devices.map Device.ID).Nodup
        rw [updateDeviceStatus_ids]
        exact hids
      · simp
      · exact firstDevice_updateDeviceStatus_self s.db gateID 1 device hdev

/-- C17, evaluated on the code. The Store has device 1 with gate id 100 and
device 3 with gate id 0, all disconnected, and the liveness table is the one
`gateconnection.Init` builds from it. `KeepConnected(0)` at 7 ns marks the entry
of gate 0 connected until 7 ns + 60 s, but its lookup for gate id 0 gives device
1, so it is the row of gate 100 that gets status 1, and the row of gate 0 stays
at status 0. For gate 400 in the same state the row of gate 400 gets status 1.
The defect reaches other gates: after `KeepConnected(0)` at 0 and
`KeepConnected(100)` at 50 s, a sweep pass at 61 s expires the entry of gate 0
and writes status 0 to the row of gate 100, whose entry is connected and valid
until 110 s. -/
theorem KeepConnected_zero_gate_id :
    (KeepConnected 0 7 (Liveness.Init (fun _ => 0) zeroGateDB)).map
        (fun s1 => (s1.DeviceStates 0, s1.db.devices))
      = some (some ⟨1, 7 + 60 * Second⟩,
          [⟨1, 100, 1⟩, ⟨2, 200, 0⟩, ⟨3, 0, 0⟩, ⟨4, 400, 0⟩]) ∧
    (KeepConnected 400 7 (Liveness.Init (fun _ => 0) zeroGateDB)).map
        (fun s1 => (s1.DeviceStates 400, s1.db.devices))
      = some (some ⟨1, 7 + 60 * Second⟩,
          [⟨1, 100, 0⟩, ⟨2, 200, 0⟩, ⟨3, 0, 0⟩, ⟨4, 400, 1⟩]) ∧
    (((KeepConnected 0 0 (Liveness.Init (fun _ => 0) zeroGateDB)).bind
        (KeepConnected 100 (50 * Second))).map
        (fun s2 =>
          ((invalidateConnectionPass [0, 100, 200, 400] (fun _ => 61 * Second) s2).1.DeviceStates 100,
            (invalidateConnectionPass [0, 100, 200, 400] (fun _ => 61 * Second) s2).1.db.devices)))
      = some (some ⟨1, 50 * Second + 60 * Second⟩,
          [⟨1, 100, 0⟩, ⟨2, 200, 0⟩, ⟨3, 0, 0⟩, ⟨4, 400, 0⟩]) :=
  ⟨by decide, by decide, by decide⟩

/-- C18, evaluated on the code. With no entry for gate 100 in the liveness table
and a device with gate id 100 in the Store, `KeepConnected(100)` does not
return: after the lookup finds the device it reads `deviceState.Connected`
through the nil pointer and panics. Only for a gate id that the Store does not
know either (gate 300) does it return, changing nothing. -/
theorem KeepConnected_nil_dereference :
    (KeepConnected 100 0 { DeviceStates := fun _ => none, db := scenarioDB 1 0 5 }).isSome
      = false ∧
    (KeepConnected 300 0 { DeviceStates := fun _ => none, db := scenarioDB 1 0 5 }).isSome
      = true := by
  decide

/-! ## The dispatcher -/

/-- C20, evaluated on the code. For the known device with gate id 100, when the
`DeviceLog` insert fails: an increment packet leaves room 1 at 5 (with the
insert succeeding it goes to 6), and a heartbeat leaves the liveness entry not
connected (with the insert succeeding it becomes connected, valid for 60 s):
both cases `break` before the per-type action. A decrement packet still takes
room 1 from 5 to 4 and an unblocked gate-status still reaches `GateActive`
(the inner gate's `LastActive` is set): those two cases do not `break`. -/
theorem log_failure_stops_increment_and_heartbeat :
    (packetPasserStep ⟨[0, 100], 1, PacketTypeIncrement⟩ (some Err.ErrStore) 7
        (scenarioSystem 5 5)).map System.observe
      = some (some 5, some ⟨0, 0⟩, none, 0, 1) ∧
    (packetPasserStep ⟨[0, 100], 1, PacketTypeIncrement⟩ none 7
        (scenarioSystem 5 5)).map System.observe
      = some (some 6, some ⟨0, 0⟩, none, 1, 1) ∧
    (packetPasserStep ⟨[0, 100], 1, PacketTypeHeartbeat⟩ (some Err.ErrStore) 7
        (scenarioSystem 5 5)).map System.observe
      = some (some 5, some ⟨0, 0⟩, none, 0, 1) ∧
    (packetPasserStep ⟨[0, 100], 1, PacketTypeHeartbeat⟩ none 7
        (scenarioSystem 5 5)).map System.observe
      = some (some 5, some ⟨1, 7 + 60 * Second⟩, none, 1, 1) ∧
    (packetPasserStep ⟨[0, 100], 1, PacketTypeDecrement⟩ (some Err.ErrStore) 7
        (scenarioSystem 5 5)).map System.observe
      = some (some 4, some ⟨0, 0⟩, none, 0, 1) ∧
    (packetPasserStep ⟨[0, 100, 2, 0, 0, 0, 9], 1, PacketTypeGateStatus⟩ (some Err.ErrStore) 7
        (scenarioSystem 5 5)).map System.observe
      = some (some 5, some ⟨0, 0⟩, some 7, 0, 1) :=
  ⟨by decide, by decide, by decide, by decide, by decide, by decide⟩

/-! ## Totality of the door state machine -/

theorem gateActiveOnDoorNoPassFrame_some (gateID : Nat) (now : Int) (d : DoorState)
    (db : Store) : ∃ r, gateActiveOnDoorNoPassFrame gateID now d db = some r := by
  by_cases hi : gateID = d.InnerGateState.GateID
  · cases hl : d.InnerGateState.LastActive with
    | none => simp [gateActiveOnDoorNoPassFrame, hi.symm, hl]
    | some t =>
      by_cases ha : Sub now t ≤ ALLOWANCE_FRAME
      · simp [gateActiveOnDoorNoPassFrame, hi.symm, hl, ha]
      · by_cases h1 : d.LastBlocked.Gate = LastBlockedGateNone
        · simp [gateActiveOnDoorNoPassFrame, hi.symm, hl, ha, h1]
        · by_cases h2 : d.LastBlocked.Gate = LastBlockedGateInner
          · simp [gateActiveOnDoorNoPassFrame, hi.symm, hl, ha, h2]
          · simp [gateActiveOnDoorNoPassFrame, hi.symm, hl, ha, h1, h2]
  · by_cases ho : gateID = d.OuterGateState.GateID
    · cases hl : d.OuterGateState.LastActive with
      | none => simp [gateActiveOnDoorNoPassFrame, hi, ho.symm, hl]
      | some t =>
        by_cases ha : Sub now t ≤ ALLOWANCE_FRAME
        · simp [gateActiveOnDoorNoPassFrame, hi, ho.symm, hl, ha]
        · by_cases h1 : d.LastBlocked.Gate = LastBlockedGateNone
          · simp [gateActiveOnDoorNoPassFrame, hi, ho.symm, hl, ha, h1]
          · by_cases h2 : d.LastBlocked.Gate = LastBlockedGateOuter
            · simp [gateActiveOnDoorNoPassFrame, hi, ho.symm, hl, ha, h2]
            · simp [gateActiveOnDoorNoPassFrame, hi, ho.symm, hl, ha, h1, h2]
    · simp [gateActiveOnDoorNoPassFrame, hi, ho]

theorem gateActiveOnDoor_some (gateID : Nat) (now : Int) (d : DoorState) (db : Store)
    (hd : d.LastBlocked.consistent) : ∃ r, gateActiveOnDoor gateID now d db = some r := by
  rw [gateActiveOnDoor_eq_NoPassFrame gateID now d db (consistent_set d.LastBlocked hd)]
  exact gateActiveOnDoorNoPassFrame_some gateID now d db

theorem GateActive_some (gateID : Nat) (now : Int) (w : World)
    (hw : ∀ ptr, (w.heap ptr).LastBlocked.consistent) :
    ∃ w1, GateActive gateID now w = some w1 := by
  unfold GateActive
  cases hdoor : w.doorStates gateID with
  | none => exact ⟨w, rfl⟩
  | some ptr =>
    obtain ⟨⟨d1, db1⟩, hr⟩ := gateActiveOnDoor_some gateID now (w.heap ptr) w.db (hw ptr)
    simp only [hr]
    exact ⟨_, rfl⟩

theorem runGateActive_some (calls : List (Nat × Int)) (w : World)
    (hw : ∀ ptr, (w.heap ptr).LastBlocked.consistent) :
    ∃ w1, runGateActive calls w = some w1 := by
  induction calls generalizing w with
  | nil => exact ⟨w, rfl⟩
  | cons c cs ih =>
    obtain ⟨g, now⟩ := c
    obtain ⟨w2, h2⟩ := GateActive_some g now w hw
    simp only [runGateActive, h2]
    exact ih w2 (GateActive_consistent g now w w2 hw h2)

theorem GateActive_doorStates (gateID : Nat) (now : Int) (w w1 : World)
    (h : GateActive gateID now w = some w1) : w1.doorStates = w.doorStates := by
  unfold GateActive at h
  cases hdoor : w.doorStates gateID with
  | none =>
    simp only [hdoor, Option.some.injEq] at h
    rw [← h]
  | some ptr =>
    simp only [hdoor] at h
    cases hstep : gateActiveOnDoor gateID now (w.heap ptr) w.db with
    | none => simp [hstep] at h
    | some r =>
      obtain ⟨d1, db1⟩ := r
      simp only [hstep, Option.some.injEq] at h
      rw [← h]

theorem runGateActive_doorStates (calls : List (Nat × Int)) (w w1 : World)
    (h : runGateActive calls w = some w1) : w1.doorStates = w.doorStates := by
  induction calls generalizing w with
  | nil =>
    simp only [runGateActive, Option.some.injEq] at h
    rw [← h]
  | cons c cs ih =>
    obtain ⟨g, now⟩ := c
    simp only [runGateActive] at h
    cases hstep : GateActive g now w with
    | none => simp [hstep] at h
    | some w2 =>
      simp only [hstep] at h
      rw [ih w2 h, GateActive_doorStates g now w w2 hstep]

theorem initLoop_doorStates_other (devicePairs : List DevicePair) (ptr : Nat)
    (acc : (Nat → Option Nat) × (Nat → DoorState)) (gateID : Nat)
    (hg : ∀ p ∈ devicePairs, gateID ≠ p.InnerGateGateID ∧ gateID ≠ p.OuterGateGateID) :
    (initLoop devicePairs ptr acc).1 gateID = acc.1 gateID := by
  induction devicePairs generalizing ptr acc with
  | nil => rfl
  | cons dp rest ih =>
    obtain ⟨m, hp⟩ := acc
    simp only [initLoop]
    rw [ih _ _ (fun p hp1 => hg p (List.mem_cons_of_mem dp hp1))]
    have h1 := hg dp (List.mem_cons_self dp rest)
    simp [Function.update_noteq h1.1, Function.update_noteq h1.2]

theorem Init_doorStates_other (devicePairs : List DevicePair) (db : Store) (gateID : Nat)
    (hg : ∀ p ∈ devicePairs, gateID ≠ p.InnerGateGateID ∧ gateID ≠ p.OuterGateGateID) :
    (Init devicePairs db).doorStates gateID = none := by
  have h := initLoop_doorStates_other devicePairs 0
    (fun _ => none, fun _ => newDoorState ⟨0, 0, 0, 0, 0⟩) gateID hg
  exact h

theorem consistent_iff (lb : LastBlock) (h : lb.consistent) :
    (lb.Gate = LastBlockedGateNone ↔ (lb.Start = none ∧ lb.End = none)) := by
  rcases h with ⟨h0, h1, h2⟩ | ⟨h0, h1, h2⟩
  · exact ⟨fun _ => ⟨h1, h2⟩, fun _ => h0⟩
  · exact ⟨fun h => absurd h h0, fun h => absurd h.1 h1⟩

/-- C23. Totality of the door state machine. From `Init` on any device pairs and
for any sequence of `GateActive` calls (any gate ids, any clock readings), no
call panics, and in the world reached every door state has
`LastBlocked.Gate = None` if and only if `LastBlocked.Start` and
`LastBlocked.End` are both nil, and has both set whenever `LastBlocked.Gate` is
a side; so one more `GateActive` call, for any gate id at any time, returns
without meeting nil in the dereferences of the opposite-side branch, and a call
with a gate id that is the inner or outer gate of no pair changes nothing. -/
theorem door_state_machine_total (devicePairs : List DevicePair) (db : Store)
    (calls : List (Nat × Int)) :
    ∃ w, runGateActive calls (Init devicePairs db) = some w ∧
      (∀ ptr,
        ((w.heap ptr).LastBlocked.Gate = LastBlockedGateNone ↔
          ((w.heap ptr).LastBlocked.Start = none ∧ (w.heap ptr).LastBlocked.End = none)) ∧
        ((w.heap ptr).LastBlocked.Gate ≠ LastBlockedGateNone →
          (∃ s, (w.heap ptr).LastBlocked.Start = some s) ∧
            ∃ e, (w.heap ptr).LastBlocked.End = some e)) ∧
      (∀ gateID now, ∃ w1, GateActive gateID now w = some w1) ∧
      (∀ gateID now,
        (∀ p ∈ devicePairs, gateID ≠ p.InnerGateGateID ∧ gateID ≠ p.OuterGateGateID) →
        GateActive gateID now w = some w) := by
  obtain ⟨w, hw⟩ := runGateActive_some calls (Init devicePairs db) (Init_consistent devicePairs db)
  have hc := runGateActive_consistent calls _ w (Init_consistent devicePairs db) hw
  refine ⟨w, hw, ?_, ?_, ?_⟩
  · intro ptr
    exact ⟨consistent_iff _ (hc ptr), consistent_set _ (hc ptr)⟩
  · intro gateID now
    exact GateActive_some gateID now w hc
  · intro gateID now hg
    have hd : w.doorStates gateID = none := by
      rw [runGateActive_doorStates calls _ w hw]
      exact Init_doorStates_other devicePairs db gateID hg
    simp [GateActive, hd]

theorem door_state_machine_total_witness :
    ∃ w, runGateActive [(200, 0), (200, 700 * Millisecond), (100, 900 * Millisecond),
        (100, 2300 * Millisecond)] (Init [scenarioPair] (scenarioStore 0 5)) = some w ∧
      (∀ ptr,
        ((w.heap ptr).LastBlocked.Gate = LastBlockedGateNone ↔
          ((w.heap ptr).LastBlocked.Start = none ∧ (w.heap ptr).LastBlocked.End = none)) ∧
        ((w.heap ptr).LastBlocked.Gate ≠ LastBlockedGateNone →
          (∃ s, (w.heap ptr).LastBlocked.Start = some s) ∧
            ∃ e, (w.heap ptr).LastBlocked.End = some e)) ∧
      (∀ gateID now, ∃ w1, GateActive gateID now w = some w1) ∧
      (∀ gateID now,
        (∀ p ∈ [scenarioPair], gateID ≠ p.InnerGateGateID ∧ gateID ≠ p.OuterGateGateID) →
        GateActive gateID now w = some w) :=
  door_state_machine_total [scenarioPair] (scenarioStore 0 5)
    [(200, 0), (200, 700 * Millisecond), (100, 900 * Millisecond), (100, 2300 * Millisecond)]

/-! ## Inner/outer symmetry -/

theorem outerGateTx_mirror (d : DoorState) : outerGateTx d.mirror = innerGateTx d := by
  funext tx
  simp only [outerGateTx, innerGateTx, DoorState.mirror]

theorem innerGateTx_mirror (d : DoorState) : innerGateTx d.mirror = outerGateTx d := by
  funext tx
  simp only [outerGateTx, innerGateTx, DoorState.mirror]

theorem innerGateTx_rooms (d d1 : DoorState) (h1 : d.InnerRoomID = d1.InnerRoomID)
    (h2 : d.OuterRoomID = d1.OuterRoomID) : innerGateTx d = innerGateTx d1 := by
  funext tx
  simp only [innerGateTx, h1, h2]

theorem outerGateTx_rooms (d d1 : DoorState) (h1 : d.InnerRoomID = d1.InnerRoomID)
    (h2 : d.OuterRoomID = d1.OuterRoomID) : outerGateTx d = outerGateTx d1 := by
  funext tx
  simp only [outerGateTx, h1, h2]

theorem gateActiveOnDoor_mirror_inner (gateID : Nat) (now : Int) (d : DoorState) (db : Store)
    (hi : gateID = d.InnerGateState.GateID)
    (hne : d.InnerGateState.GateID ≠ d.OuterGateState.GateID) :
    gateActiveOnDoor gateID now d.mirror db =
      (gateActiveOnDoor gateID now d db).map (fun r => (r.1.mirror, r.2)) := by
  obtain ⟨pid, ⟨gi, lai⟩, ⟨go, lao⟩, ri, ro, ⟨lbg, lbs, lbe⟩⟩ := d
  simp only at hi hne
  subst hi
  have htx : ∀ d1 : DoorState, d1.OuterRoomID = ri → d1.InnerRoomID = ro →
      Transaction db (outerGateTx d1) = Transaction db (innerGateTx
        { DevicePairID := pid, InnerGateState := { GateID := gateID, LastActive := some now },
          OuterGateState := { GateID := go, LastActive := lao }, InnerRoomID := ri,
          OuterRoomID := ro,
          LastBlocked := { Gate := LastBlockedGateNone, Start := none, End := none } }) := by
    intro d1 a b
    have h : outerGateTx d1 = innerGateTx
        { DevicePairID := pid, InnerGateState := { GateID := gateID, LastActive := some now },
          OuterGateState := { GateID := go, LastActive := lao }, InnerRoomID := ri,
          OuterRoomID := ro,
          LastBlocked := { Gate := LastBlockedGateNone, Start := none, End := none } } := by
      funext tx
      simp only [outerGateTx, innerGateTx, a, b]
    rw [h]
  cases lai with
  | none => simp [gateActiveOnDoor, DoorState.mirror, hne]
  | some t =>
    by_cases ha : Sub now t ≤ ALLOWANCE_FRAME
    · simp [gateActiveOnDoor, DoorState.mirror, hne, ha]
    · cases lbg with
      | LastBlockedGateNone =>
        simp [gateActiveOnDoor, DoorState.mirror, LastBlockedGate.mirror, hne, ha]
      | LastBlockedGateInner =>
        simp [gateActiveOnDoor, DoorState.mirror, LastBlockedGate.mirror, hne, ha]
      | LastBlockedGateOuter =>
        cases lbs with
        | none =>
          simp [gateActiveOnDoor, DoorState.mirror, LastBlockedGate.mirror, hne, ha,
            passFrameExceeded]
        | some s =>
          by_cases h1 : Sub t s > PASS_FRAME
          · simp only [gateActiveOnDoor, DoorState.mirror, LastBlockedGate.mirror, hne, ha,
              passFrameExceeded, h1, if_true, if_false, reduceCtorEq, Option.map_some']
            rw [htx _ rfl rfl]
          · cases lbe with
            | none =>
              simp [gateActiveOnDoor, DoorState.mirror, LastBlockedGate.mirror, hne, ha,
                passFrameExceeded, h1]
            | some e =>
              by_cases h2 : Sub now e > PASS_FRAME
              · simp only [gateActiveOnDoor, DoorState.mirror, LastBlockedGate.mirror, hne, ha,
                  passFrameExceeded, h1, h2, if_true, if_false, reduceCtorEq, Option.map_some',
                  decide_True]
                rw [htx _ rfl rfl]
              · simp only [gateActiveOnDoor, DoorState.mirror, LastBlockedGate.mirror, hne, ha,
                  passFrameExceeded, h1, h2, if_true, if_false, reduceCtorEq, Option.map_some',
                  decide_False]
                rw [htx _ rfl rfl]

theorem LastBlockedGate_mirror_mirror (g : LastBlockedGate) : g.mirror.mirror = g := by
  cases g <;> rfl

theorem DoorState_mirror_mirror (d : DoorState) : d.mirror.mirror = d := by
  obtain ⟨pid, gi, go, ri, ro, ⟨lbg, lbs, lbe⟩⟩ := d
  simp [DoorState.mirror, LastBlockedGate_mirror_mirror]

theorem gateActiveOnDoor_mirror_outer (gateID : Nat) (now : Int) (d : DoorState) (db : Store)
    (ho : gateID = d.OuterGateState.GateID)
    (hne : d.InnerGateState.GateID ≠ d.OuterGateState.GateID) :
    gateActiveOnDoor gateID now d.mirror db =
      (gateActiveOnDoor gateID now d db).map (fun r => (r.1.mirror, r.2)) := by
  have h := gateActiveOnDoor_mirror_inner gateID now d.mirror db ho (fun h => hne h.symm)
  rw [DoorState_mirror_mirror] at h
  rw [h, Option.map_map]
  have hf : ((fun r : DoorState × Store => (r.1.mirror, r.2)) ∘
      fun r : DoorState × Store => (r.1.mirror, r.2)) = id := by
    funext r
    simp [DoorState_mirror_mirror]
  rw [hf, Option.map_id]
  rfl

/-- C24. Inner/outer symmetry. For a door whose inner and outer gate ids are
distinct, mirroring its state (inner and outer `GateState` exchanged, inner and
outer room ids exchanged, the side in `LastBlocked` exchanged) commutes with
`GateActive`: the call for one of the door's gates at `now` on the mirrored
state, where that gate is on the other side, gives the mirror of the door state
that the call gives on the original state, with the same store afterwards, and
it panics exactly when the original call does. -/
theorem GateActive_mirror (w : World) (gateID ptr : Nat) (now : Int)
    (hdoor : w.doorStates gateID = some ptr)
    (hne : (w.heap ptr).InnerGateState.GateID ≠ (w.heap ptr).OuterGateState.GateID)
    (hside : gateID = (w.heap ptr).InnerGateState.GateID ∨
      gateID = (w.heap ptr).OuterGateState.GateID) :
    GateActive gateID now (w.mirrorAt ptr) =
      (GateActive gateID now w).map (fun w1 => w1.mirrorAt ptr) := by
  have hstep : gateActiveOnDoor gateID now (w.heap ptr).mirror w.db =
      (gateActiveOnDoor gateID now (w.heap ptr) w.db).map (fun r => (r.1.mirror, r.2)) := by
    rcases hside with hi | ho
    · exact gateActiveOnDoor_mirror_inner gateID now _ _ hi hne
    · exact gateActiveOnDoor_mirror_outer gateID now _ _ ho hne
  simp only [GateActive, World.mirrorAt, hdoor, Function.update_same, hstep]
  cases gateActiveOnDoor gateID now (w.heap ptr) w.db with
  | none => rfl
  | some r =>
    obtain ⟨d1, db1⟩ := r
    simp [Function.update_idem]

theorem GateActive_mirror_witness :
    GateActive 100 (1401 * Millisecond)
        ((singleDoorWorld
          (scenarioDoor (some (900 * Millisecond)) (some (700 * Millisecond))
            { Gate := LastBlockedGateOuter, Start := some 0, End := some (700 * Millisecond) })
          (scenarioStore 0 5)).mirrorAt 0) =
      (GateActive 100 (1401 * Millisecond)
        (singleDoorWorld
          (scenarioDoor (some (900 * Millisecond)) (some (700 * Millisecond))
            { Gate := LastBlockedGateOuter, Start := some 0, End := some (700 * Millisecond) })
          (scenarioStore 0 5))).map (fun w1 => w1.mirrorAt 0) :=
  GateActive_mirror _ 100 0 (1401 * Millisecond) (by decide) (by decide) (Or.inl rfl)

/-! ## No crossing from cold start -/

theorem gateActiveOnDoor_inner_effect (gateID : Nat) (now : Int) (d d1 : DoorState)
    (db db1 : Store) (hi : gateID = d.InnerGateState.GateID) (hd : d.LastBlocked.consistent)
    (h : gateActiveOnDoor gateID now d db = some (d1, db1)) :
    d1.InnerGateState.GateID = d.InnerGateState.GateID ∧
    d1.OuterGateState = d.OuterGateState ∧
    (d.InnerGateState.LastActive = none → d1.LastBlocked = d.LastBlocked ∧ db1 = db) ∧
    (d1.LastBlocked.Gate = LastBlockedGateInner →
      d.LastBlocked.Gate = LastBlockedGateInner ∨ d.InnerGateState.LastActive ≠ none) ∧
    (d1.LastBlocked.Gate = LastBlockedGateOuter →
      d.LastBlocked.Gate = LastBlockedGateOuter) ∧
    (db1 ≠ db → d.InnerGateState.LastActive ≠ none ∧
      d.LastBlocked.Gate = LastBlockedGateOuter) := by
  rw [gateActiveOnDoor_eq_NoPassFrame gateID now d db (consistent_set d.LastBlocked hd)] at h
  cases hl : d.InnerGateState.LastActive with
  | none =>
    simp only [gateActiveOnDoorNoPassFrame, hi.symm, hl, if_true, Option.some.injEq,
      Prod.mk.injEq] at h
    obtain ⟨h1, h2⟩ := h
    subst h1 h2
    simp [← hi]
  | some t =>
    by_cases ha : Sub now t ≤ ALLOWANCE_FRAME
    · simp only [gateActiveOnDoorNoPassFrame, hi.symm, hl, ha, if_true, Option.some.injEq,
        Prod.mk.injEq] at h
      obtain ⟨h1, h2⟩ := h
      subst h1 h2
      simp [← hi]
    · cases hb : d.LastBlocked.Gate with
      | LastBlockedGateNone =>
        simp only [gateActiveOnDoorNoPassFrame, hi.symm, hl, ha, hb, if_true, if_false,
          Option.some.injEq, Prod.mk.injEq] at h
        obtain ⟨h1, h2⟩ := h
        subst h1 h2
        simp [← hi]
      | LastBlockedGateInner =>
        simp only [gateActiveOnDoorNoPassFrame, hi.symm, hl, ha, hb, if_true, if_false,
          reduceCtorEq, Option.some.injEq, Prod.mk.injEq] at h
        obtain ⟨h1, h2⟩ := h
        subst h1 h2
        simp [hb, ← hi]
      | LastBlockedGateOuter =>
        simp only [gateActiveOnDoorNoPassFrame, hi.symm, hl, ha, hb, if_true, if_false,
          reduceCtorEq, Option.some.injEq, Prod.mk.injEq] at h
        obtain ⟨h1, h2⟩ := h
        subst h1
        simp [← hi]

theorem gateActiveOnDoor_outer_effect (gateID : Nat) (now : Int) (d d1 : DoorState)
    (db db1 : Store) (hi : gateID ≠ d.InnerGateState.GateID)
    (ho : gateID = d.OuterGateState.GateID) (hd : d.LastBlocked.consistent)
    (h : gateActiveOnDoor gateID now d db = some (d1, db1)) :
    d1.OuterGateState.GateID = d.OuterGateState.GateID ∧
    d1.InnerGateState = d.InnerGateState ∧
    (d.OuterGateState.LastActive = none → d1.LastBlocked = d.LastBlocked ∧ db1 = db) ∧
    (d1.LastBlocked.Gate = LastBlockedGateOuter →
      d.LastBlocked.Gate = LastBlockedGateOuter ∨ d.OuterGateState.LastActive ≠ none) ∧
    (d1.LastBlocked.Gate = LastBlockedGateInner →
      d.LastBlocked.Gate = LastBlockedGateInner) ∧
    (db1 ≠ db → d.OuterGateState.LastActive ≠ none ∧
      d.LastBlocked.Gate = LastBlockedGateInner) := by
  rw [gateActiveOnDoor_eq_NoPassFrame gateID now d db (consistent_set d.LastBlocked hd)] at h
  cases hl : d.OuterGateState.LastActive with
  | none =>
    simp only [gateActiveOnDoorNoPassFrame, hi, ho.symm, hl, if_true, if_false,
      Option.some.injEq, Prod.mk.injEq] at h
    obtain ⟨h1, h2⟩ := h
    subst h1 h2
    simp [← ho]
  | some t =>
    by_cases ha : Sub now t ≤ ALLOWANCE_FRAME
    · simp only [gateActiveOnDoorNoPassFrame, hi, ho.symm, hl, ha, if_true, if_false,
        Option.some.injEq, Prod.mk.injEq] at h
      obtain ⟨h1, h2⟩ := h
      subst h1 h2
      simp [← ho]
    · cases hb : d.LastBlocked.Gate with
      | LastBlockedGateNone =>
        simp only [gateActiveOnDoorNoPassFrame, hi, ho.symm, hl, ha, hb, if_true, if_false,
          Option.some.injEq, Prod.mk.injEq] at h
        obtain ⟨h1, h2⟩ := h
        subst h1 h2
        simp [← ho]
      | LastBlockedGateOuter =>
        simp only [gateActiveOnDoorNoPassFrame, hi, ho.symm, hl, ha, hb, if_true, if_false,
          reduceCtorEq, Option.some.injEq, Prod.mk.injEq] at h
        obtain ⟨h1, h2⟩ := h
        subst h1 h2
        simp [hb, ← ho]
      | LastBlockedGateInner =>
        simp only [gateActiveOnDoorNoPassFrame, hi, ho.symm, hl, ha, hb, if_true, if_false,
          reduceCtorEq, Option.some.injEq, Prod.mk.injEq] at h
        obtain ⟨h1, h2⟩ := h
        subst h1
        simp [← ho]

theorem gateActiveOnDoor_other (gateID : Nat) (now : Int) (d : DoorState) (db : Store)
    (hi : gateID ≠ d.InnerGateState.GateID) (ho : gateID ≠ d.OuterGateState.GateID) :
    gateActiveOnDoor gateID now d db = some (d, db) := by
  simp [gateActiveOnDoor, hi, ho]

theorem callCount_append_self (gateID : Nat) (now : Int) (pre : List (Nat × Int)) :
    callCount gateID (pre ++ [(gateID, now)]) = callCount gateID pre + 1 := by
  simp [callCount, List.count_append]

theorem callCount_le_append (gateID : Nat) (pre cs : List (Nat × Int)) :
    callCount gateID pre ≤ callCount gateID (pre ++ cs) := by
  simp [callCount, List.count_append]

theorem count_add_count_le (a b : Nat) (l : List Nat) (h : a ≠ b) :
    l.count a + l.count b ≤ l.length := by
  induction l with
  | nil => simp
  | cons x t ih =>
    simp only [List.count_cons, List.length_cons]
    by_cases hxa : x = a
    · have hxb : ¬ (x = b) := fun hb => h (hxa.symm.trans hb)
      simp only [hxa, beq_self_eq_true, if_true]
      have : (a == b) = false := by simp [h]
      simp only [this]
      simp only [Bool.false_eq_true, if_false]
      omega
    · have h1 : (x == a) = false := by simp [hxa]
      simp only [h1, Bool.false_eq_true, if_false]
      split_ifs <;> omega

theorem callCount_add_le (a b : Nat) (pre : List (Nat × Int)) (h : a ≠ b) :
    callCount a pre + callCount b pre ≤ pre.length := by
  have := count_add_count_le a b (pre.map Prod.fst) h
  simpa [callCount] using this

theorem coldStartInvariant_mono (devicePair : DevicePair) (pre cs : List (Nat × Int))
    (d : DoorState) (h : coldStartInvariant devicePair pre d) :
    coldStartInvariant devicePair (pre ++ cs) d := by
  obtain ⟨h1, h2, h3, h4, h5, h6, h7⟩ := h
  have mi := callCount_le_append devicePair.InnerGateGateID pre cs
  have mo := callCount_le_append devicePair.OuterGateGateID pre cs
  refine ⟨h1, h2, h3, ?_, ?_, ?_, ?_⟩
  · intro h
    have := h4 h
    omega
  · intro h
    have := h5 h
    exact ⟨by omega, this.2⟩
  · intro h
    have := h6 h
    omega
  · intro h
    have := h7 h
    exact ⟨by omega, this.2⟩

theorem Init_single_lookup (devicePair : DevicePair) (db : Store) (gateID ptr : Nat)
    (h : (Init [devicePair] db).doorStates gateID = some ptr) :
    ptr = 0 ∧ (gateID = devicePair.InnerGateGateID ∨ gateID = devicePair.OuterGateGateID) := by
  simp only [Init, initLoop] at h
  by_cases ho : gateID = devicePair.OuterGateGateID
  · subst ho
    simp only [Function.update_same, Option.some.injEq] at h
    exact ⟨h.symm, Or.inr rfl⟩
  · simp only [Function.update_noteq ho] at h
    by_cases hi : gateID = devicePair.InnerGateGateID
    · subst hi
      simp only [Function.update_same, Option.some.injEq] at h
      exact ⟨h.symm, Or.inl rfl⟩
    · simp [Function.update_noteq hi] at h

theorem Init_single_invariant (devicePair : DevicePair) (db : Store) :
    coldStartInvariant devicePair [] ((Init [devicePair] db).heap 0) := by
  simp [Init, initLoop, coldStartInvariant, newDoorState, LastBlock.consistent]

theorem GateActive_coldStart_step (devicePair : DevicePair) (db0 : Store)
    (pre : List (Nat × Int)) (gateID : Nat) (now : Int) (w : World)
    (hds : w.doorStates = (Init [devicePair] db0).doorStates)
    (hinv : coldStartInvariant devicePair pre (w.heap 0)) :
    ∃ w1, GateActive gateID now w = some w1 ∧
      w1.doorStates = w.doorStates ∧
      coldStartInvariant devicePair (pre ++ [(gateID, now)]) (w1.heap 0) ∧
      (callCount gateID pre = 0 →
        (w1.heap 0).LastBlocked = (w.heap 0).LastBlocked ∧ w1.db = w.db) ∧
      (w1.db ≠ w.db →
        devicePair.InnerGateGateID ≠ devicePair.OuterGateGateID ∧
        ((gateID = devicePair.InnerGateGateID ∧
            1 ≤ callCount devicePair.InnerGateGateID pre ∧
            2 ≤ callCount devicePair.OuterGateGateID pre) ∨
          (gateID = devicePair.OuterGateGateID ∧
            1 ≤ callCount devicePair.OuterGateGateID pre ∧
            2 ≤ callCount devicePair.InnerGateGateID pre))) := by
  cases hdoor : w.doorStates gateID with
  | none =>
    exact ⟨w, by simp [GateActive, hdoor], rfl, coldStartInvariant_mono _ _ _ _ hinv,
      fun _ => ⟨rfl, rfl⟩, fun h => absurd rfl h⟩
  | some ptr =>
    obtain ⟨hp, hside⟩ := Init_single_lookup devicePair db0 gateID ptr (by rw [← hds]; exact hdoor)
    subst hp
    obtain ⟨h1, h2, h3, h4, h5, h6, h7⟩ := hinv
    obtain ⟨⟨d1, db1⟩, hr⟩ := gateActiveOnDoor_some gateID now (w.heap 0) w.db h3
    have hc := gateActiveOnDoor_consistent gateID now _ _ _ _ h3 hr
    have hG := GateActive_of_door w gateID 0 now d1 db1 hdoor hr
    have mi := callCount_le_append devicePair.InnerGateGateID pre [(gateID, now)]
    have mo := callCount_le_append devicePair.OuterGateGateID pre [(gateID, now)]
    refine ⟨_, hG, rfl, ?_⟩
    simp only [Function.update_same]
    by_cases hgi : gateID = devicePair.InnerGateGateID
    · obtain ⟨e1, e2, e3, e4, e5, e6⟩ :=
        gateActiveOnDoor_inner_effect gateID now (w.heap 0) d1 w.db db1 (hgi.trans h1.symm) h3 hr
      subst hgi
      have ms := callCount_append_self devicePair.InnerGateGateID now pre
      refine ⟨⟨e1.trans h1, by rw [e2]; exact h2, hc, ?_, ?_, ?_, ?_⟩, ?_, ?_⟩
      · intro _
        omega
      · intro h
        rw [e2] at h
        have := h5 h
        exact ⟨by omega, this.2⟩
      · intro h
        rcases e4 h with h | h
        · have := h6 h
          omega
        · have := h4 h
          omega
      · intro h
        have := h7 (e5 h)
        exact ⟨by omega, this.2⟩
      · intro h0
        have hn : (w.heap 0).InnerGateState.LastActive = none := by
          by_contra hne
          have := h4 hne
          omega
        exact e3 hn
      · intro hne
        obtain ⟨ha, hb⟩ := e6 hne
        have := h7 hb
        exact ⟨this.2, Or.inl ⟨rfl, h4 ha, this.1⟩⟩
    · have hgo : gateID = devicePair.OuterGateGateID := by
        rcases hside with h | h
        · exact absurd h hgi
        · exact h
      obtain ⟨e1, e2, e3, e4, e5, e6⟩ :=
        gateActiveOnDoor_outer_effect gateID now (w.heap 0) d1 w.db db1
          (by rw [h1]; exact hgi) (hgo.trans h2.symm) h3 hr
      subst hgo
      have hne : devicePair.InnerGateGateID ≠ devicePair.OuterGateGateID := fun h => hgi h.symm
      have ms := callCount_append_self devicePair.OuterGateGateID now pre
      refine ⟨⟨by rw [e2]; exact h1, e1.trans h2, hc, ?_, ?_, ?_, ?_⟩, ?_, ?_⟩
      · intro h
        rw [e2] at h
        have := h4 h
        omega
      · intro _
        exact ⟨by omega, hne⟩
      · intro h
        have := h6 (e5 h)
        omega
      · intro h
        refine ⟨?_, hne⟩
        rcases e4 h with h | h
        · have := (h7 h).1
          omega
        · have := (h5 h).1
          omega
      · intro h0
        have hn : (w.heap 0).OuterGateState.LastActive = none := by
          by_contra hne
          have := (h5 hne).1
          omega
        exact e3 hn
      · intro hdb
        obtain ⟨ha, hb⟩ := e6 hdb
        exact ⟨hne, Or.inr ⟨rfl, (h5 ha).1, h6 hb⟩⟩

theorem runGateActive_coldStart (devicePair : DevicePair) (db0 : Store)
    (calls pre : List (Nat × Int)) (w : World)
    (hds : w.doorStates = (Init [devicePair] db0).doorStates)
    (hinv : coldStartInvariant devicePair pre (w.heap 0)) :
    ∃ w1, runGateActive calls w = some w1 ∧
      w1.doorStates = (Init [devicePair] db0).doorStates ∧
      coldStartInvariant devicePair (pre ++ calls) (w1.heap 0) := by
  induction calls generalizing pre w with
  | nil => exact ⟨w, rfl, hds, by simpa using hinv⟩
  | cons c cs ih =>
    obtain ⟨g, now⟩ := c
    obtain ⟨w1, hG, hd1, hi1, _, _⟩ :=
      GateActive_coldStart_step devicePair db0 pre g now w hds hinv
    obtain ⟨w2, hr, hd2, hi2⟩ := ih (pre ++ [(g, now)]) w1 (hd1.trans hds) hi1
    refine ⟨w2, ?_, hd2, ?_⟩
    · simp only [runGateActive, hG]
      exact hr
    · simpa using hi2

/-- C22. No crossing from cold start. From the state that `Init` builds for one
device pair (both gates with `LastActive` nil, `LastBlocked` at `None`), every
sequence `pre` of `GateActive` calls, with any gate ids and instants, runs to a
world `w`, and one more call for `gateID` at `now` returns a world `w1` such that:
if `gateID` was never called in `pre`, the call leaves `LastBlocked` and every
room population as they were; if the call changes a population, the two gate
ids are distinct, `gateID` is one of them, it was called at least once in `pre`
and the opposite gate at least twice; hence a call preceded by fewer than three
calls changes no population. -/
theorem no_crossing_from_cold_start (devicePair : DevicePair) (db : Store)
    (pre : List (Nat × Int)) (gateID : Nat) (now : Int) :
    ∃ w w1, runGateActive pre (Init [devicePair] db) = some w ∧
      GateActive gateID now w = some w1 ∧
      (callCount gateID pre = 0 →
        (w1.heap 0).LastBlocked = (w.heap 0).LastBlocked ∧ w1.db = w.db) ∧
      (w1.db ≠ w.db →
        devicePair.InnerGateGateID ≠ devicePair.OuterGateGateID ∧
        ((gateID = devicePair.InnerGateGateID ∧
            1 ≤ callCount devicePair.InnerGateGateID pre ∧
            2 ≤ callCount devicePair.OuterGateGateID pre) ∨
          (gateID = devicePair.OuterGateGateID ∧
            1 ≤ callCount devicePair.OuterGateGateID pre ∧
            2 ≤ callCount devicePair.InnerGateGateID pre))) ∧
      (pre.length < 3 → w1.db = w.db) := by
  obtain ⟨w, hr, hds, hinv⟩ := runGateActive_coldStart devicePair db pre []
    (Init [devicePair] db) rfl (Init_single_invariant devicePair db)
  rw [List.nil_append] at hinv
  obtain ⟨w1, hG, _, _, hfirst, hdb⟩ :=
    GateActive_coldStart_step devicePair db pre gateID now w hds hinv
  refine ⟨w, w1, hr, hG, hfirst, hdb, ?_⟩
  intro hlen
  by_contra hne
  obtain ⟨hd, h⟩ := hdb hne
  have hle := callCount_add_le _ _ pre hd
  rcases h with ⟨_, a, b⟩ | ⟨_, a, b⟩ <;> omega

theorem no_crossing_from_cold_start_witness :
    ∃ w w1, runGateActive [(200, 0), (100, 300 * Millisecond)]
        (Init [scenarioPair] (scenarioStore 0 5)) = some w ∧
      GateActive 200 (700 * Millisecond) w = some w1 ∧
      (callCount 200 [(200, 0), (100, 300 * Millisecond)] = 0 →
        (w1.heap 0).LastBlocked = (w.heap 0).LastBlocked ∧ w1.db = w.db) ∧
      (w1.db ≠ w.db →
        scenarioPair.InnerGateGateID ≠ scenarioPair.OuterGateGateID ∧
        ((200 = scenarioPair.InnerGateGateID ∧
            1 ≤ callCount scenarioPair.InnerGateGateID [(200, 0), (100, 300 * Millisecond)] ∧
            2 ≤ callCount scenarioPair.OuterGateGateID [(200, 0), (100, 300 * Millisecond)]) ∨
          (200 = scenarioPair.OuterGateGateID ∧
            1 ≤ callCount scenarioPair.OuterGateGateID [(200, 0), (100, 300 * Millisecond)] ∧
            2 ≤ callCount scenarioPair.InnerGateGateID [(200, 0), (100, 300 * Millisecond)]))) ∧
      ([(200, (0 : Int)), (100, 300 * Millisecond)].length < 3 → w1.db = w.db) :=
  no_crossing_from_cold_start scenarioPair (scenarioStore 0 5)
    [(200, 0), (100, 300 * Millisecond)] 200 (700 * Millisecond)

end Rewired
